import Mathlib

/-!
# framework-kmod: display dimming supervisor

A shallow embedding of the kernel module's power classifier
(`framework_power.c`), screen profile store (`framework_screen.c`),
backlight wrapper (`framework_backlight.c`), manual key handler
(`framework_keyhandler.c`) and dimming supervisor (`framework_callout.c`),
followed by theorems about them.

Conventions.
* C unsigned integers are `Nat`, C signed integers are `Int`; a conversion to
  `uint32_t` is written `u32`.
* A function that takes a mutex returns `Option`: `none` means the calling
  thread blocks for ever on a mutex that is already held.
* Every function is modelled as one sequential run; the values the kernel
  supplies during a run (battery query result, `time_uptime`, `tick`) are
  arguments.
-/

namespace Framework

/-! ## Machine integers and kernel constants -/

/-- Conversion of a C integer value to `uint32_t`. -/
def u32 (z : Int) : Nat := (z % 4294967296).toNat

/-- Conversion of a 32-bit pattern to C `int`. -/
def i32 (n : Nat) : Int :=
  if n % 4294967296 < 2147483648 then (n % 4294967296 : Nat) else (n % 4294967296 : Nat) - 4294967296

/-- The errno value `EDOM` of `<sys/errno.h>`. -/
def EDOM : Int := 33

/-- The errno value `ENXIO` of `<sys/errno.h>`. -/
def ENXIO : Int := 6

/-! ## Power mode classifier (`framework_power.c`) -/

/-- The enumeration `enum framework_power_type_t` used by `framework_power.c`. -/
inductive framework_power_type_t where
  | IVL
  | BAT
  | PWR
  deriving DecidableEq, Repr

/-- The enumeration `enum framework_callout_brightmode_t` used by
`framework_callout.c`. -/
inductive framework_callout_brightmode_t where
  | DIM
  | HIGH
  deriving DecidableEq, Repr

/-- The `ACPI_BATT_STAT_*` case labels of the `switch` in
`framework_pwr_loadbattinfo`. They come from the ACPI headers of the kernel,
so they are a parameter of the model. -/
structure acpi_batt_stat where
  DISCHARG : Int
  CHARGING : Int
  CRITICAL : Int
  deriving DecidableEq, Repr

/-- The case labels of a `switch` are pairwise different; `0` is a label of its
own in `framework_pwr_loadbattinfo`. -/
def acpi_batt_stat.distinct (K : acpi_batt_stat) : Prop :=
  K.DISCHARG ≠ 0 ∧ K.CHARGING ≠ 0 ∧ K.CRITICAL ≠ 0 ∧
  K.DISCHARG ≠ K.CHARGING ∧ K.DISCHARG ≠ K.CRITICAL ∧ K.CHARGING ≠ K.CRITICAL

instance (K : acpi_batt_stat) : Decidable K.distinct := by
  unfold acpi_batt_stat.distinct; infer_instance

/-- The values `acpiio.h` gives the three flags: bits 0, 1 and 2. -/
def acpiio : acpi_batt_stat := { DISCHARG := 1, CHARGING := 2, CRITICAL := 4 }

/-- The kernel's `struct acpi_battinfo`. -/
structure acpi_battinfo where
  cap : Int
  min : Int
  state : Int
  rate : Int
  deriving DecidableEq, Repr

/-- One answer of `acpi_battery_get_battinfo(NULL, &local_battinfo)`: the
error code it returns and the content of `local_battinfo` after the call. -/
structure battquery where
  error : Int
  battinfo : acpi_battinfo
  deriving DecidableEq, Repr

/-- The fields of `struct framework_power_t` the classifier uses; `lock_held`
is the state of the mutex `lock`. -/
structure framework_power_t where
  power_state : framework_power_type_t
  battinfo : acpi_battinfo
  lock_held : Bool
  last_update : Int
  deriving DecidableEq, Repr

/-- Function `framework_pwr_loadbattinfo`. The error code of the query is stored in
`error` and logged, and `error` is set to `0` again right after the lock is
taken. The `default` label returns `EDOM` without `FRAMEWORK_POWER_UNLOCK`. -/
def framework_pwr_loadbattinfo (K : acpi_batt_stat) (q : battquery) (time_uptime : Int)
    (fp : framework_power_t) : Option (Int × framework_power_t) :=
  -- error = acpi_battery_get_battinfo(NULL, &local_battinfo), printed by DEBUG
  let _error : Int := q.error
  -- FRAMEWORK_POWER_LOCK()
  if fp.lock_held then none
  else
    -- memcpy(&framework_power.battinfo, &local_battinfo, ...)
    let fp1 : framework_power_t := { fp with lock_held := true, battinfo := q.battinfo }
    -- error = 0
    let error : Int := 0
    if fp1.battinfo.state = 0 then
      some (error, { fp1 with power_state := .PWR, last_update := time_uptime, lock_held := false })
    else if fp1.battinfo.state = K.CRITICAL ∨ fp1.battinfo.state = K.DISCHARG then
      some (error, { fp1 with power_state := .BAT, last_update := time_uptime, lock_held := false })
    else if fp1.battinfo.state = K.CHARGING then
      some (error, { fp1 with power_state := .PWR, last_update := time_uptime, lock_held := false })
    else
      some (EDOM, fp1)

/-- Function `framework_pwr_getpowermode`. -/
def framework_pwr_getpowermode (K : acpi_batt_stat) (q : battquery) (time_uptime : Int)
    (fp : framework_power_t) : Option (framework_power_type_t × framework_power_t) :=
  match framework_pwr_loadbattinfo K q time_uptime fp with
  | none => none
  | some (error, fp1) =>
    if error ≠ 0 then some (.IVL, fp1)
    else if fp1.lock_held then none
    else some (fp1.power_state, fp1)

/-! ## Screen profile store (`framework_screen.c`) -/

/-- The data fields of `struct framework_screen_config_t`. -/
structure framework_screen_config_t where
  brightness_low : Nat
  brightness_high : Nat
  timeout_secs : Nat
  increment_level : Nat
  deriving DecidableEq, Repr

/-- The two profiles of `framework_screen_data`, reached through the pointers
`power` and `battery` of `struct framework_screen_power_config_t`. The mutex
of the structure is taken and released inside every accessor below. -/
structure framework_screen_power_config_t where
  power : framework_screen_config_t
  battery : framework_screen_config_t
  deriving DecidableEq, Repr

/-- A `struct framework_screen_config_t *` argument: it points to one of the
two profiles. -/
inductive screen_config_ptr where
  | power
  | battery
  deriving DecidableEq, Repr

/-- Dereference of a profile pointer. -/
def framework_screen_power_config_t.deref (config : framework_screen_power_config_t) :
    screen_config_ptr → framework_screen_config_t
  | .power => config.power
  | .battery => config.battery

/-- Assignment through a profile pointer. -/
def framework_screen_power_config_t.store (config : framework_screen_power_config_t)
    (screen_config : screen_config_ptr) (v : framework_screen_config_t) :
    framework_screen_power_config_t :=
  match screen_config with
  | .power => { config with power := v }
  | .battery => { config with battery := v }

/-- The function generated by `FRAMEWORK_SCREEN_GETTER(uint32_t, brightness_low)`. -/
def framework_screen_getbrightness_low (config : framework_screen_power_config_t)
    (screen_config : screen_config_ptr) : Nat :=
  (config.deref screen_config).brightness_low

/-- The function generated by `FRAMEWORK_SCREEN_GETTER(uint32_t, brightness_high)`. -/
def framework_screen_getbrightness_high (config : framework_screen_power_config_t)
    (screen_config : screen_config_ptr) : Nat :=
  (config.deref screen_config).brightness_high

/-- The function generated by `FRAMEWORK_SCREEN_GETTER(uint32_t, timeout_secs)`. -/
def framework_screen_gettimeout_secs (config : framework_screen_power_config_t)
    (screen_config : screen_config_ptr) : Nat :=
  (config.deref screen_config).timeout_secs

/-- The function generated by `FRAMEWORK_SCREEN_GETTER(uint8_t, increment_level)`. -/
def framework_screen_getincrement_level (config : framework_screen_power_config_t)
    (screen_config : screen_config_ptr) : Nat :=
  (config.deref screen_config).increment_level

/-- The function generated by `FRAMEWORK_SCREEN_SETTER(uint32_t, brightness_low)`. -/
def framework_screen_setbrightness_low (config : framework_screen_power_config_t)
    (screen_config : screen_config_ptr) (new_value : Nat) : framework_screen_power_config_t :=
  config.store screen_config { config.deref screen_config with brightness_low := new_value }

/-- The function generated by `FRAMEWORK_SCREEN_SETTER(uint32_t, brightness_high)`. -/
def framework_screen_setbrightness_high (config : framework_screen_power_config_t)
    (screen_config : screen_config_ptr) (new_value : Nat) : framework_screen_power_config_t :=
  config.store screen_config { config.deref screen_config with brightness_high := new_value }

/-- The function generated by `FRAMEWORK_SCREEN_SETTER(uint32_t, timeout_secs)`. -/
def framework_screen_settimeout_secs (config : framework_screen_power_config_t)
    (screen_config : screen_config_ptr) (new_value : Nat) : framework_screen_power_config_t :=
  config.store screen_config { config.deref screen_config with timeout_secs := new_value }

/-- Function `framework_screen_config_changebrightness`: the return value and the
store afterwards. `relative` is a C `int`; the comparisons and the `+=` are
done in `uint32_t`. -/
def framework_screen_config_changebrightness (config : framework_screen_power_config_t)
    (screen_config : screen_config_ptr) (relative : Int) :
    Int × framework_screen_power_config_t :=
  let brightness : Nat := (config.deref screen_config).brightness_high
  if relative < 0 then
    if 0 = brightness then (-1, config)
    else if u32 (0 - relative) > brightness then
      (-1, framework_screen_setbrightness_high config screen_config 0)
    else
      (0, framework_screen_setbrightness_high config screen_config
            (u32 ((config.deref screen_config).brightness_high + relative)))
  else
    if 100 = brightness then (-1, config)
    else if u32 (brightness + relative) > 100 then
      (-1, framework_screen_setbrightness_high config screen_config 100)
    else
      (0, framework_screen_setbrightness_high config screen_config
            (u32 ((config.deref screen_config).brightness_high + relative)))

/-- The profiles after `framework_screen_init`. -/
def framework_screen_init : framework_screen_power_config_t :=
  { power := { timeout_secs := 10, brightness_low := 30, brightness_high := 100,
               increment_level := 10 },
    battery := { timeout_secs := 10, brightness_low := 3, brightness_high := 40,
                 increment_level := 10 } }

/-! ## Backlight wrapper (`framework_backlight.c`) -/

/-- The backlight device behind `BACKLIGHT_GET_STATUS` and
`BACKLIGHT_UPDATE_STATUS`: the level it reports, the return codes of the two
methods, and the values handed to `BACKLIGHT_UPDATE_STATUS` so far (oldest
first). -/
structure backlight_dev where
  level : Nat
  get_error : Int
  update_error : Int
  updates : List Nat
  deriving DecidableEq, Repr

/-- The field of `struct backlight_softc` the module writes. -/
structure backlight_softc where
  cached_brightness : Nat
  deriving DecidableEq, Repr

/-- The module data `framework_backlight` (`sc` is `none` for `NULL`) with the
device it talks to. `requested` lists the arguments of the calls of
`framework_bl_setbrightness` so far, oldest first. -/
structure framework_backlight_t where
  sc : Option backlight_softc
  props_brightness : Nat
  dev : backlight_dev
  requested : List Nat
  deriving DecidableEq, Repr

/-- Function `framework_bl_loadprops`: `BACKLIGHT_GET_STATUS` fills `props` when it
succeeds. -/
def framework_bl_loadprops (bl : framework_backlight_t) : Int × framework_backlight_t :=
  if bl.dev.get_error = 0 then (0, { bl with props_brightness := bl.dev.level })
  else (bl.dev.get_error, bl)

/-- Function `framework_bl_getbrightness`. -/
def framework_bl_getbrightness (bl : framework_backlight_t) : Nat × framework_backlight_t :=
  match bl.sc with
  | none => (0, bl)
  | some _ =>
    let r := framework_bl_loadprops bl
    if 0 = r.1 then (r.2.props_brightness, r.2) else (0, r.2)

/-- Function `framework_bl_setbrightness`. -/
def framework_bl_setbrightness (brightness : Nat) (bl0 : framework_backlight_t) :
    Int × framework_backlight_t :=
  let bl : framework_backlight_t := { bl0 with requested := bl0.requested ++ [brightness] }
  match bl.sc with
  | none => ( ENXIO, bl)
  | some _ =>
    let r := framework_bl_getbrightness bl
    let current_level : Nat := r.1
    let bl1 : framework_backlight_t := r.2
    if brightness = current_level then (0, bl1)
    else
      let bl2 : framework_backlight_t := { bl1 with props_brightness := brightness }
      -- BACKLIGHT_UPDATE_STATUS(framework_backlight.sc->dev, &framework_backlight.props)
      let error : Int := bl2.dev.update_error
      let dev1 : backlight_dev :=
        { bl2.dev with updates := bl2.dev.updates ++ [brightness],
                       level := if error = 0 then brightness else bl2.dev.level }
      let bl3 : framework_backlight_t := { bl2 with dev := dev1 }
      if 0 = error then (error, { bl3 with sc := some { cached_brightness := brightness } })
      else (error, bl3)

/-! ## Module state -/

/-- The fields of `framework_evdev` the supervisor depends on: the time of the
last input and whether an interrupt callback is registered. -/
structure framework_evdev_t where
  last_input : Int
  cbfunc : Bool
  deriving DecidableEq, Repr

/-- Function `framework_evdev_getlastinput`. -/
def framework_evdev_getlastinput (ev : framework_evdev_t) : Int := ev.last_input

/-- The data fields of `struct framework_callout_t`; its `power_config`
pointer refers to `framework_globals.power_config`. -/
structure framework_callout_t where
  current_level : framework_callout_brightmode_t
  expect_next_callout : Int
  active : Int
  deriving DecidableEq, Repr

/-- The module-wide data the supervisor and the key handler work on. -/
structure framework_globals where
  power_config : framework_screen_power_config_t
  framework_power : framework_power_t
  framework_backlight : framework_backlight_t
  framework_evdev : framework_evdev_t
  framework_callout_drop : Nat
  deriving DecidableEq, Repr

/-! ## Dimming supervisor (`framework_callout.c`) -/

/-- The `switch` on the power mode that opens both
`framework_callout_getbrightnessfor` and `framework_callout_getcurrenttimeout`:
the value it gives the local `screen_config`, `none` for the `IVL` label, which
returns at once. -/
def framework_callout_screen_config : framework_power_type_t → Option screen_config_ptr
  | .BAT => some .battery
  | .PWR => some .power
  | .IVL => none

/-- Function `framework_callout_getbrightnessfor`; `return -1` is converted to the
`uint32_t` return type. -/
def framework_callout_getbrightnessfor (K : acpi_batt_stat) (q : battquery) (time_uptime : Int)
    (co : framework_callout_t) (g : framework_globals) : Option (Nat × framework_globals) :=
  match framework_pwr_getpowermode K q time_uptime g.framework_power with
  | none => none
  | some (mode, fp1) =>
    let g1 : framework_globals := { g with framework_power := fp1 }
    match framework_callout_screen_config mode with
    | none => some (u32 (-1), g1)
    | some screen_config =>
      match co.current_level with
      | .DIM => some (framework_screen_getbrightness_low g1.power_config screen_config, g1)
      | .HIGH => some (framework_screen_getbrightness_high g1.power_config screen_config, g1)

/-- Function `framework_callout_getcurrenttimeout`. -/
def framework_callout_getcurrenttimeout (K : acpi_batt_stat) (q : battquery) (time_uptime : Int)
    (g : framework_globals) : Option (Nat × framework_globals) :=
  match framework_pwr_getpowermode K q time_uptime g.framework_power with
  | none => none
  | some (state, fp1) =>
    let g1 : framework_globals := { g with framework_power := fp1 }
    match framework_callout_screen_config state with
    | none => some (0, g1)
    | some screen_config =>
      some (framework_screen_gettimeout_secs g1.power_config screen_config, g1)

/-- Function `framework_callout_inputintr`. -/
def framework_callout_inputintr (K : acpi_batt_stat) (q : battquery) (time_uptime : Int)
    (co : framework_callout_t) (g : framework_globals) :
    Option (framework_callout_t × framework_globals) :=
  if g.framework_callout_drop ≠ 0 then some (co, g)
  else
    let co1 : framework_callout_t := { co with current_level := .HIGH }
    match framework_callout_getbrightnessfor K q time_uptime co1 g with
    | none => none
    | some (brightness, g1) =>
      let r := framework_bl_setbrightness brightness g1.framework_backlight
      some (co1, { g1 with framework_backlight := r.2 })

/-- Function `framework_callout_sec2tick`; `tvtohz` is the kernel's conversion. -/
def framework_callout_sec2tick (tvtohz : Nat → Int) (seconds : Nat) : Nat :=
  u32 (tvtohz seconds)

/-- The elapsed time the loop of `framework_callout_thread` computes from
`last_input` and `time_uptime` (both `time_t`), stored in a `uint32_t`. -/
def framework_callout_elapsed (last_input time_uptime : Int) : Nat :=
  let last_input : Int := if last_input > time_uptime then time_uptime else last_input
  u32 (time_uptime - last_input)

/-- What the kernel supplies during one iteration of the loop: the answers to
the two battery queries (the first made by `framework_callout_getcurrenttimeout`,
the second by `framework_callout_getbrightnessfor`), the clock and the tick
counter, and `tvtohz`. -/
structure cycle_env where
  q_timeout : battquery
  q_brightness : battquery
  time_uptime : Int
  tick : Int
  tvtohz : Nat → Int

/-- The state after one iteration of the loop; `sleep` is `none` when the
iteration left the loop through `break`, and otherwise holds `next_seconds`
and `next_wait` of the `msleep` the iteration ends in. -/
structure cycle_result where
  co : framework_callout_t
  g : framework_globals
  sleep : Option (Nat × Nat)

/-- The body of `while (co->active)` in `framework_callout_thread`. -/
def framework_callout_thread_body (K : acpi_batt_stat) (env : cycle_env)
    (co : framework_callout_t) (g : framework_globals) : Option cycle_result :=
  match framework_callout_getcurrenttimeout K env.q_timeout env.time_uptime g with
  | none => none
  | some (current_timeout, g1) =>
    if 0 = current_timeout then
      some { co := { co with active := 0 }, g := g1, sleep := none }
    else
      let last_input : Int := framework_evdev_getlastinput g1.framework_evdev
      let elapsed_time : Nat := framework_callout_elapsed last_input env.time_uptime
      let co1 : framework_callout_t :=
        if elapsed_time ≥ current_timeout then { co with current_level := .DIM } else co
      match framework_callout_getbrightnessfor K env.q_brightness env.time_uptime co1 g1 with
      | none => none
      | some (brightness, g2) =>
        let r := framework_bl_setbrightness brightness g2.framework_backlight
        let g3 : framework_globals := { g2 with framework_backlight := r.2 }
        let next_seconds : Nat :=
          if elapsed_time < current_timeout then current_timeout - elapsed_time
          else current_timeout
        let next_wait : Nat := framework_callout_sec2tick env.tvtohz next_seconds
        some { co := { co1 with expect_next_callout := i32 (u32 (env.tick + next_wait)) },
               g := g3, sleep := some (next_seconds, next_wait) }

/-- The loop `while (co->active)` of `framework_callout_thread`, run for the
iterations the list describes. -/
def framework_callout_loop (K : acpi_batt_stat) :
    List cycle_env → framework_callout_t → framework_globals →
      Option (framework_callout_t × framework_globals)
  | [], co, g => some (co, g)
  | env :: rest, co, g =>
    if co.active = 0 then some (co, g)
    else
      match framework_callout_thread_body K env co g with
      | none => none
      | some r => framework_callout_loop K rest r.co r.g

/-- Function `framework_callout_thread` up to the end of the described iterations: the
interrupt callback is registered and the drop flag cleared before the loop. -/
def framework_callout_thread (K : acpi_batt_stat) (envs : List cycle_env)
    (co : framework_callout_t) (g : framework_globals) :
    Option (framework_callout_t × framework_globals) :=
  let g1 : framework_globals :=
    { g with framework_evdev := { g.framework_evdev with cbfunc := true },
             framework_callout_drop := 0 }
  framework_callout_loop K envs co g1

/-- Function `framework_callout_init` up to `kthread_add`: the new structure is zeroed,
marked active and set to `HIGH`, and the brightness for it is pushed once. -/
def framework_callout_init (K : acpi_batt_stat) (q : battquery) (time_uptime : Int)
    (g : framework_globals) : Option (framework_callout_t × framework_globals) :=
  let co : framework_callout_t := { current_level := .HIGH, expect_next_callout := 0, active := 1 }
  match framework_callout_getbrightnessfor K q time_uptime co g with
  | none => none
  | some (brightness, g1) =>
    let r := framework_bl_setbrightness brightness g1.framework_backlight
    some (co, { g1 with framework_backlight := r.2 })

/-- The value the static initialiser gives `framework_callout_drop` when the
module is loaded. -/
def framework_callout_drop_init : Nat := 1

/-- Function `framework_callout_destroy`, as far as the module data goes: the
interrupt callback is removed and the drop flag set before anything else; the
handshake with the loop thread and the release of `co` follow. -/
def framework_callout_destroy (_co : Option framework_callout_t) (g : framework_globals) :
    framework_globals :=
  { g with framework_evdev := { g.framework_evdev with cbfunc := false },
           framework_callout_drop := 1 }

/-! ## Calls that wait for the power mutex

The functions above give `none` for a call that does not return. The functions
of this section follow the same code once more and keep the data as they are
at the moment the call starts to wait. -/

/-- How a call ends: it returns, or it waits in `FRAMEWORK_POWER_LOCK()` for a
mutex that is held; `waits` carries the data as they are at that moment. -/
inductive call_end (α σ : Type) where
  | returns (a : α)
  | waits (s : σ)
  deriving DecidableEq, Repr

/-- Function `framework_pwr_loadbattinfo`, with the power block as it is when
the call waits: the query has filled the local buffer only. -/
def framework_pwr_loadbattinfo_end (K : acpi_batt_stat) (q : battquery) (time_uptime : Int)
    (fp : framework_power_t) : call_end (Int × framework_power_t) framework_power_t :=
  -- error = acpi_battery_get_battinfo(NULL, &local_battinfo), printed by DEBUG
  let _error : Int := q.error
  -- FRAMEWORK_POWER_LOCK()
  if fp.lock_held then .waits fp
  else
    -- memcpy(&framework_power.battinfo, &local_battinfo, ...)
    let fp1 : framework_power_t := { fp with lock_held := true, battinfo := q.battinfo }
    -- error = 0
    let error : Int := 0
    if fp1.battinfo.state = 0 then
      .returns (error,
        { fp1 with power_state := .PWR, last_update := time_uptime, lock_held := false })
    else if fp1.battinfo.state = K.CRITICAL ∨ fp1.battinfo.state = K.DISCHARG then
      .returns (error,
        { fp1 with power_state := .BAT, last_update := time_uptime, lock_held := false })
    else if fp1.battinfo.state = K.CHARGING then
      .returns (error,
        { fp1 with power_state := .PWR, last_update := time_uptime, lock_held := false })
    else
      .returns (EDOM, fp1)

/-- Function `framework_pwr_getpowermode`, with the power block as it is when
the call waits. -/
def framework_pwr_getpowermode_end (K : acpi_batt_stat) (q : battquery) (time_uptime : Int)
    (fp : framework_power_t) :
    call_end (framework_power_type_t × framework_power_t) framework_power_t :=
  match framework_pwr_loadbattinfo_end K q time_uptime fp with
  | .waits s => .waits s
  | .returns (error, fp1) =>
    if error ≠ 0 then .returns (.IVL, fp1)
    -- FRAMEWORK_POWER_LOCK()
    else if fp1.lock_held then .waits fp1
    else .returns (fp1.power_state, fp1)

/-- Function `framework_callout_getbrightnessfor`, with the module data as they
are when the call waits: the classification is its first statement that
touches them. -/
def framework_callout_getbrightnessfor_end (K : acpi_batt_stat) (q : battquery)
    (time_uptime : Int) (co : framework_callout_t) (g : framework_globals) :
    call_end (Nat × framework_globals) framework_globals :=
  match framework_pwr_getpowermode_end K q time_uptime g.framework_power with
  | .waits s => .waits { g with framework_power := s }
  | .returns (mode, fp1) =>
    let g1 : framework_globals := { g with framework_power := fp1 }
    match framework_callout_screen_config mode with
    | none => .returns (u32 (-1), g1)
    | some screen_config =>
      match co.current_level with
      | .DIM => .returns (framework_screen_getbrightness_low g1.power_config screen_config, g1)
      | .HIGH => .returns (framework_screen_getbrightness_high g1.power_config screen_config, g1)

/-- Function `framework_callout_inputintr`, with the supervisor and the module
data as they are when the call waits: `current_level` has been set to `HIGH`,
and `framework_bl_setbrightness` has not been reached. -/
def framework_callout_inputintr_end (K : acpi_batt_stat) (q : battquery) (time_uptime : Int)
    (co : framework_callout_t) (g : framework_globals) :
    call_end (framework_callout_t × framework_globals)
      (framework_callout_t × framework_globals) :=
  if g.framework_callout_drop ≠ 0 then .returns (co, g)
  else
    let co1 : framework_callout_t := { co with current_level := .HIGH }
    match framework_callout_getbrightnessfor_end K q time_uptime co1 g with
    | .waits g1 => .waits (co1, g1)
    | .returns (brightness, g1) =>
      let r := framework_bl_setbrightness brightness g1.framework_backlight
      .returns (co1, { g1 with framework_backlight := r.2 })

/-- The supervisor and the module data once a call of
`framework_callout_inputintr` has ended, by returning or by starting to
wait. -/
def framework_callout_inputintr_after (K : acpi_batt_stat) (q : battquery) (time_uptime : Int)
    (co : framework_callout_t) (g : framework_globals) :
    framework_callout_t × framework_globals :=
  match framework_callout_inputintr_end K q time_uptime co g with
  | .returns a => a
  | .waits s => s

/-- Input events one after another, each with the answer to its battery query
and the clock; the callback of an event that waits leaves the data as they are
where it waits, and the next event finds them so. -/
def framework_callout_inputs (K : acpi_batt_stat) :
    List (battquery × Int) → framework_callout_t → framework_globals →
      framework_callout_t × framework_globals
  | [], co, g => (co, g)
  | e :: rest, co, g =>
    framework_callout_inputs K rest (framework_callout_inputintr_after K e.1 e.2 co g).1
      (framework_callout_inputintr_after K e.1 e.2 co g).2

/-! ## Manual adjustment (`framework_keyhandler.c`) -/

/-- The data field of `struct framework_keyhandler_t`; its `power_config`
pointer refers to `framework_globals.power_config`. -/
structure framework_keyhandler_t where
  flags : Nat
  deriving DecidableEq, Repr

/-- The flag `FRAMEWORK_KEYHANDLER_INIT`. -/
def FRAMEWORK_KEYHANDLER_INIT : Nat := 1

/-- Modelled from the spec: `framework_util_getscreenconfig` is called by
`framework_keyhandler_changebrightness` and defined in none of the source
files. The manual adjustment handler "reads the *current* power mode's
profile", and the caller treats a non-zero return value as "cannot establish
screen config": the helper classifies the power mode and hands back the
battery profile for `BAT`, the power profile for `PWR`, and fails for `IVL`. -/
def framework_util_getscreenconfig (K : acpi_batt_stat) (q : battquery) (time_uptime : Int)
    (g : framework_globals) : Option (Int × Option screen_config_ptr × framework_globals) :=
  match framework_pwr_getpowermode K q time_uptime g.framework_power with
  | none => none
  | some (mode, fp1) =>
    let g1 : framework_globals := { g with framework_power := fp1 }
    match mode with
    | .BAT => some (0, some .battery, g1)
    | .PWR => some (0, some .power, g1)
    | .IVL => some (-1, none, g1)

/-- Function `framework_keyhandler_changebrightness`. -/
def framework_keyhandler_changebrightness (K : acpi_batt_stat) (q : battquery)
    (time_uptime : Int) (_kh : framework_keyhandler_t) (up : Bool) (g : framework_globals) :
    Option framework_globals :=
  match framework_util_getscreenconfig K q time_uptime g with
  | none => none
  | some (rc, screen_config, g1) =>
    if rc ≠ 0 then some g1
    else
      match screen_config with
      | none => none
      | some sc =>
        let increment_level : Int := framework_screen_getincrement_level g1.power_config sc
        let r := framework_screen_config_changebrightness g1.power_config sc
          (if up then increment_level else -increment_level)
        some { g1 with power_config := r.2 }

/-- Function `framework_keyhandler_brightness_up`. -/
def framework_keyhandler_brightness_up (K : acpi_batt_stat) (q : battquery)
    (time_uptime : Int) (kh : framework_keyhandler_t) (g : framework_globals) :
    Option framework_globals :=
  framework_keyhandler_changebrightness K q time_uptime kh true g

/-- Function `framework_keyhandler_brightness_down`. -/
def framework_keyhandler_brightness_down (K : acpi_batt_stat) (q : battquery)
    (time_uptime : Int) (kh : framework_keyhandler_t) (g : framework_globals) :
    Option framework_globals :=
  framework_keyhandler_changebrightness K q time_uptime kh false g

/-- An entry of `struct framework_keyhandler_vtable`. -/
structure framework_keyhandler_vtable where
  keycode : Nat
  handler_func : acpi_batt_stat → battquery → Int → framework_keyhandler_t →
    framework_globals → Option framework_globals

/-- The table `framework_keyhandler_vt`. -/
def framework_keyhandler_vt : List framework_keyhandler_vtable :=
  [ { keycode := 225, handler_func := framework_keyhandler_brightness_up },
    { keycode := 224, handler_func := framework_keyhandler_brightness_down } ]

/-- The `for` loop of `framework_keyhandler_handlekey` over the rest of the
table. -/
def framework_keyhandler_scan (K : acpi_batt_stat) (q : battquery) (time_uptime : Int)
    (kh : framework_keyhandler_t) (key_in : Nat) :
    List framework_keyhandler_vtable → framework_globals → Option (Int × framework_globals)
  | [], g => some (-1, g)
  | e :: rest, g =>
    if e.keycode = key_in then
      match e.handler_func K q time_uptime kh g with
      | none => none
      | some g1 => some (0, g1)
    else framework_keyhandler_scan K q time_uptime kh key_in rest g

/-- Function `framework_keyhandler_handlekey`. -/
def framework_keyhandler_handlekey (K : acpi_batt_stat) (q : battquery) (time_uptime : Int)
    (kh : framework_keyhandler_t) (key_in : Nat) (g : framework_globals) :
    Option (Int × framework_globals) :=
  if FRAMEWORK_KEYHANDLER_INIT &&& kh.flags = 0 then some (-1, g)
  else framework_keyhandler_scan K q time_uptime kh key_in framework_keyhandler_vt g

/-- Function `framework_keyhandler_init`. -/
def framework_keyhandler_init : framework_keyhandler_t := { flags := FRAMEWORK_KEYHANDLER_INIT }

/-! ## Block-dim counter (`framework_state.c`) -/

/-- The data fields of `struct framework_state_t`. -/
structure framework_state_t where
  flags : Nat
  block_dim_count : Nat
  deriving DecidableEq, Repr

/-- The flag `FRAMEWORK_STATE_INIT`. -/
def FRAMEWORK_STATE_INIT : Nat := 1

/-- Function `framework_state_init`: the zeroed structure with the `INIT` flag. -/
def framework_state_init : framework_state_t :=
  { flags := 0 ||| FRAMEWORK_STATE_INIT, block_dim_count := 0 }

/-- Function `framework_state_getdimcount`; `none` is the `NULL` pointer. -/
def framework_state_getdimcount (state : Option framework_state_t) : Nat :=
  match state with
  | none => 0
  | some st => st.block_dim_count

/-- Function `framework_state_incdimcount`: `block_dim_count++` on a `uint32_t`. -/
def framework_state_incdimcount (state : Option framework_state_t) : Option framework_state_t :=
  match state with
  | none => none
  | some st => some { st with block_dim_count := (st.block_dim_count + 1) % 4294967296 }

/-- Function `framework_state_decdimcount`: at `0` the counter is left alone and an
error is logged. -/
def framework_state_decdimcount (state : Option framework_state_t) : Option framework_state_t :=
  match state with
  | none => none
  | some st =>
    if 0 = st.block_dim_count then some st
    else some { st with block_dim_count := st.block_dim_count - 1 }

/-! ## Configuration surface (`framework_sysctl.c`) -/

/-- The part of a `struct sysctl_req` that matters to `sysctl_handle_32`:
`newptr` is the 32-bit value a write request carries (`none` for a read), and
`error` is the code the transfer ends with. -/
structure sysctl_req where
  newptr : Option Nat
  error : Int
  deriving DecidableEq, Repr

/-- The kernel's `sysctl_handle_32(oidp, &value, 0, req)`: the code it returns
and the content of `value` afterwards. A write request whose transfer succeeds
replaces `value`; a read, or a failed transfer, leaves it. -/
def sysctl_handle_32 (req : sysctl_req) (value : Nat) : Int × Nat :=
  match req.newptr with
  | none => (req.error, value)
  | some v => if req.error = 0 then (0, v) else (req.error, value)

/-- The function body `FRAMEWORK_SYSCTL_SCREENCONF_HANDLER(var_name, max_value)`
expands to, for the getter and setter of `var_name`; `arg1` is the profile the
node was registered with. -/
def FRAMEWORK_SYSCTL_SCREENCONF_HANDLER
    (get : framework_screen_power_config_t → screen_config_ptr → Nat)
    (set : framework_screen_power_config_t → screen_config_ptr → Nat →
      framework_screen_power_config_t)
    (max_value : Nat) (arg1 : screen_config_ptr) (req : sysctl_req)
    (config : framework_screen_power_config_t) : Int × framework_screen_power_config_t :=
  let orig_value : Nat := get config arg1
  let r := sysctl_handle_32 req orig_value
  let error : Int := r.1
  let value : Nat := r.2
  if value ≠ orig_value then
    if 0 ≠ max_value then
      if value > max_value then (error, config)
      else (error, set config arg1 value)
    else (error, set config arg1 value)
  else (error, config)

/-- The handler `FRAMEWORK_SYSCTL_SCREENCONF_HANDLER(brightness_low, 100)`. -/
def framework_sysctl_screen_config_brightness_low :=
  FRAMEWORK_SYSCTL_SCREENCONF_HANDLER framework_screen_getbrightness_low
    framework_screen_setbrightness_low 100

/-- The handler `FRAMEWORK_SYSCTL_SCREENCONF_HANDLER(brightness_high, 100)`. -/
def framework_sysctl_screen_config_brightness_high :=
  FRAMEWORK_SYSCTL_SCREENCONF_HANDLER framework_screen_getbrightness_high
    framework_screen_setbrightness_high 100

/-- The handler `FRAMEWORK_SYSCTL_SCREENCONF_HANDLER(timeout_secs, 0)`. -/
def framework_sysctl_screen_config_timeout_secs :=
  FRAMEWORK_SYSCTL_SCREENCONF_HANDLER framework_screen_gettimeout_secs
    framework_screen_settimeout_secs 0

/-- Function `framework_sysctl_dimblock`; `arg1` is the state structure the
node was registered with. -/
def framework_sysctl_dimblock (arg1 : Option framework_state_t) (req : sysctl_req) :
    Int × Option framework_state_t :=
  let state : Option framework_state_t := arg1
  let counter : Nat := framework_state_getdimcount state
  let r := sysctl_handle_32 req counter
  let error : Int := r.1
  let value : Nat := r.2
  if value ≠ counter then
    if value > 0 then (error, framework_state_incdimcount state)
    else (error, framework_state_decdimcount state)
  else (error, state)

/-! ## Sequences of configuration changes -/

/-- One change of the profile store: a request to one of the three sysctl
nodes of a profile, or a manual step up or down, which calls
`framework_screen_config_changebrightness` with plus or minus the profile's
`increment_level`. -/
inductive config_op where
  | sysctl_brightness_low (arg1 : screen_config_ptr) (req : sysctl_req)
  | sysctl_brightness_high (arg1 : screen_config_ptr) (req : sysctl_req)
  | sysctl_timeout_secs (arg1 : screen_config_ptr) (req : sysctl_req)
  | brightness_up (screen_config : screen_config_ptr)
  | brightness_down (screen_config : screen_config_ptr)
  deriving DecidableEq, Repr

/-- The profile store after one change. -/
def config_step (config : framework_screen_power_config_t) :
    config_op → framework_screen_power_config_t
  | .sysctl_brightness_low arg1 req =>
    (framework_sysctl_screen_config_brightness_low arg1 req config).2
  | .sysctl_brightness_high arg1 req =>
    (framework_sysctl_screen_config_brightness_high arg1 req config).2
  | .sysctl_timeout_secs arg1 req =>
    (framework_sysctl_screen_config_timeout_secs arg1 req config).2
  | .brightness_up sc =>
    (framework_screen_config_changebrightness config sc
      (framework_screen_getincrement_level config sc : Int)).2
  | .brightness_down sc =>
    (framework_screen_config_changebrightness config sc
      (-(framework_screen_getincrement_level config sc : Int))).2

/-- The profile store after a sequence of changes, first to last. -/
def config_run (ops : List config_op) (config : framework_screen_power_config_t) :
    framework_screen_power_config_t :=
  ops.foldl config_step config

/-- One call through a mutating member of `config->funcs`: one of the three
setters with its new value, or `change_rel_brightness` with its `relative`
argument. The getters change nothing. -/
inductive funcs_op where
  | set_brightness_low (screen_config : screen_config_ptr) (new_value : Nat)
  | set_brightness_high (screen_config : screen_config_ptr) (new_value : Nat)
  | set_timeout_secs (screen_config : screen_config_ptr) (new_value : Nat)
  | change_rel_brightness (screen_config : screen_config_ptr) (relative : Int)
  deriving DecidableEq, Repr

/-- The profile store after one call through `config->funcs`. -/
def funcs_step (config : framework_screen_power_config_t) :
    funcs_op → framework_screen_power_config_t
  | .set_brightness_low sc v => framework_screen_setbrightness_low config sc v
  | .set_brightness_high sc v => framework_screen_setbrightness_high config sc v
  | .set_timeout_secs sc v => framework_screen_settimeout_secs config sc v
  | .change_rel_brightness sc relative =>
    (framework_screen_config_changebrightness config sc relative).2

/-- The profile store after a sequence of calls through `config->funcs`, first
to last. -/
def funcs_run (ops : List funcs_op) (config : framework_screen_power_config_t) :
    framework_screen_power_config_t :=
  ops.foldl funcs_step config

/-! ## Device lookup (`framework_utils.c`) and input devices (`framework_evdev.c`)

C strings are lists of characters. -/

/-- The fields of the kernel's `struct evdev_dev` the module reads. -/
structure evdev_dev where
  ev_name : List Char
  ev_shortname : List Char
  ev_report_size : Nat
  deriving DecidableEq, Repr

/-- The driver data behind a `si_drv1` pointer, as seen through each of the
structure types the module casts it to: `struct backlight_softc` with the
device it names, and `struct evdev_dev`. -/
structure drv1_data where
  softc : backlight_softc
  dev : backlight_dev
  evdev : evdev_dev
  deriving DecidableEq, Repr

/-- An entry of the kernel's `cdevp_list`: the node's name and its `si_drv1`
(`none` for `NULL`). -/
structure cdev_priv where
  si_name : List Char
  si_drv1 : Option drv1_data
  deriving DecidableEq, Repr

/-- The test `0 == strncmp(s1, s2, n)` of the C library. -/
def strncmp_eq (s1 s2 : List Char) (n : Nat) : Bool :=
  s1.take n == s2.take n

/-- The test `NULL != strnstr(big, little, len)` of the C library: `little`
occurs in the first `len` characters of `big`. -/
def strnstr_found (big little : List Char) (len : Nat) : Bool :=
  (big.take len).tails.any (fun t => little.isPrefixOf t)

/-- Function `framework_util_lookupcdev_drv1`: the `si_drv1` of the first node
whose name is `devname`, `NULL` when there is none. -/
def framework_util_lookupcdev_drv1 (cdevp_list : List cdev_priv) (devname : List Char) :
    Option drv1_data :=
  match cdevp_list with
  | [] => none
  | cdp :: rest =>
    if devname.head? ≠ cdp.si_name.head? then framework_util_lookupcdev_drv1 rest devname
    else if devname = cdp.si_name then cdp.si_drv1
    else framework_util_lookupcdev_drv1 rest devname

/-- The `TAILQ_FOREACH` loop of `framework_util_matchcdev_drv1` over the rest
of `cdevp_list`, with the current value of its local `result`: the callback
runs on every node whose name starts with `devname`, its result is or-ed into
`result`, and the iteration stops once `result` is not 0. A callback that
does not return (`none`) ends the run there. -/
def framework_util_matchcdev_loop {σ : Type} (devname : List Char)
    (cbfunc : Option (List Char → Option drv1_data → σ → Option (Int × σ))) :
    List cdev_priv → σ → Int → Option (Int × σ)
  | [], ctx, result => some (result, ctx)
  | cdp :: rest, ctx, result =>
    if devname.head? ≠ cdp.si_name.head? then
      framework_util_matchcdev_loop devname cbfunc rest ctx result
    else if strncmp_eq devname cdp.si_name devname.length then
      match cbfunc with
      | none =>
        if result ≠ 0 then some (result, ctx)
        else framework_util_matchcdev_loop devname cbfunc rest ctx result
      | some f =>
        match f cdp.si_name cdp.si_drv1 ctx with
        | none => none
        | some (r, ctx1) =>
          -- result |= cbfunc(...)
          if Int.lor result r ≠ 0 then some (Int.lor result r, ctx1)
          else framework_util_matchcdev_loop devname cbfunc rest ctx1 (Int.lor result r)
    else framework_util_matchcdev_loop devname cbfunc rest ctx result

/-- Function `framework_util_matchcdev_drv1` with a callback that works on a
context of type `σ`. -/
def framework_util_matchcdev_drv1 {σ : Type} (cdevp_list : List cdev_priv)
    (devname : List Char)
    (cbfunc : Option (List Char → Option drv1_data → σ → Option (Int × σ))) (ctx : σ) :
    Option (Int × σ) :=
  framework_util_matchcdev_loop devname cbfunc cdevp_list ctx 0

/-- The table `framework_evdev_devnames`. -/
def framework_evdev_devnames : List (List Char) :=
  ["TouchPad".toList, "Mouse".toList, "hcons0".toList, "hmt0".toList, "hms0".toList,
   "sysmouse".toList, "kbdmux".toList, "psm".toList, "atkbd".toList]

/-- Function `framework_evdev_matchname`; `name` is `none` for `NULL`, and
`partially` is its parameter `partial`. -/
def framework_evdev_matchname (name : Option (List Char)) (partially : Bool) : Bool :=
  match name with
  | none => false
  | some n =>
    framework_evdev_devnames.any (fun strptr =>
      (!partially && strncmp_eq strptr n strptr.length) ||
      (partially && strnstr_found strptr n strptr.length))

/-- Function `framework_evdev_matchdevs` on the list of bindings of
`framework_evdev`: a device whose short name or name is monitored gets a
binding with a listener thread, inserted at the head; every path that returns,
returns 0. The first statement reads `devdata->ev_report_size` without a
check, so with `drv_data == NULL` the call faults and does not return
(`none`). -/
def framework_evdev_matchdevs (_name : List Char) (drv_data : Option drv1_data)
    (bindings : List evdev_dev) : Option (Int × List evdev_dev) :=
  match drv_data with
  | none => none
  | some d =>
    let devdata : evdev_dev := d.evdev
    if !framework_evdev_matchname (some devdata.ev_shortname) false
        && !framework_evdev_matchname (some devdata.ev_name) true then some (0, bindings)
    else some (0, devdata :: bindings)

/-- Function `framework_evdev_init`: the value it returns, the bindings it made
and the fields of `framework_evdev` the supervisor reads; `none` when the
callback faults. -/
def framework_evdev_init (cdevp_list : List cdev_priv) :
    Option (Int × List evdev_dev × framework_evdev_t) :=
  match framework_util_matchcdev_drv1 cdevp_list "input/event".toList
    (some framework_evdev_matchdevs) [] with
  | none => none
  | some r =>
    let error : Int := r.1
    some (error, r.2, { last_input := 0, cbfunc := false })

/-! ## Module load (`framework.c`) -/

/-- What the kernel presents when the module is loaded: the character devices,
whether the `battery` devclass and its unit 0 exist, the code
`ACPI_BATT_GET_INFO` returns, the answers to the battery queries made by
`framework_pwr_init` and by `framework_callout_init`, the clock, and the
enumerator of `enum framework_power_type_t` whose value is 0 (what `bzero`
leaves in `power_state`). -/
structure framework_kernel where
  cdevp_list : List cdev_priv
  battery_devclass : Bool
  battery_unit0 : Bool
  bix_error : Int
  q_pwr_init : battquery
  q_callout_init : battquery
  time_uptime : Int
  power_state_zero : framework_power_type_t
  deriving DecidableEq, Repr

/-- A backlight device that answers no method: what stands in
`framework_backlight` while `sc` is `NULL`. -/
def backlight_dev_none : backlight_dev :=
  { level := 0, get_error := ENXIO, update_error := ENXIO, updates := [] }

/-- Function `framework_bl_init`. -/
def framework_bl_init (cdevp_list : List cdev_priv) : Int × framework_backlight_t :=
  match framework_util_lookupcdev_drv1 cdevp_list "backlight/backlight0".toList with
  | none =>
    ( ENXIO, { sc := none, props_brightness := 0, dev := backlight_dev_none, requested := [] })
  | some d =>
    framework_bl_loadprops
      { sc := some d.softc, props_brightness := 0, dev := d.dev, requested := [] }

/-- Function `framework_pwr_init`. -/
def framework_pwr_init (K : acpi_batt_stat) (kern : framework_kernel) :
    Option (Int × framework_power_t) :=
  let fp0 : framework_power_t :=
    { power_state := kern.power_state_zero, battinfo := ⟨0, 0, 0, 0⟩, lock_held := false,
      last_update := 0 }
  match framework_util_lookupcdev_drv1 kern.cdevp_list "acpi".toList with
  | none => some ( ENXIO, fp0)
  | some _ =>
    if !kern.battery_devclass then some ( ENXIO, fp0)
    else if !kern.battery_unit0 then some ( ENXIO, fp0)
    -- framework_pwr_loadbattmodel
    else if 0 ≠ kern.bix_error then some ( ENXIO, fp0)
    else
      match framework_pwr_loadbattinfo K kern.q_pwr_init kern.time_uptime fp0 with
      | none => none
      | some (error, fp1) => if 0 ≠ error then some ( ENXIO, fp1) else some (0, fp1)

/-- Function `framework_sysctl_init` returns 0 on every path. -/
def framework_sysctl_init : Int := 0

/-- The components `framework_init` sets up, named for the record of the
`destroy` calls of its error exit. -/
inductive framework_component where
  | state
  | screen
  | pwr
  | bl
  | sysctl
  | evdev
  deriving DecidableEq, Repr

/-- The fields of `struct framework_data_t` that `framework_init` decides:
the supervisor (`none` for `NULL`), the state structure and the status. -/
structure framework_data_t where
  callout : Option framework_callout_t
  state : Option framework_state_t
  status : Int
  deriving DecidableEq, Repr

/-- What `framework_init` leaves behind: the value it returns, `framework_data`,
the module data of the components, the input bindings, and the `destroy`
calls made, in order. -/
structure framework_init_result where
  error : Int
  framework_data : framework_data_t
  g : framework_globals
  bindings : List evdev_dev
  undone : List framework_component
  deriving DecidableEq, Repr

/-- The `destroy` calls of the `switch (undo)` at `framework_errorexit`, which
falls through from the matching label down to `case 1`. -/
def framework_errorexit_undo (undo : Nat) : List framework_component :=
  if undo = 6 ∨ undo = 5 then [.evdev, .sysctl, .bl, .pwr, .screen]
  else if undo = 4 then [.sysctl, .bl, .pwr, .screen]
  else if undo = 3 then [.bl, .pwr, .screen]
  else if undo = 2 then [.pwr, .screen]
  else if undo = 1 then [.screen]
  else []

/-- The label `framework_errorexit` of `framework_init`: the undo `switch`,
then `framework_state_destroy`, status 2, and the error is returned. -/
def framework_errorexit (error : Int) (undo : Nat) (state : Option framework_state_t)
    (g : framework_globals) (bindings : List evdev_dev) : framework_init_result :=
  { error := error,
    framework_data := { callout := none, state := state, status := 2 },
    g := g, bindings := bindings,
    undone := framework_errorexit_undo undo ++ [.state] }

/-- The module data before `framework_init` has set anything up. -/
def framework_globals_load (kern : framework_kernel) : framework_globals :=
  { power_config := { power := ⟨0, 0, 0, 0⟩, battery := ⟨0, 0, 0, 0⟩ },
    framework_power := { power_state := kern.power_state_zero, battinfo := ⟨0, 0, 0, 0⟩,
                         lock_held := false, last_update := 0 },
    framework_backlight := { sc := none, props_brightness := 0, dev := backlight_dev_none,
                             requested := [] },
    framework_evdev := { last_input := 0, cbfunc := false },
    framework_callout_drop := framework_callout_drop_init }

/-- Function `framework_init`. -/
def framework_init (K : acpi_batt_stat) (kern : framework_kernel) :
    Option framework_init_result :=
  let state : Option framework_state_t := some framework_state_init
  -- framework_screen_init returns 0
  let g1 : framework_globals :=
    { framework_globals_load kern with power_config := framework_screen_init }
  match framework_pwr_init K kern with
  | none => none
  | some (error, fp) =>
    let g2 : framework_globals := { g1 with framework_power := fp }
    if 0 ≠ error then some (framework_errorexit error 1 state g2 [])
    else
      let rb := framework_bl_init kern.cdevp_list
      let g3 : framework_globals := { g2 with framework_backlight := rb.2 }
      if 0 ≠ rb.1 then some (framework_errorexit rb.1 2 state g3 [])
      else if 0 ≠ framework_sysctl_init then
        some (framework_errorexit framework_sysctl_init 3 state g3 [])
      else
        match framework_evdev_init kern.cdevp_list with
        | none => none
        | some re =>
          let g4 : framework_globals := { g3 with framework_evdev := re.2.2 }
          if 0 ≠ re.1 then some (framework_errorexit re.1 4 state g4 re.2.1)
          else
            match framework_callout_init K kern.q_callout_init kern.time_uptime g4 with
            | none => none
            | some (co, g5) =>
              some { error := re.1,
                     framework_data := { callout := some co, state := state, status := 1 },
                     g := g5, bindings := re.2.1, undone := [] }

/-! ## Lock operations along one execution

The functions of the supervisor once more, this time as the sequence of lock
operations one sequential run performs. What decides the branches of a run
(the mode a classification returns, the timeout read, the elapsed time, the
level, the drop flag) is an argument. -/

/-- The locks the supervisor's code takes: `framework_callout_t.lock`,
`framework_callout_t.rwlock`, `framework_screen_power_config_t.lock`,
`framework_power.lock` and `framework_evdev.lock`. -/
inductive lock_id where
  | callout_lock
  | callout_rwlock
  | screen_lock
  | power_lock
  | evdev_lock
  deriving DecidableEq, Repr

/-- A lock operation; `shared` is `true` for `rw_rlock` and `false` for
`rw_wlock` and `mtx_lock`. -/
inductive lock_op where
  | acquire (l : lock_id) (shared : Bool)
  | release (l : lock_id)
  deriving DecidableEq, Repr

/-- The locks held after an operation, most recent first, each with the mode
it was taken in. -/
def lock_op.apply (held : List (lock_id × Bool)) : lock_op → List (lock_id × Bool)
  | .acquire l shared => (l, shared) :: held
  | .release l => held.eraseP (fun h => h.1 = l)

/-- Whether some acquisition in the run, started with the locks `held`, is one
that `bad` rejects; `bad` sees the lock, the mode and the locks held at that
moment. -/
def lock_trace_any (bad : lock_id → Bool → List (lock_id × Bool) → Bool) :
    List (lock_id × Bool) → List lock_op → Bool
  | _, [] => false
  | held, op :: rest =>
    (match op with
      | .acquire l shared => bad l shared held
      | .release _ => false) || lock_trace_any bad (op.apply held) rest

/-- The profile store mutex is being acquired while the `current_level`
read/write lock is held, in either mode. -/
def screen_under_rwlock (l : lock_id) (_shared : Bool) (held : List (lock_id × Bool)) : Bool :=
  l = .screen_lock && held.any (fun h => h.1 = .callout_rwlock)

/-- The profile store mutex is being acquired while the `current_level`
read/write lock is held for writing. -/
def screen_under_wlock (l : lock_id) (_shared : Bool) (held : List (lock_id × Bool)) : Bool :=
  l = .screen_lock && held.any (fun h => h.1 = .callout_rwlock && h.2 = false)

/-- The `current_level` read/write lock is being acquired while the profile
store mutex is held. -/
def rwlock_under_screen (l : lock_id) (_shared : Bool) (held : List (lock_id × Bool)) : Bool :=
  l = .callout_rwlock && held.any (fun h => h.1 = .screen_lock)

/-- Lock operations of a function generated by `FRAMEWORK_SCREEN_GETTER`. -/
def FRAMEWORK_SCREEN_GETTER_locks : List lock_op :=
  [.acquire .screen_lock false, .release .screen_lock]

/-- Lock operations of `framework_pwr_loadbattinfo` in a run that returns
`error`: the `default` label returns without `FRAMEWORK_POWER_UNLOCK`. -/
def framework_pwr_loadbattinfo_locks (error : Int) : List lock_op :=
  [.acquire .power_lock false] ++ (if error = 0 then [.release .power_lock] else [])

/-- Lock operations of `framework_pwr_getpowermode` in a run that returns
`mode`. -/
def framework_pwr_getpowermode_locks (mode : framework_power_type_t) : List lock_op :=
  match mode with
  | .IVL => framework_pwr_loadbattinfo_locks EDOM
  | _ => framework_pwr_loadbattinfo_locks 0 ++
      [.acquire .power_lock false, .release .power_lock]

/-- Lock operations of `framework_callout_getbrightnessfor` in a run whose
classification returns `mode`. -/
def framework_callout_getbrightnessfor_locks (mode : framework_power_type_t) : List lock_op :=
  framework_pwr_getpowermode_locks mode ++
  (match framework_callout_screen_config mode with
    | none => []
    | some _ =>
      [.acquire .callout_rwlock true] ++ FRAMEWORK_SCREEN_GETTER_locks ++
        [.release .callout_rwlock])

/-- Lock operations of `framework_callout_getcurrenttimeout` in a run whose
classification returns `state`. -/
def framework_callout_getcurrenttimeout_locks (state : framework_power_type_t) :
    List lock_op :=
  framework_pwr_getpowermode_locks state ++
  (match framework_callout_screen_config state with
    | none => []
    | some _ => FRAMEWORK_SCREEN_GETTER_locks)

/-- Lock operations of `framework_callout_inputintr` for the given drop flag,
in a run whose classification returns `mode`. -/
def framework_callout_inputintr_locks (drop : Nat) (mode : framework_power_type_t) :
    List lock_op :=
  if drop ≠ 0 then []
  else
    [.acquire .callout_rwlock false, .release .callout_rwlock] ++
      framework_callout_getbrightnessfor_locks mode

/-- Lock operations of `framework_evdev_getlastinput`. -/
def framework_evdev_getlastinput_locks : List lock_op :=
  [.acquire .evdev_lock false, .release .evdev_lock]

/-- Lock operations of one iteration of the loop of `framework_callout_thread`,
entered with `co->lock` held, in a run whose first classification returns
`state` with the timeout `current_timeout`, whose elapsed time is
`elapsed_time` and whose second classification returns `mode`. The `msleep` at
the end drops `co->lock` and takes it again. -/
def framework_callout_thread_body_locks (state : framework_power_type_t)
    (current_timeout elapsed_time : Nat) (mode : framework_power_type_t) : List lock_op :=
  [.release .callout_lock] ++ framework_callout_getcurrenttimeout_locks state ++
  [.acquire .callout_lock false] ++
  (if 0 = current_timeout then []
   else
    [.release .callout_lock] ++ framework_evdev_getlastinput_locks ++
    [.acquire .callout_lock false] ++
    (if elapsed_time ≥ current_timeout then
      [.acquire .callout_rwlock false, .release .callout_rwlock] else []) ++
    [.release .callout_lock] ++ framework_callout_getbrightnessfor_locks mode ++
    [.acquire .callout_lock false] ++
    [.release .callout_lock, .acquire .callout_lock false])

/-! ## Sample states -/

/-- A power block with the mutex free, as `framework_pwr_init` leaves it. -/
def sample_power : framework_power_t :=
  { power_state := .PWR, battinfo := ⟨0, 0, 0, 0⟩, lock_held := false, last_update := 0 }

/-- A running module: battery profile `{low 3, high 40, timeout 10, step 10}`,
backlight at 40, last input at second 100, interrupt callback registered. -/
def sample_globals : framework_globals :=
  { power_config := framework_screen_init,
    framework_power := sample_power,
    framework_backlight :=
      { sc := some ⟨40⟩, props_brightness := 40, dev := ⟨40, 0, 0, []⟩, requested := [] },
    framework_evdev := ⟨100, true⟩,
    framework_callout_drop := 0 }

/-- An initialised backlight whose `props` lags behind the device: the device
is at 40, as after a change made from outside the module, and `props` still
holds 7. -/
def sample_backlight_stale : framework_backlight_t :=
  { sc := some ⟨40⟩, props_brightness := 7, dev := ⟨40, 0, 0, []⟩, requested := [] }

/-- The backlight data before `framework_bl_init` has found a device. -/
def sample_backlight_null : framework_backlight_t :=
  { sc := none, props_brightness := 0, dev := backlight_dev_none, requested := [] }

/-- A battery query that fails with `ENXIO` and leaves the zero-initialised
`local_battinfo` untouched. -/
def failed_query : battquery := { error := ENXIO, battinfo := ⟨0, 0, 0, 0⟩ }

/-- A battery query that succeeds with the given state code. -/
def sample_query (state : Int) : battquery := ⟨0, ⟨80, 90, state, 5⟩⟩

/-- An iteration at second 111 (11 s after the last input) that sees the
battery discharging in both queries. -/
def sample_env : cycle_env :=
  { q_timeout := sample_query 1, q_brightness := sample_query 1, time_uptime := 111,
    tick := 5000, tvtohz := fun s => 1000 * s }

/-- A laptop at module load: the `acpi` node, the backlight at 40, a keyboard
multiplexer and a lid switch among the input devices; the battery is
discharging. -/
def sample_kernel : framework_kernel :=
  { cdevp_list :=
      [ { si_name := "acpi".toList,
          si_drv1 := some ⟨⟨0⟩, backlight_dev_none, ⟨[], [], 0⟩⟩ },
        { si_name := "backlight/backlight0".toList,
          si_drv1 := some ⟨⟨40⟩, ⟨40, 0, 0, []⟩, ⟨[], [], 0⟩⟩ },
        { si_name := "input/event0".toList,
          si_drv1 := some ⟨⟨0⟩, backlight_dev_none,
            ⟨"System keyboard multiplexer".toList, "kbdmux".toList, 24⟩⟩ },
        { si_name := "input/event1".toList,
          si_drv1 := some ⟨⟨0⟩, backlight_dev_none,
            ⟨"Lid Switch".toList, "acpi_lid".toList, 24⟩⟩ } ],
    battery_devclass := true, battery_unit0 := true, bix_error := 0,
    q_pwr_init := sample_query 1, q_callout_init := sample_query 1, time_uptime := 50,
    power_state_zero := .IVL }

/-- The character devices of `sample_kernel` without those named `name`. -/
def sample_kernel_without (name : List Char) : framework_kernel :=
  { sample_kernel with
    cdevp_list := sample_kernel.cdevp_list.filter (fun cdp => !(name.isPrefixOf cdp.si_name)) }

/-- The supervisor as `framework_callout_init` creates it. -/
def sample_callout : framework_callout_t :=
  { current_level := .HIGH, expect_next_callout := 0, active := 1 }

/-! ## Facts about the power mode classifier -/

/-- With the mutex free, `framework_pwr_getpowermode` returns, and its answer
is a function of the queried state code alone. -/
theorem pwr_getpowermode_of_free (K : acpi_batt_stat) (q : battquery) (t : Int)
    (fp : framework_power_t) (hfree : fp.lock_held = false) :
    framework_pwr_getpowermode K q t fp =
      if q.battinfo.state = 0 then
        some (.PWR, { fp with battinfo := q.battinfo, power_state := .PWR, last_update := t,
                              lock_held := false })
      else if q.battinfo.state = K.CRITICAL ∨ q.battinfo.state = K.DISCHARG then
        some (.BAT, { fp with battinfo := q.battinfo, power_state := .BAT, last_update := t,
                              lock_held := false })
      else if q.battinfo.state = K.CHARGING then
        some (.PWR, { fp with battinfo := q.battinfo, power_state := .PWR, last_update := t,
                              lock_held := false })
      else some (.IVL, { fp with battinfo := q.battinfo, lock_held := true }) := by
  unfold framework_pwr_getpowermode framework_pwr_loadbattinfo
  simp only [hfree]
  split_ifs <;> simp_all [EDOM]

/-- A call that classifies the power mode as `BAT` or `PWR` leaves the mutex
free. -/
theorem pwr_getpowermode_valid_unlocked (K : acpi_batt_stat) (q : battquery) (t : Int)
    (fp fp1 : framework_power_t) (m : framework_power_type_t)
    (h : framework_pwr_getpowermode K q t fp = some (m, fp1)) (hm : m ≠ .IVL) :
    fp1.lock_held = false := by
  by_cases hl : fp.lock_held = true
  · simp [framework_pwr_getpowermode, framework_pwr_loadbattinfo, hl] at h
  · rw [pwr_getpowermode_of_free K q t fp (by simpa using hl)] at h
    split_ifs at h <;> simp only [Option.some.injEq, Prod.mk.injEq] at h <;>
      obtain ⟨hm1, rfl⟩ := h
    · rfl
    · rfl
    · rfl
    · exact absurd hm1.symm hm

/-- The mode `framework_pwr_getpowermode` returns for each queried state code
when the mutex is free. -/
theorem pwr_getpowermode_of_state (K : acpi_batt_stat) (hK : K.distinct) (q : battquery)
    (t : Int) (fp : framework_power_t) (hfree : fp.lock_held = false) :
    ∃ m fp1, framework_pwr_getpowermode K q t fp = some (m, fp1) ∧
      ((q.battinfo.state = 0 ∨ q.battinfo.state = K.CHARGING) → m = .PWR) ∧
      ((q.battinfo.state = K.DISCHARG ∨ q.battinfo.state = K.CRITICAL) → m = .BAT) ∧
      ((q.battinfo.state ≠ 0 ∧ q.battinfo.state ≠ K.CHARGING ∧
          q.battinfo.state ≠ K.DISCHARG ∧ q.battinfo.state ≠ K.CRITICAL) → m = .IVL) := by
  obtain ⟨h1, h2, h3, h4, h5, h6⟩ := hK
  rw [pwr_getpowermode_of_free K q t fp hfree]
  split_ifs with a b c
  · refine ⟨_, _, rfl, fun _ => rfl, ?_, ?_⟩
    · rintro (h | h)
      · exact absurd (h.symm.trans a) h1
      · exact absurd (h.symm.trans a) h3
    · intro h; exact absurd a h.1
  · refine ⟨_, _, rfl, ?_, fun _ => rfl, ?_⟩
    · rintro (h | h)
      · exact absurd h a
      · rcases b with b | b
        · exact absurd (h.symm.trans b) h6
        · exact absurd (b.symm.trans h) h4
    · intro h
      rcases b with b | b
      · exact absurd b h.2.2.2
      · exact absurd b h.2.2.1
  · refine ⟨_, _, rfl, fun _ => rfl, ?_, ?_⟩
    · rintro (h | h)
      · exact absurd h (fun e => b (Or.inr e))
      · exact absurd h (fun e => b (Or.inl e))
    · intro h; exact absurd c h.2.1
  · refine ⟨_, _, rfl, ?_, ?_, fun _ => rfl⟩
    · rintro (h | h)
      · exact absurd h a
      · exact absurd h c
    · rintro (h | h)
      · exact absurd h (fun e => b (Or.inr e))
      · exact absurd h (fun e => b (Or.inl e))

/-! ## Facts about the supervisor's helpers -/

/-- The result of `framework_callout_getcurrenttimeout` once the mode its
query yields is known. -/
theorem callout_getcurrenttimeout_of_mode (K : acpi_batt_stat) (q : battquery) (t : Int)
    (g : framework_globals) (m : framework_power_type_t) (fp1 : framework_power_t)
    (hmode : framework_pwr_getpowermode K q t g.framework_power = some (m, fp1)) :
    framework_callout_getcurrenttimeout K q t g =
      some ((match framework_callout_screen_config m with
              | none => 0
              | some p => (g.power_config.deref p).timeout_secs),
            { g with framework_power := fp1 }) := by
  unfold framework_callout_getcurrenttimeout
  rw [hmode]
  cases m <;> simp [framework_callout_screen_config, framework_screen_gettimeout_secs]

/-- The result of `framework_callout_getbrightnessfor` once the mode its
query yields is known. -/
theorem callout_getbrightnessfor_of_mode (K : acpi_batt_stat) (q : battquery) (t : Int)
    (co : framework_callout_t) (g : framework_globals) (m : framework_power_type_t)
    (fp1 : framework_power_t)
    (hmode : framework_pwr_getpowermode K q t g.framework_power = some (m, fp1)) :
    framework_callout_getbrightnessfor K q t co g =
      some ((match framework_callout_screen_config m with
              | none => u32 (-1)
              | some p =>
                match co.current_level with
                | .DIM => (g.power_config.deref p).brightness_low
                | .HIGH => (g.power_config.deref p).brightness_high),
            { g with framework_power := fp1 }) := by
  unfold framework_callout_getbrightnessfor
  rw [hmode]
  cases m <;> cases hc : co.current_level <;>
    simp [framework_callout_screen_config, framework_screen_getbrightness_low,
      framework_screen_getbrightness_high]

/-- A profile pointer is selected for the modes `BAT` and `PWR` only. -/
theorem callout_screen_config_some (m : framework_power_type_t) (p : screen_config_ptr)
    (hp : framework_callout_screen_config m = some p) : m ≠ .IVL := by
  intro h
  subst h
  simp [framework_callout_screen_config] at hp

/-- Each call of `framework_bl_setbrightness` appends its argument to the list of requests. -/
theorem bl_setbrightness_requested (b : Nat) (bl : framework_backlight_t) :
    (framework_bl_setbrightness b bl).2.requested = bl.requested ++ [b] := by
  unfold framework_bl_setbrightness framework_bl_getbrightness framework_bl_loadprops
  cases hsc : bl.sc with
  | none => simp [hsc]
  | some sc =>
    simp only [hsc]
    split_ifs <;> simp

/-- One iteration of the loop body, unfolded under the assumption that both
classifications of the iteration succeed with a selected profile and that the
timeout read is not zero. -/
theorem callout_thread_body_of_modes (K : acpi_batt_stat) (env : cycle_env)
    (co : framework_callout_t) (g : framework_globals)
    (m1 m2 : framework_power_type_t) (fp1 fp2 : framework_power_t) (p1 p2 : screen_config_ptr)
    (h1 : framework_pwr_getpowermode K env.q_timeout env.time_uptime g.framework_power
      = some (m1, fp1))
    (hp1 : framework_callout_screen_config m1 = some p1)
    (hpos : 0 < (g.power_config.deref p1).timeout_secs)
    (h2 : framework_pwr_getpowermode K env.q_brightness env.time_uptime fp1 = some (m2, fp2))
    (hp2 : framework_callout_screen_config m2 = some p2) :
    ∃ r, framework_callout_thread_body K env co g = some r ∧
      r.co.current_level =
        (if framework_callout_elapsed g.framework_evdev.last_input env.time_uptime
            ≥ (g.power_config.deref p1).timeout_secs then .DIM else co.current_level) ∧
      r.co.active = co.active ∧
      r.g.power_config = g.power_config ∧
      r.g.framework_backlight.requested = g.framework_backlight.requested ++
        [match r.co.current_level with
          | .DIM => (g.power_config.deref p2).brightness_low
          | .HIGH => (g.power_config.deref p2).brightness_high] := by
  unfold framework_callout_thread_body
  rw [callout_getcurrenttimeout_of_mode K _ _ g m1 fp1 h1]
  simp only [hp1]
  rw [if_neg (by omega)]
  simp only [framework_evdev_getlastinput]
  rw [callout_getbrightnessfor_of_mode K _ _ _ _ m2 fp2 h2]
  simp only [hp2]
  refine ⟨_, rfl, ?_, ?_, rfl, ?_⟩
  · split_ifs <;> rfl
  · split_ifs <;> rfl
  · simp only [bl_setbrightness_requested]

/-- The level after an iteration of the loop body, in terms of the timeout
the iteration read. -/
theorem callout_thread_body_level (K : acpi_batt_stat) (env : cycle_env)
    (co : framework_callout_t) (g : framework_globals) (r : cycle_result)
    (T : Nat) (g1 : framework_globals)
    (hT : framework_callout_getcurrenttimeout K env.q_timeout env.time_uptime g = some (T, g1))
    (h : framework_callout_thread_body K env co g = some r) :
    r.co.current_level =
      if 0 = T then co.current_level
      else if framework_callout_elapsed g1.framework_evdev.last_input env.time_uptime ≥ T
        then .DIM else co.current_level := by
  unfold framework_callout_thread_body at h
  rw [hT] at h
  simp only [framework_evdev_getlastinput] at h
  by_cases hz : 0 = T
  · rw [if_pos hz] at h
    rw [if_pos hz]
    simp only [Option.some.injEq] at h
    subst h
    rfl
  · rw [if_neg hz] at h
    rw [if_neg hz]
    generalize hco1 : (if framework_callout_elapsed g1.framework_evdev.last_input env.time_uptime
      ≥ T then ({ co with current_level := .DIM } : framework_callout_t) else co) = co1 at h
    cases hbr : framework_callout_getbrightnessfor K env.q_brightness env.time_uptime co1 g1 with
    | none => simp [hbr] at h
    | some bg =>
      simp only [hbr, Option.some.injEq] at h
      subst h
      subst hco1
      simp only
      split_ifs <;> rfl

/-! ## The profile store and the key handler -/

/-- The conversion `u32` is the identity on values that fit. -/
theorem u32_of_nat (n : Nat) (h : n < 4294967296) : u32 (n : Int) = n := by
  unfold u32; omega

/-- The conversion `u32` of a sum of two values that fits. -/
theorem u32_add (a b : Nat) (h : a + b < 4294967296) : u32 ((a : Int) + (b : Int)) = a + b := by
  unfold u32; omega

/-- The conversion `u32` of a difference that does not go below zero. -/
theorem u32_sub (a b : Nat) (hb : b ≤ a) (h : a < 4294967296) :
    u32 ((a : Int) + -(b : Int)) = a - b := by
  unfold u32; omega

/-- The conversion `u32` of the negation of a negated step. -/
theorem u32_neg_neg (b : Nat) (h : b < 4294967296) : u32 (0 - -(b : Int)) = b := by
  unfold u32; omega

/-- Reading `brightness_high` back after writing it. -/
theorem screen_setbrightness_high_get (config : framework_screen_power_config_t)
    (p : screen_config_ptr) (v : Nat) :
    ((framework_screen_setbrightness_high config p v).deref p).brightness_high = v := by
  cases p <;> rfl

/-- Writing `brightness_high` of one profile leaves the other profile as it
was. -/
theorem screen_setbrightness_high_other (config : framework_screen_power_config_t)
    (p p1 : screen_config_ptr) (v : Nat) (hne : p1 ≠ p) :
    (framework_screen_setbrightness_high config p v).deref p1 = config.deref p1 := by
  cases p <;> cases p1 <;> first | rfl | exact absurd rfl hne

/-- An increase by `s >= 0`: what `framework_screen_config_changebrightness`
leaves in the store. -/
theorem screen_config_changebrightness_up (config : framework_screen_power_config_t)
    (p : screen_config_ptr) (s : Nat)
    (hh : (config.deref p).brightness_high ≤ 100) (hs : s < 2147483648) :
    ((framework_screen_config_changebrightness config p (s : Int)).2.deref p).brightness_high
      = min ((config.deref p).brightness_high + s) 100 ∧
    ∀ p1, p1 ≠ p →
      (framework_screen_config_changebrightness config p (s : Int)).2.deref p1
        = config.deref p1 := by
  have hup : ¬ ((s : Int) < 0) := by omega
  unfold framework_screen_config_changebrightness
  simp only [hup, if_false]
  rw [u32_add _ _ (by omega)]
  constructor
  · split_ifs <;> (try simp only [screen_setbrightness_high_get]) <;> omega
  · intro p1 hne
    split_ifs <;> first | rfl | exact screen_setbrightness_high_other config p p1 _ hne

/-- A decrease by `s >= 0`: what `framework_screen_config_changebrightness`
leaves in the store. -/
theorem screen_config_changebrightness_down (config : framework_screen_power_config_t)
    (p : screen_config_ptr) (s : Nat)
    (hh : (config.deref p).brightness_high ≤ 100) (hs : s < 2147483648) :
    ((framework_screen_config_changebrightness config p (-(s : Int))).2.deref p).brightness_high
      = (config.deref p).brightness_high - s ∧
    ∀ p1, p1 ≠ p →
      (framework_screen_config_changebrightness config p (-(s : Int))).2.deref p1
        = config.deref p1 := by
  rcases Nat.eq_zero_or_pos s with h0 | hpos
  · subst h0
    have h := screen_config_changebrightness_up config p 0 hh (by omega)
    simp only [Nat.cast_zero, neg_zero, Nat.add_zero, Nat.sub_zero] at h ⊢
    exact ⟨by rw [h.1]; omega, h.2⟩
  · have hdown : (-(s : Int) < 0) := by omega
    unfold framework_screen_config_changebrightness
    simp only [hdown, if_true]
    rw [u32_neg_neg _ (by omega)]
    constructor
    · split_ifs <;> (try simp only [screen_setbrightness_high_get]) <;>
        (try rw [u32_sub _ _ (by omega) (by omega)]) <;> omega
    · intro p1 hne
      split_ifs <;> first | rfl | exact screen_setbrightness_high_other config p p1 _ hne

/-- A profile handed back by `framework_util_getscreenconfig` is the one of
the mode classified in that call, and the store is untouched. -/
theorem util_getscreenconfig_some (K : acpi_batt_stat) (q : battquery) (t : Int)
    (g g1 : framework_globals) (p : screen_config_ptr)
    (hsc : framework_util_getscreenconfig K q t g = some (0, some p, g1)) :
    g1.power_config = g.power_config ∧
    ∃ m fp1, framework_pwr_getpowermode K q t g.framework_power = some (m, fp1) ∧
      ((m = .BAT ∧ p = .battery) ∨ (m = .PWR ∧ p = .power)) := by
  unfold framework_util_getscreenconfig at hsc
  cases hpm : framework_pwr_getpowermode K q t g.framework_power with
  | none => simp [hpm] at hsc
  | some mf =>
    obtain ⟨m, fp1⟩ := mf
    rw [hpm] at hsc
    cases m <;> simp only [Option.some.injEq, Prod.mk.injEq] at hsc
    · omega
    · obtain ⟨-, hp, hg⟩ := hsc
      subst hg
      exact ⟨rfl, _, _, rfl, Or.inl ⟨rfl, hp.symm⟩⟩
    · obtain ⟨-, hp, hg⟩ := hsc
      subst hg
      exact ⟨rfl, _, _, rfl, Or.inr ⟨rfl, hp.symm⟩⟩

/-- With the power mutex free, `framework_keyhandler_changebrightness`
returns. -/
theorem keyhandler_changebrightness_returns (K : acpi_batt_stat) (q : battquery) (t : Int)
    (kh : framework_keyhandler_t) (up : Bool) (g : framework_globals)
    (hfree : g.framework_power.lock_held = false) :
    ∃ g1, framework_keyhandler_changebrightness K q t kh up g = some g1 := by
  unfold framework_keyhandler_changebrightness framework_util_getscreenconfig
  rw [pwr_getpowermode_of_free K q t g.framework_power hfree]
  split_ifs <;> simp

/-! ## The dimming supervisor -/

/-- C1: when the mode classified at the start of an iteration is `BAT` or
`PWR`, the `timeout_secs` of the profile selected for it is greater than zero
and the elapsed idle time has reached it, the iteration of the loop body of
`framework_callout_thread` completes with `current_level == DIM`, whatever the
level was before. -/
theorem callout_thread_body_dims (K : acpi_batt_stat) (env : cycle_env)
    (co : framework_callout_t) (g : framework_globals)
    (m : framework_power_type_t) (fp1 : framework_power_t) (p : screen_config_ptr)
    (hmode : framework_pwr_getpowermode K env.q_timeout env.time_uptime g.framework_power
      = some (m, fp1))
    (hp : framework_callout_screen_config m = some p)
    (hpos : 0 < (g.power_config.deref p).timeout_secs)
    (hel : (g.power_config.deref p).timeout_secs
      ≤ framework_callout_elapsed g.framework_evdev.last_input env.time_uptime) :
    ∃ r, framework_callout_thread_body K env co g = some r ∧ r.co.current_level = .DIM := by
  have hfree : fp1.lock_held = false :=
    pwr_getpowermode_valid_unlocked K _ _ _ fp1 m hmode (callout_screen_config_some m p hp)
  unfold framework_callout_thread_body
  rw [callout_getcurrenttimeout_of_mode K _ _ g m fp1 hmode]
  simp only [hp]
  rw [if_neg (by omega)]
  simp only [framework_evdev_getlastinput]
  rw [if_pos hel]
  have hsome := pwr_getpowermode_of_free K env.q_brightness env.time_uptime fp1 hfree
  generalize hres : framework_pwr_getpowermode K env.q_brightness env.time_uptime fp1 = res at hsome
  have : ∃ m2 fp2, res = some (m2, fp2) := by
    rw [hsome]; split_ifs <;> exact ⟨_, _, rfl⟩
  obtain ⟨m2, fp2, rfl⟩ := this
  rw [callout_getbrightnessfor_of_mode K _ _ _ _ m2 fp2 hres]
  exact ⟨_, rfl, rfl⟩

/-- Scenario: battery profile with timeout 10, no input for 11 s on
battery; the iteration ends with `current_level == DIM`. -/
theorem callout_thread_body_dims_witness :
    framework_pwr_getpowermode acpiio sample_env.q_timeout sample_env.time_uptime
        sample_globals.framework_power = some (.BAT, ⟨.BAT, ⟨80, 90, 1, 5⟩, false, 111⟩) ∧
    framework_callout_screen_config .BAT = some .battery ∧
    0 < (sample_globals.power_config.deref .battery).timeout_secs ∧
    (sample_globals.power_config.deref .battery).timeout_secs
      ≤ framework_callout_elapsed sample_globals.framework_evdev.last_input
          sample_env.time_uptime ∧
    ∃ r, framework_callout_thread_body acpiio sample_env sample_callout sample_globals = some r ∧
      r.co.current_level = .DIM :=
  ⟨by decide, rfl, by decide, by decide,
    callout_thread_body_dims acpiio sample_env sample_callout sample_globals .BAT
      ⟨.BAT, ⟨80, 90, 1, 5⟩, false, 111⟩ .battery (by decide) rfl (by decide) (by decide)⟩

/-- C2: with the drop flag clear and the power mode classified as `BAT` or
`PWR`, one call of `framework_callout_inputintr` returns with
`current_level == HIGH` and hands `framework_bl_setbrightness` exactly one
value, the `brightness_high` of the profile selected for the classified mode
(battery profile for `BAT`, power profile for `PWR`). -/
theorem callout_inputintr_forces_high (K : acpi_batt_stat) (q : battquery) (t : Int)
    (co : framework_callout_t) (g : framework_globals)
    (m : framework_power_type_t) (fp1 : framework_power_t) (p : screen_config_ptr)
    (hdrop : g.framework_callout_drop = 0)
    (hmode : framework_pwr_getpowermode K q t g.framework_power = some (m, fp1))
    (hp : framework_callout_screen_config m = some p) :
    (m = .BAT → p = .battery) ∧ (m = .PWR → p = .power) ∧
    ∃ co1 g1, framework_callout_inputintr K q t co g = some (co1, g1) ∧
      co1.current_level = .HIGH ∧
      g1.framework_backlight.requested = g.framework_backlight.requested ++
        [(g.power_config.deref p).brightness_high] := by
  refine ⟨?_, ?_, ?_⟩
  · rintro rfl
    simpa [framework_callout_screen_config] using hp.symm
  · rintro rfl
    simpa [framework_callout_screen_config] using hp.symm
  · unfold framework_callout_inputintr
    rw [if_neg (by simp [hdrop])]
    simp only
    rw [callout_getbrightnessfor_of_mode K q t _ g m fp1 hmode]
    simp only [hp]
    exact ⟨_, _, rfl, rfl, by simp only [bl_setbrightness_requested]⟩

/-- Scenario: after a dim on battery with profile `{low 3, high 40}`,
an input event requests brightness 40 and sets `HIGH`. -/
theorem callout_inputintr_forces_high_witness :
    sample_globals.framework_callout_drop = 0 ∧
    framework_pwr_getpowermode acpiio (sample_query 1) 120 sample_globals.framework_power
      = some (.BAT, ⟨.BAT, ⟨80, 90, 1, 5⟩, false, 120⟩) ∧
    framework_callout_screen_config .BAT = some .battery ∧
    ((framework_power_type_t.BAT = .BAT → screen_config_ptr.battery = .battery) ∧
     (framework_power_type_t.BAT = .PWR → screen_config_ptr.battery = .power) ∧
     ∃ co1 g1,
      framework_callout_inputintr acpiio (sample_query 1) 120
        { sample_callout with current_level := .DIM } sample_globals = some (co1, g1) ∧
      co1.current_level = .HIGH ∧
      g1.framework_backlight.requested = sample_globals.framework_backlight.requested ++
        [(sample_globals.power_config.deref .battery).brightness_high]) :=
  ⟨rfl, by decide, rfl,
    callout_inputintr_forces_high acpiio (sample_query 1) 120
      { sample_callout with current_level := .DIM } sample_globals .BAT
      ⟨.BAT, ⟨80, 90, 1, 5⟩, false, 120⟩ .battery rfl (by decide) rfl⟩

/-- C3: when the classifier returns `BAT` or `PWR`, the value
`framework_callout_getbrightnessfor` computes is `brightness_low` of the
profile selected for the classified mode when `current_level == DIM` and its
`brightness_high` when `current_level == HIGH`; `framework_callout_init`
creates the supervisor with `current_level == HIGH` and its single request to
`framework_bl_setbrightness` is that profile's `brightness_high`; the input
callback requests that profile's `brightness_high`; and an iteration of the
loop body requests `brightness_low` or `brightness_high`, by the level it ends
with, of the profile selected for the mode classified at the time of the
push. -/
theorem callout_pushes_profile_brightness (K : acpi_batt_stat) (q : battquery) (t : Int)
    (co : framework_callout_t) (g : framework_globals)
    (m : framework_power_type_t) (fp1 : framework_power_t) (p : screen_config_ptr)
    (hmode : framework_pwr_getpowermode K q t g.framework_power = some (m, fp1))
    (hp : framework_callout_screen_config m = some p) :
    ((m = .BAT ∧ p = .battery) ∨ (m = .PWR ∧ p = .power)) ∧
    (∃ g1, framework_callout_getbrightnessfor K q t co g =
      some ((match co.current_level with
              | .DIM => (g.power_config.deref p).brightness_low
              | .HIGH => (g.power_config.deref p).brightness_high), g1)) ∧
    (∃ co1 g1, framework_callout_init K q t g = some (co1, g1) ∧
      co1.current_level = .HIGH ∧
      g1.framework_backlight.requested = g.framework_backlight.requested ++
        [(g.power_config.deref p).brightness_high]) ∧
    (g.framework_callout_drop = 0 →
      ∃ co1 g1, framework_callout_inputintr K q t co g = some (co1, g1) ∧
        co1.current_level = .HIGH ∧
        g1.framework_backlight.requested = g.framework_backlight.requested ++
          [(g.power_config.deref p).brightness_high]) ∧
    (∀ (env : cycle_env) (g0 : framework_globals) (m0 : framework_power_type_t)
        (p0 : screen_config_ptr),
      env.q_brightness = q → env.time_uptime = t →
      framework_pwr_getpowermode K env.q_timeout env.time_uptime g0.framework_power
        = some (m0, g.framework_power) →
      g0.power_config = g.power_config →
      framework_callout_screen_config m0 = some p0 →
      0 < (g0.power_config.deref p0).timeout_secs →
      ∃ r, framework_callout_thread_body K env co g0 = some r ∧
        r.g.framework_backlight.requested = g0.framework_backlight.requested ++
          [match r.co.current_level with
            | .DIM => (g.power_config.deref p).brightness_low
            | .HIGH => (g.power_config.deref p).brightness_high]) := by
  refine ⟨?_, ?_, ?_, ?_, ?_⟩
  · cases m
    · simp [framework_callout_screen_config] at hp
    · left; exact ⟨rfl, by simpa [framework_callout_screen_config] using hp.symm⟩
    · right; exact ⟨rfl, by simpa [framework_callout_screen_config] using hp.symm⟩
  · rw [callout_getbrightnessfor_of_mode K q t co g m fp1 hmode]
    simp only [hp]
    exact ⟨_, rfl⟩
  · unfold framework_callout_init
    simp only
    rw [callout_getbrightnessfor_of_mode K q t _ g m fp1 hmode]
    simp only [hp]
    exact ⟨_, _, rfl, rfl, by simp only [bl_setbrightness_requested]⟩
  · intro hdrop
    unfold framework_callout_inputintr
    rw [if_neg (by simp [hdrop])]
    simp only
    rw [callout_getbrightnessfor_of_mode K q t _ g m fp1 hmode]
    simp only [hp]
    exact ⟨_, _, rfl, rfl, by simp only [bl_setbrightness_requested]⟩
  · intro env g0 m0 p0 hq ht h0 hcfg hp0 hpos
    subst hq ht
    obtain ⟨r, hr, -, -, -, hreq⟩ :=
      callout_thread_body_of_modes K env co g0 m0 m g.framework_power fp1 p0 p h0 hp0 hpos
        hmode hp
    exact ⟨r, hr, by rw [hreq, hcfg]⟩

/-- Scenario: on battery with profile `{low 3, high 40}` the
supervisor is created `HIGH` and first requests 40; a dimming iteration
requests 3. -/
theorem callout_pushes_profile_brightness_witness :
    framework_pwr_getpowermode acpiio (sample_query 1) 111
        { sample_power with power_state := .BAT, battinfo := ⟨80, 90, 1, 5⟩, last_update := 111 }
      = some (.BAT, ⟨.BAT, ⟨80, 90, 1, 5⟩, false, 111⟩) ∧
    framework_callout_screen_config .BAT = some .battery ∧
    (∃ co1 g1, framework_callout_init acpiio (sample_query 1) 111
        { sample_globals with framework_power :=
          { sample_power with power_state := .BAT, battinfo := ⟨80, 90, 1, 5⟩,
                              last_update := 111 } } = some (co1, g1) ∧
      co1.current_level = .HIGH ∧ g1.framework_backlight.requested = [] ++ [40]) ∧
    (∃ r, framework_callout_thread_body acpiio sample_env sample_callout sample_globals = some r ∧
      r.g.framework_backlight.requested = [] ++ [3]) := by
  have h := callout_pushes_profile_brightness acpiio (sample_query 1) 111 sample_callout
    { sample_globals with framework_power :=
      { sample_power with power_state := .BAT, battinfo := ⟨80, 90, 1, 5⟩, last_update := 111 } }
    .BAT ⟨.BAT, ⟨80, 90, 1, 5⟩, false, 111⟩ .battery (by decide) rfl
  refine ⟨by decide, rfl, h.2.2.1, ?_⟩
  obtain ⟨r, hr, hreq⟩ := h.2.2.2.2 sample_env sample_globals .BAT .battery rfl rfl (by decide) rfl
    rfl (by decide)
  refine ⟨r, hr, ?_⟩
  rw [hreq]
  have hlev : r.co.current_level = .DIM := by
    have : framework_callout_thread_body acpiio sample_env sample_callout sample_globals
        = some { co := ⟨.DIM, 15000, 1⟩,
                 g := { sample_globals with
                   framework_power := ⟨.BAT, ⟨80, 90, 1, 5⟩, false, 111⟩,
                   framework_backlight :=
                     { sc := some ⟨3⟩, props_brightness := 3, dev := ⟨3, 0, 0, [3]⟩,
                       requested := [3] } },
                 sleep := some (10, 10000) } := rfl
    rw [this] at hr
    simp only [Option.some.injEq] at hr
    rw [← hr]
  rw [hlev]
  rfl

/-- C4: an iteration of the loop body of `framework_callout_thread` never
turns `DIM` into `HIGH`: the level afterwards is the level before or the
change is `HIGH` to `DIM`; and when the elapsed time is below the timeout the
iteration read, the level afterwards equals the level before. -/
theorem callout_thread_body_never_brightens (K : acpi_batt_stat) (env : cycle_env)
    (co : framework_callout_t) (g : framework_globals) (r : cycle_result)
    (h : framework_callout_thread_body K env co g = some r) :
    (co.current_level = .DIM → r.co.current_level = .DIM) ∧
    (r.co.current_level = co.current_level ∨
      (co.current_level = .HIGH ∧ r.co.current_level = .DIM)) ∧
    (∀ T g1, framework_callout_getcurrenttimeout K env.q_timeout env.time_uptime g
        = some (T, g1) →
      framework_callout_elapsed g.framework_evdev.last_input env.time_uptime < T →
      r.co.current_level = co.current_level) := by
  cases hpm : framework_pwr_getpowermode K env.q_timeout env.time_uptime g.framework_power with
  | none =>
    simp [framework_callout_thread_body, framework_callout_getcurrenttimeout, hpm] at h
  | some mf =>
    obtain ⟨m, fp1⟩ := mf
    have hT := callout_getcurrenttimeout_of_mode K _ _ g m fp1 hpm
    have hlev := callout_thread_body_level K env co g r _ _ hT h
    simp only at hlev
    rw [hlev]
    refine ⟨?_, ?_, ?_⟩
    · intro hd
      split_ifs <;> first | rfl | exact hd
    · cases hc : co.current_level <;> split_ifs <;> simp
    · intro T g1 hT1 hlt
      rw [hT] at hT1
      simp only [Option.some.injEq, Prod.mk.injEq] at hT1
      obtain ⟨hT2, -⟩ := hT1
      rw [hT2]
      split_ifs with h0 hge
      · rfl
      · omega
      · rfl

/-- Scenario: 5 s after the last input on battery with
timeout 10, the dimmed level stays `DIM`. -/
theorem callout_thread_body_never_brightens_witness :
    framework_callout_thread_body acpiio { sample_env with time_uptime := 105 }
        { sample_callout with current_level := .DIM } sample_globals
      = some { co := ⟨.DIM, 10000, 1⟩,
               g := { sample_globals with
                 framework_power := ⟨.BAT, ⟨80, 90, 1, 5⟩, false, 105⟩,
                 framework_backlight :=
                   { sc := some ⟨3⟩, props_brightness := 3, dev := ⟨3, 0, 0, [3]⟩,
                     requested := [3] } },
               sleep := some (5, 5000) } ∧
    ∃ r, framework_callout_thread_body acpiio { sample_env with time_uptime := 105 }
        { sample_callout with current_level := .DIM } sample_globals = some r ∧
      r.co.current_level = .DIM :=
  ⟨rfl, _, rfl,
    (callout_thread_body_never_brightens acpiio { sample_env with time_uptime := 105 }
      { sample_callout with current_level := .DIM } sample_globals _ rfl).1 rfl⟩

/-! ## Manual adjustment -/

/-- C5: with the handler initialised and `p` the profile of the current power
mode (`brightness_high = h` in `[0,100]`, `increment_level = s`), handling key
code 225 returns 0 and leaves `clamp(h + s, 0, 100)` in that profile's
`brightness_high`, handling key code 224 returns 0 and leaves
`clamp(h - s, 0, 100)`, and the other profile is unchanged in both cases. -/
theorem keyhandler_handlekey_adjusts (K : acpi_batt_stat) (q : battquery) (t : Int)
    (kh : framework_keyhandler_t) (g g1 : framework_globals) (p : screen_config_ptr)
    (hinit : FRAMEWORK_KEYHANDLER_INIT &&& kh.flags ≠ 0)
    (hsc : framework_util_getscreenconfig K q t g = some (0, some p, g1))
    (hh : (g.power_config.deref p).brightness_high ≤ 100)
    (hs : (g.power_config.deref p).increment_level < 256) :
    (∃ m fp1, framework_pwr_getpowermode K q t g.framework_power = some (m, fp1) ∧
      ((m = .BAT ∧ p = .battery) ∨ (m = .PWR ∧ p = .power))) ∧
    (∃ g2, framework_keyhandler_handlekey K q t kh 225 g = some (0, g2) ∧
      (((g2.power_config.deref p).brightness_high : Nat) : Int)
        = max 0 (min 100 (((g.power_config.deref p).brightness_high : Int)
            + ((g.power_config.deref p).increment_level : Int))) ∧
      ∀ p1, p1 ≠ p → g2.power_config.deref p1 = g.power_config.deref p1) ∧
    (∃ g2, framework_keyhandler_handlekey K q t kh 224 g = some (0, g2) ∧
      (((g2.power_config.deref p).brightness_high : Nat) : Int)
        = max 0 (min 100 (((g.power_config.deref p).brightness_high : Int)
            - ((g.power_config.deref p).increment_level : Int))) ∧
      ∀ p1, p1 ≠ p → g2.power_config.deref p1 = g.power_config.deref p1) := by
  obtain ⟨hcfg, hm⟩ := util_getscreenconfig_some K q t g g1 p hsc
  have hup := screen_config_changebrightness_up g.power_config p
    (g.power_config.deref p).increment_level hh (by omega)
  have hdown := screen_config_changebrightness_down g.power_config p
    (g.power_config.deref p).increment_level hh (by omega)
  refine ⟨hm, ?_, ?_⟩
  · refine ⟨{ g1 with power_config := (framework_screen_config_changebrightness g.power_config p
        ((g.power_config.deref p).increment_level : Int)).2 }, ?_, ?_, hup.2⟩
    · simp [framework_keyhandler_handlekey, hinit, framework_keyhandler_vt,
        framework_keyhandler_scan, framework_keyhandler_brightness_up,
        framework_keyhandler_changebrightness, hsc, hcfg, framework_screen_getincrement_level]
    · simp only [hup.1]
      omega
  · refine ⟨{ g1 with power_config := (framework_screen_config_changebrightness g.power_config p
        (-((g.power_config.deref p).increment_level : Int))).2 }, ?_, ?_, hdown.2⟩
    · simp [framework_keyhandler_handlekey, hinit, framework_keyhandler_vt,
        framework_keyhandler_scan, framework_keyhandler_brightness_down,
        framework_keyhandler_changebrightness, hsc, hcfg, framework_screen_getincrement_level]
    · simp only [hdown.1]
      omega

/-- Scenario: on battery with `brightness_high = 40` and step 10,
key 225 leaves 50 and key 224 leaves 30; the power profile is unchanged. -/
theorem keyhandler_handlekey_adjusts_witness :
    FRAMEWORK_KEYHANDLER_INIT &&& framework_keyhandler_init.flags ≠ 0 ∧
    framework_util_getscreenconfig acpiio (sample_query 1) 111 sample_globals
      = some (0, some .battery,
          { sample_globals with framework_power := ⟨.BAT, ⟨80, 90, 1, 5⟩, false, 111⟩ }) ∧
    (∃ g2, framework_keyhandler_handlekey acpiio (sample_query 1) 111 framework_keyhandler_init
        225 sample_globals = some (0, g2) ∧
      (((g2.power_config.deref .battery).brightness_high : Nat) : Int)
        = max 0 (min 100 ((40 : Int) + (10 : Int))) ∧
      ∀ p1, p1 ≠ .battery → g2.power_config.deref p1 = sample_globals.power_config.deref p1) ∧
    (framework_keyhandler_handlekey acpiio (sample_query 1) 111 framework_keyhandler_init
        224 sample_globals).map (fun r => (r.1, r.2.power_config.battery.brightness_high))
      = some (0, 30) :=
  ⟨by decide, by decide,
    (keyhandler_handlekey_adjusts acpiio (sample_query 1) 111 framework_keyhandler_init
      sample_globals _ .battery (by decide) (by decide : framework_util_getscreenconfig acpiio
        (sample_query 1) 111 sample_globals = some (0, some .battery,
          { sample_globals with framework_power := ⟨.BAT, ⟨80, 90, 1, 5⟩, false, 111⟩ }))
      (by decide) (by decide)).2.1,
    by decide⟩

/-- C6: for `brightness_high = h` in `[0,100]` and a step `s >= 1` (a C `int`),
`framework_screen_config_changebrightness` returns `-1` exactly when the
request crosses a boundary (increase with `h + s > 100`, decrease with
`s > h`) and then has the boundary value (100, respectively 0) stored;
otherwise it stores `h + s` (respectively `h - s`) and returns `0`. -/
theorem screen_config_changebrightness_saturates (config : framework_screen_power_config_t)
    (p : screen_config_ptr) (s : Nat)
    (hh : (config.deref p).brightness_high ≤ 100) (hs1 : 1 ≤ s) (hs : s < 2147483648) :
    (framework_screen_config_changebrightness config p (s : Int)).1
      = (if (config.deref p).brightness_high + s > 100 then -1 else 0) ∧
    ((framework_screen_config_changebrightness config p (s : Int)).2.deref p).brightness_high
      = (if (config.deref p).brightness_high + s > 100 then 100
         else (config.deref p).brightness_high + s) ∧
    (framework_screen_config_changebrightness config p (-(s : Int))).1
      = (if s > (config.deref p).brightness_high then -1 else 0) ∧
    ((framework_screen_config_changebrightness config p (-(s : Int))).2.deref p).brightness_high
      = (if s > (config.deref p).brightness_high then 0
         else (config.deref p).brightness_high - s) := by
  have hup : ¬ ((s : Int) < 0) := by omega
  have hdown : (-(s : Int) < 0) := by omega
  unfold framework_screen_config_changebrightness
  simp only [hup, hdown, if_true, if_false]
  rw [u32_add _ _ (by omega), u32_neg_neg _ (by omega)]
  refine ⟨?_, ?_, ?_, ?_⟩
  · split_ifs <;> first | rfl | omega
  · split_ifs <;> (try simp only [screen_setbrightness_high_get]) <;> omega
  · split_ifs <;> first | rfl | omega
  · split_ifs <;> (try simp only [screen_setbrightness_high_get]) <;>
      (try rw [u32_sub _ _ (by omega) (by omega)]) <;> omega

/-- Scenario: an increase of 10 from 95 stores 100 and returns `-1`,
and so does the increase after it. -/
theorem screen_config_changebrightness_saturates_witness :
    (({ framework_screen_init with
        power := { framework_screen_init.power with brightness_high := 95 } } :
      framework_screen_power_config_t).deref .power).brightness_high ≤ 100 ∧
    1 ≤ 10 ∧ 10 < 2147483648 ∧
    (framework_screen_config_changebrightness
      { framework_screen_init with
        power := { framework_screen_init.power with brightness_high := 95 } } .power 10).1
      = -1 ∧
    ((framework_screen_config_changebrightness
      { framework_screen_init with
        power := { framework_screen_init.power with brightness_high := 95 } } .power 10).2.deref
        .power).brightness_high = 100 ∧
    framework_screen_config_changebrightness framework_screen_init .power 10
      = (-1, framework_screen_init) := by
  have h := screen_config_changebrightness_saturates
    { framework_screen_init with
      power := { framework_screen_init.power with brightness_high := 95 } } .power 10
    (by decide) (by decide) (by decide)
  exact ⟨by decide, by decide, by decide, h.1, h.2.1, by decide⟩

/-- C7: an initialised key handler (called with the power mutex free) returns
0 if and only if the key code is 224 or 225; for every other key code, and for
every key code when the `INIT` flag is not set, `framework_keyhandler_handlekey`
returns `-1` and leaves the module state, both profiles included, unchanged. -/
theorem keyhandler_handlekey_matches (K : acpi_batt_stat) (q : battquery) (t : Int)
    (kh : framework_keyhandler_t) (key_in : Nat) (g : framework_globals) :
    (FRAMEWORK_KEYHANDLER_INIT &&& kh.flags ≠ 0 → g.framework_power.lock_held = false →
      ∃ rc g1, framework_keyhandler_handlekey K q t kh key_in g = some (rc, g1) ∧
        (rc = 0 ∨ rc = -1) ∧ (rc = 0 ↔ (key_in = 224 ∨ key_in = 225))) ∧
    (((key_in ≠ 224 ∧ key_in ≠ 225) ∨ FRAMEWORK_KEYHANDLER_INIT &&& kh.flags = 0) →
      framework_keyhandler_handlekey K q t kh key_in g = some (-1, g)) := by
  constructor
  · intro hinit hfree
    unfold framework_keyhandler_handlekey
    rw [if_neg hinit]
    by_cases h225 : key_in = 225
    · subst h225
      obtain ⟨g1, hg1⟩ := keyhandler_changebrightness_returns K q t kh true g hfree
      refine ⟨0, g1, ?_, Or.inl rfl, by simp⟩
      simp [framework_keyhandler_vt, framework_keyhandler_scan,
        framework_keyhandler_brightness_up, hg1]
    · by_cases h224 : key_in = 224
      · subst h224
        obtain ⟨g1, hg1⟩ := keyhandler_changebrightness_returns K q t kh false g hfree
        refine ⟨0, g1, ?_, Or.inl rfl, by simp⟩
        simp [framework_keyhandler_vt, framework_keyhandler_scan,
          framework_keyhandler_brightness_down, hg1]
      · refine ⟨-1, g, ?_, Or.inr rfl, ?_⟩
        · simp [framework_keyhandler_vt, framework_keyhandler_scan, Ne.symm h225,
            Ne.symm h224]
        · constructor
          · intro h; omega
          · rintro (h | h)
            · exact absurd h h224
            · exact absurd h h225
  · rintro (⟨h224, h225⟩ | hflag)
    · unfold framework_keyhandler_handlekey
      split_ifs
      · rfl
      · simp [framework_keyhandler_vt, framework_keyhandler_scan, Ne.symm h225,
          Ne.symm h224]
    · unfold framework_keyhandler_handlekey
      rw [if_pos hflag]

/-- Key codes 225, 224 and 223 on the sample state, and 225 on a handler
without the `INIT` flag. -/
theorem keyhandler_handlekey_matches_witness :
    (∃ rc g1, framework_keyhandler_handlekey acpiio (sample_query 1) 111
        framework_keyhandler_init 225 sample_globals = some (rc, g1) ∧
      (rc = 0 ∨ rc = -1) ∧ (rc = 0 ↔ ((225 : Nat) = 224 ∨ (225 : Nat) = 225))) ∧
    framework_keyhandler_handlekey acpiio (sample_query 1) 111 framework_keyhandler_init 223
      sample_globals = some (-1, sample_globals) ∧
    framework_keyhandler_handlekey acpiio (sample_query 1) 111 ⟨0⟩ 225
      sample_globals = some (-1, sample_globals) :=
  ⟨(keyhandler_handlekey_matches acpiio (sample_query 1) 111 framework_keyhandler_init 225
      sample_globals).1 (by decide) rfl,
    (keyhandler_handlekey_matches acpiio (sample_query 1) 111 framework_keyhandler_init 223
      sample_globals).2 (Or.inl ⟨by decide, by decide⟩),
    by decide⟩

/-! ## Power mode classification -/

/-- C8: called with the power mutex free, `framework_pwr_getpowermode` returns
to its caller for every queried state code (and every error code of the
query): `PWR` for `0` and `ACPI_BATT_STAT_CHARGING`, `BAT` for
`ACPI_BATT_STAT_DISCHARG` and `ACPI_BATT_STAT_CRITICAL`, and `IVL` for every
other code. -/
theorem pwr_getpowermode_classifies (K : acpi_batt_stat) (hK : K.distinct) (q : battquery)
    (t : Int) (fp : framework_power_t) (hfree : fp.lock_held = false) :
    ∃ m fp1, framework_pwr_getpowermode K q t fp = some (m, fp1) ∧
      ((q.battinfo.state = 0 ∨ q.battinfo.state = K.CHARGING) → m = .PWR) ∧
      ((q.battinfo.state = K.DISCHARG ∨ q.battinfo.state = K.CRITICAL) → m = .BAT) ∧
      ((q.battinfo.state ≠ 0 ∧ q.battinfo.state ≠ K.CHARGING ∧
          q.battinfo.state ≠ K.DISCHARG ∧ q.battinfo.state ≠ K.CRITICAL) → m = .IVL) :=
  pwr_getpowermode_of_state K hK q t fp hfree

/-- Scenario: the classifier with the flag values of `acpiio.h` and the state
code `ACPI_BATT_STAT_DISCHARG | ACPI_BATT_STAT_CHARGING`. -/
theorem pwr_getpowermode_classifies_witness :
    acpiio.distinct ∧ sample_power.lock_held = false ∧
    ∃ m fp1, framework_pwr_getpowermode acpiio ⟨0, ⟨80, 90, 3, 5⟩⟩ 7 sample_power = some (m, fp1) ∧
      (((3 : Int) = 0 ∨ (3 : Int) = acpiio.CHARGING) → m = .PWR) ∧
      (((3 : Int) = acpiio.DISCHARG ∨ (3 : Int) = acpiio.CRITICAL) → m = .BAT) ∧
      (((3 : Int) ≠ 0 ∧ (3 : Int) ≠ acpiio.CHARGING ∧
          (3 : Int) ≠ acpiio.DISCHARG ∧ (3 : Int) ≠ acpiio.CRITICAL) → m = .IVL) :=
  ⟨by decide, rfl, pwr_getpowermode_classifies acpiio (by decide) ⟨0, ⟨80, 90, 3, 5⟩⟩ 7
    sample_power rfl⟩

/-- C9: a battery query that fails with `ENXIO` and leaves the zeroed buffer
untouched is classified as `PWR`, not as `IVL`. -/
theorem pwr_getpowermode_failed_query_is_pwr :
    (framework_pwr_getpowermode acpiio failed_query 7 sample_power).map Prod.fst
      = some framework_power_type_t.PWR := by
  decide

/-- C10: for every stored `power_state` (with the power mutex free), the mode
`framework_pwr_getpowermode` returns and the timeout
`framework_callout_getcurrenttimeout` returns are those of the freshly queried
state code: `PWR` and the power profile's `timeout_secs` for `0` and
`ACPI_BATT_STAT_CHARGING`, `BAT` and the battery profile's `timeout_secs` for
`ACPI_BATT_STAT_DISCHARG` and `ACPI_BATT_STAT_CRITICAL`. -/
theorem callout_getcurrenttimeout_fresh (K : acpi_batt_stat) (hK : K.distinct) (q : battquery)
    (t : Int) (g : framework_globals) (hfree : g.framework_power.lock_held = false) :
    ((q.battinfo.state = 0 ∨ q.battinfo.state = K.CHARGING) →
      (framework_pwr_getpowermode K q t g.framework_power).map Prod.fst = some .PWR ∧
      (framework_callout_getcurrenttimeout K q t g).map Prod.fst
        = some g.power_config.power.timeout_secs) ∧
    ((q.battinfo.state = K.DISCHARG ∨ q.battinfo.state = K.CRITICAL) →
      (framework_pwr_getpowermode K q t g.framework_power).map Prod.fst = some .BAT ∧
      (framework_callout_getcurrenttimeout K q t g).map Prod.fst
        = some g.power_config.battery.timeout_secs) := by
  obtain ⟨m, fp1, h, hp, hb, -⟩ := pwr_getpowermode_of_state K hK q t g.framework_power hfree
  constructor
  · intro hc
    have hm := hp hc
    subst hm
    simp [framework_callout_getcurrenttimeout, h, framework_screen_gettimeout_secs,
      framework_screen_power_config_t.deref, framework_callout_screen_config]
  · intro hc
    have hm := hb hc
    subst hm
    simp [framework_callout_getcurrenttimeout, h, framework_screen_gettimeout_secs,
      framework_screen_power_config_t.deref, framework_callout_screen_config]

/-- Scenario: the stored state says `PWR`, the fresh query says
discharging; the mode is `BAT` and the timeout is the battery profile's. -/
theorem callout_getcurrenttimeout_fresh_witness :
    acpiio.distinct ∧ sample_globals.framework_power.lock_held = false ∧
    sample_globals.framework_power.power_state = .PWR ∧
    (((sample_query 1).battinfo.state = acpiio.DISCHARG ∨
        (sample_query 1).battinfo.state = acpiio.CRITICAL) →
      (framework_pwr_getpowermode acpiio (sample_query 1) 111
        sample_globals.framework_power).map Prod.fst = some .BAT ∧
      (framework_callout_getcurrenttimeout acpiio (sample_query 1) 111 sample_globals).map
        Prod.fst = some sample_globals.power_config.battery.timeout_secs) :=
  ⟨by decide, rfl, rfl,
    (callout_getcurrenttimeout_fresh acpiio (by decide) (sample_query 1) 111 sample_globals
      rfl).2⟩

/-! ## The supervisor after an unclassifiable power mode -/

/-- With the power mutex held, `framework_pwr_getpowermode` does not return. -/
theorem pwr_getpowermode_of_held (K : acpi_batt_stat) (q : battquery) (t : Int)
    (fp : framework_power_t) (hheld : fp.lock_held = true) :
    framework_pwr_getpowermode K q t fp = none := by
  simp [framework_pwr_getpowermode, framework_pwr_loadbattinfo, hheld]

/-- A call of `framework_pwr_getpowermode` that answers `IVL` returns with the
power mutex held. -/
theorem pwr_getpowermode_ivl_held (K : acpi_batt_stat) (q : battquery) (t : Int)
    (fp fp1 : framework_power_t)
    (h : framework_pwr_getpowermode K q t fp = some (.IVL, fp1)) :
    fp1.lock_held = true := by
  by_cases hl : fp.lock_held = true
  · rw [pwr_getpowermode_of_held K q t fp hl] at h
    exact absurd h (by simp)
  · rw [pwr_getpowermode_of_free K q t fp (by simpa using hl)] at h
    split_ifs at h <;> simp only [Option.some.injEq, Prod.mk.injEq] at h <;>
      obtain ⟨hm1, rfl⟩ := h
    · exact absurd hm1 (by decide)
    · exact absurd hm1 (by decide)
    · exact absurd hm1 (by decide)
    · rfl

/-- With the power mutex held, a call of `framework_callout_inputintr` either
is dropped, leaving everything as it was, or does not return. -/
theorem callout_inputintr_of_held (K : acpi_batt_stat) (q : battquery) (t : Int)
    (co : framework_callout_t) (g : framework_globals)
    (hheld : g.framework_power.lock_held = true) :
    framework_callout_inputintr K q t co g
      = if g.framework_callout_drop ≠ 0 then some (co, g) else none := by
  unfold framework_callout_inputintr framework_callout_getbrightnessfor
  rw [pwr_getpowermode_of_held K q t _ hheld]

/-- A supervisor that is not active runs no further iteration. -/
theorem callout_loop_of_inactive (K : acpi_batt_stat) (envs : List cycle_env)
    (co : framework_callout_t) (g : framework_globals) (hact : co.active = 0) :
    framework_callout_loop K envs co g = some (co, g) := by
  cases envs with
  | nil => rfl
  | cons env rest => simp [framework_callout_loop, hact]

/-- The power block as it is when `framework_pwr_loadbattinfo` waits is the
one the call was entered with, and the call waits exactly when the embedding
above gives `none`. -/
theorem pwr_loadbattinfo_end_eq (K : acpi_batt_stat) (q : battquery) (t : Int)
    (fp : framework_power_t) :
    framework_pwr_loadbattinfo_end K q t fp
      = match framework_pwr_loadbattinfo K q t fp with
        | some r => .returns r
        | none => .waits fp := by
  unfold framework_pwr_loadbattinfo_end framework_pwr_loadbattinfo
  simp only
  split_ifs <;> rfl

/-- Function `framework_pwr_getpowermode` waits exactly when the embedding above
gives `none`, with the power block it was entered with. -/
theorem pwr_getpowermode_end_eq (K : acpi_batt_stat) (q : battquery) (t : Int)
    (fp : framework_power_t) :
    framework_pwr_getpowermode_end K q t fp
      = match framework_pwr_getpowermode K q t fp with
        | some r => .returns r
        | none => .waits fp := by
  by_cases hl : fp.lock_held = true
  · simp [framework_pwr_getpowermode_end, framework_pwr_loadbattinfo_end,
      framework_pwr_getpowermode, framework_pwr_loadbattinfo, hl]
  · have hl1 : fp.lock_held = false := by simpa using hl
    unfold framework_pwr_getpowermode_end framework_pwr_getpowermode
    rw [pwr_loadbattinfo_end_eq]
    unfold framework_pwr_loadbattinfo
    simp only [hl1, Bool.false_eq_true, if_false]
    split_ifs <;> simp_all [EDOM]

/-- Function `framework_callout_getbrightnessfor` waits exactly when the
embedding above gives `none`, with the module data it was entered with. -/
theorem callout_getbrightnessfor_end_eq (K : acpi_batt_stat) (q : battquery) (t : Int)
    (co : framework_callout_t) (g : framework_globals) :
    framework_callout_getbrightnessfor_end K q t co g
      = match framework_callout_getbrightnessfor K q t co g with
        | some r => .returns r
        | none => .waits g := by
  unfold framework_callout_getbrightnessfor_end framework_callout_getbrightnessfor
  rw [pwr_getpowermode_end_eq]
  cases framework_pwr_getpowermode K q t g.framework_power with
  | none => rfl
  | some r =>
    obtain ⟨mode, fp1⟩ := r
    simp only
    cases framework_callout_screen_config mode with
    | none => rfl
    | some p =>
      simp only
      cases co.current_level <;> rfl

/-- Function `framework_callout_inputintr` waits exactly when the embedding
above gives `none`; the data are then as the call found them, except that
`current_level` is `HIGH`. -/
theorem callout_inputintr_end_eq (K : acpi_batt_stat) (q : battquery) (t : Int)
    (co : framework_callout_t) (g : framework_globals) :
    framework_callout_inputintr_end K q t co g
      = match framework_callout_inputintr K q t co g with
        | some r => .returns r
        | none => .waits ({ co with current_level := .HIGH }, g) := by
  unfold framework_callout_inputintr_end framework_callout_inputintr
  split_ifs with hd
  · rfl
  · simp only
    rw [callout_getbrightnessfor_end_eq]
    cases framework_callout_getbrightnessfor K q t { co with current_level := .HIGH } g with
    | none => rfl
    | some r => rfl

/-- With the power mutex held, a call of `framework_callout_inputintr` is
dropped or waits, and either way the module data are as it found them. -/
theorem callout_inputintr_end_of_held (K : acpi_batt_stat) (q : battquery) (t : Int)
    (co : framework_callout_t) (g : framework_globals)
    (hheld : g.framework_power.lock_held = true) :
    framework_callout_inputintr_end K q t co g
      = if g.framework_callout_drop ≠ 0 then .returns (co, g)
        else .waits ({ co with current_level := .HIGH }, g) := by
  rw [callout_inputintr_end_eq, callout_inputintr_of_held K q t co g hheld]
  split_ifs <;> rfl

/-- With the power mutex held, input events change neither the module data nor
`active`. -/
theorem callout_inputs_of_held (K : acpi_batt_stat) (events : List (battquery × Int))
    (co : framework_callout_t) (g : framework_globals)
    (hheld : g.framework_power.lock_held = true) :
    (framework_callout_inputs K events co g).2 = g ∧
    (framework_callout_inputs K events co g).1.active = co.active := by
  induction events generalizing co with
  | nil => exact ⟨rfl, rfl⟩
  | cons e rest ih =>
    unfold framework_callout_inputs framework_callout_inputintr_after
    rw [callout_inputintr_end_of_held K e.1 e.2 co g hheld]
    split_ifs
    · exact ih co
    · exact ih { co with current_level := .HIGH }

/-- C11: when the classification at the start of an iteration of
`framework_callout_thread` is `IVL`, the iteration ends the loop: `active`
is 0, there is no `msleep`, the level is kept and the backlight, its request
list included, is untouched. From then on, after any number of input events,
the backlight is still as it was before the iteration (no call of
`framework_bl_setbrightness`, no `BACKLIGHT_UPDATE_STATUS`), `active` is
still 0 and the loop runs no iteration. Each callback that is not dropped sets
`current_level` to `HIGH` and then waits in `FRAMEWORK_POWER_LOCK()`, before it
reaches `framework_bl_setbrightness`: the power mutex is still held from the
failed classification. -/
theorem callout_thread_stops_on_ivl (K : acpi_batt_stat) (env : cycle_env)
    (co : framework_callout_t) (g : framework_globals) (fp1 : framework_power_t)
    (hmode : framework_pwr_getpowermode K env.q_timeout env.time_uptime g.framework_power
      = some (.IVL, fp1)) :
    ∃ r, framework_callout_thread_body K env co g = some r ∧
      r.co.active = 0 ∧ r.sleep = none ∧ r.co.current_level = co.current_level ∧
      r.g.framework_backlight = g.framework_backlight ∧
      (∀ events : List (battquery × Int),
        (framework_callout_inputs K events r.co r.g).2.framework_backlight
          = g.framework_backlight ∧
        (framework_callout_inputs K events r.co r.g).1.active = 0 ∧
        (∀ envs, framework_callout_loop K envs (framework_callout_inputs K events r.co r.g).1
            (framework_callout_inputs K events r.co r.g).2
          = some (framework_callout_inputs K events r.co r.g)) ∧
        (∀ q t,
          framework_callout_inputintr_end K q t (framework_callout_inputs K events r.co r.g).1
              (framework_callout_inputs K events r.co r.g).2
            = if r.g.framework_callout_drop ≠ 0 then
                .returns (framework_callout_inputs K events r.co r.g)
              else
                .waits ({ (framework_callout_inputs K events r.co r.g).1 with
                            current_level := .HIGH }, r.g))) := by
  have hheld := pwr_getpowermode_ivl_held K _ _ _ fp1 hmode
  refine ⟨{ co := { co with active := 0 }, g := { g with framework_power := fp1 },
            sleep := none }, ?_, rfl, rfl, rfl, rfl, ?_⟩
  · unfold framework_callout_thread_body
    rw [callout_getcurrenttimeout_of_mode K _ _ g .IVL fp1 hmode]
    simp [framework_callout_screen_config]
  · intro events
    obtain ⟨hg, hact⟩ := callout_inputs_of_held K events { co with active := 0 }
      { g with framework_power := fp1 } hheld
    refine ⟨?_, hact, ?_, ?_⟩
    · rw [hg]
    · intro envs
      exact callout_loop_of_inactive K envs _ _ hact
    · intro q t
      generalize framework_callout_inputs K events { co with active := 0 }
        { g with framework_power := fp1 } = S at hg hact ⊢
      obtain ⟨c, g2⟩ := S
      simp only at hg
      subst hg
      exact callout_inputintr_end_of_held K q t c _ hheld

/-- Scenario: the first query of an iteration reports the state code 3
(charging and discharging at once); the loop stops, and two input events later
the backlight has received no request: the callback of each event waits for
the power mutex. -/
theorem callout_thread_stops_on_ivl_witness :
    framework_pwr_getpowermode acpiio (sample_query 3) 111 sample_globals.framework_power
      = some (.IVL, { sample_power with battinfo := ⟨80, 90, 3, 5⟩, lock_held := true }) ∧
    ∃ r, framework_callout_thread_body acpiio { sample_env with q_timeout := sample_query 3 }
        sample_callout sample_globals = some r ∧
      r.co.active = 0 ∧ r.g.framework_backlight = sample_globals.framework_backlight ∧
      (framework_callout_inputs acpiio [(sample_query 1, 120), (sample_query 2, 125)]
        r.co r.g).2.framework_backlight = sample_globals.framework_backlight ∧
      (framework_callout_inputs acpiio [(sample_query 1, 120), (sample_query 2, 125)]
        r.co r.g).1.active = 0 := by
  obtain ⟨r, hr, hact, -, -, hbl, hev⟩ :=
    callout_thread_stops_on_ivl acpiio { sample_env with q_timeout := sample_query 3 }
      sample_callout sample_globals
      { sample_power with battinfo := ⟨80, 90, 3, 5⟩, lock_held := true } (by decide)
  exact ⟨by decide, r, hr, hact, hbl,
    (hev [(sample_query 1, 120), (sample_query 2, 125)]).1,
    (hev [(sample_query 1, 120), (sample_query 2, 125)]).2.1⟩

/-- The silence after an `IVL` stop rests on the held mutex alone: in both
stopped states the drop flag is clear and the callback registered, and after a
stop on a zero timeout, where the mutex is free, the callback of the next
input event writes 40 to a device that stood at 3. -/
theorem callout_inputintr_after_stop :
    (framework_callout_thread acpiio [{ sample_env with q_timeout := sample_query 3 }]
      sample_callout sample_globals).map
        (fun r => (r.1.active, r.2.framework_power.lock_held, r.2.framework_callout_drop,
          r.2.framework_evdev.cbfunc)) = some (0, true, 0, true) ∧
    (framework_callout_thread acpiio [sample_env] sample_callout
      { sample_globals with power_config :=
        (framework_sysctl_screen_config_timeout_secs .battery ⟨some 0, 0⟩
          sample_globals.power_config).2 }).map
        (fun r => (r.1.active, r.2.framework_power.lock_held, r.2.framework_callout_drop,
          r.2.framework_evdev.cbfunc)) = some (0, false, 0, true) ∧
    ((framework_callout_thread acpiio [sample_env] sample_callout
      { sample_globals with
        framework_backlight := { sample_globals.framework_backlight with
          dev := { sample_globals.framework_backlight.dev with level := 3 } },
        power_config :=
        (framework_sysctl_screen_config_timeout_secs .battery ⟨some 0, 0⟩
          sample_globals.power_config).2 }).bind
        (fun r => framework_callout_inputintr acpiio (sample_query 1) 120 r.1 r.2)).map
        (fun r => r.2.framework_backlight.dev.updates) = some [40] := by
  decide

/-! ## The wait between iterations -/

/-- With the power mutex free, `framework_pwr_getpowermode` returns. -/
theorem pwr_getpowermode_returns (K : acpi_batt_stat) (q : battquery) (t : Int)
    (fp : framework_power_t) (hfree : fp.lock_held = false) :
    ∃ m fp1, framework_pwr_getpowermode K q t fp = some (m, fp1) := by
  rw [pwr_getpowermode_of_free K q t fp hfree]
  split_ifs <;> exact ⟨_, _, rfl⟩

/-- An iteration whose first classification selects a profile with a non-zero
timeout reaches its `msleep`; the seconds and ticks it sleeps. -/
theorem callout_thread_body_sleep (K : acpi_batt_stat) (env : cycle_env)
    (co : framework_callout_t) (g : framework_globals)
    (m : framework_power_type_t) (fp1 : framework_power_t) (p : screen_config_ptr)
    (hmode : framework_pwr_getpowermode K env.q_timeout env.time_uptime g.framework_power
      = some (m, fp1))
    (hp : framework_callout_screen_config m = some p)
    (hpos : 0 < (g.power_config.deref p).timeout_secs) :
    ∃ r, framework_callout_thread_body K env co g = some r ∧
      r.co.active = co.active ∧
      r.sleep = some
        ((if framework_callout_elapsed g.framework_evdev.last_input env.time_uptime
              < (g.power_config.deref p).timeout_secs
          then (g.power_config.deref p).timeout_secs
            - framework_callout_elapsed g.framework_evdev.last_input env.time_uptime
          else (g.power_config.deref p).timeout_secs),
         framework_callout_sec2tick env.tvtohz
          (if framework_callout_elapsed g.framework_evdev.last_input env.time_uptime
              < (g.power_config.deref p).timeout_secs
          then (g.power_config.deref p).timeout_secs
            - framework_callout_elapsed g.framework_evdev.last_input env.time_uptime
          else (g.power_config.deref p).timeout_secs)) := by
  have hfree : fp1.lock_held = false :=
    pwr_getpowermode_valid_unlocked K _ _ _ fp1 m hmode (callout_screen_config_some m p hp)
  obtain ⟨m2, fp2, hres⟩ := pwr_getpowermode_returns K env.q_brightness env.time_uptime fp1 hfree
  unfold framework_callout_thread_body
  rw [callout_getcurrenttimeout_of_mode K _ _ g m fp1 hmode]
  simp only [hp]
  rw [if_neg (by omega)]
  simp only [framework_evdev_getlastinput]
  rw [callout_getbrightnessfor_of_mode K _ _ _ _ m2 fp2 hres]
  refine ⟨_, rfl, ?_, rfl⟩
  split_ifs <;> rfl

/-- Counterexample to a wait of the full timeout before the deadline: 5 s
after the last input with a timeout of 10 s the loop sleeps 5 s, not 10 s;
and 11 s after the last input it sleeps 10 s. -/
theorem callout_next_wait_not_as_stated :
    framework_callout_elapsed sample_globals.framework_evdev.last_input 105 = 5 ∧
    framework_callout_elapsed sample_globals.framework_evdev.last_input 111 = 11 ∧
    (framework_callout_getcurrenttimeout acpiio (sample_query 1) 105 sample_globals).map
      Prod.fst = some 10 ∧
    (framework_callout_thread_body acpiio { sample_env with time_uptime := 105 } sample_callout
      sample_globals).map (fun r => r.sleep.map Prod.fst) = some (some 5) ∧
    (framework_callout_thread_body acpiio { sample_env with time_uptime := 105 } sample_callout
      sample_globals).map (fun r => r.sleep.map Prod.fst)
      ≠ some (some (if 5 < 10 then 10 else 10 - 5)) ∧
    (framework_callout_thread_body acpiio sample_env sample_callout
      sample_globals).map (fun r => r.sleep.map Prod.fst) = some (some 10) := by
  decide

/-- C12, amended: when the iteration's classification selects a profile with
`timeout_secs = t > 0` and the elapsed idle time is `e`, the iteration reaches
its `msleep` and the number of seconds it converts to ticks for it is `t - e`
if `e < t`, and `t` otherwise. -/
theorem callout_next_wait (K : acpi_batt_stat) (env : cycle_env)
    (co : framework_callout_t) (g : framework_globals)
    (m : framework_power_type_t) (fp1 : framework_power_t) (p : screen_config_ptr)
    (hmode : framework_pwr_getpowermode K env.q_timeout env.time_uptime g.framework_power
      = some (m, fp1))
    (hp : framework_callout_screen_config m = some p)
    (hpos : 0 < (g.power_config.deref p).timeout_secs) :
    ∃ r next_seconds, framework_callout_thread_body K env co g = some r ∧
      r.sleep = some (next_seconds, framework_callout_sec2tick env.tvtohz next_seconds) ∧
      (framework_callout_elapsed g.framework_evdev.last_input env.time_uptime
          < (g.power_config.deref p).timeout_secs →
        next_seconds = (g.power_config.deref p).timeout_secs
          - framework_callout_elapsed g.framework_evdev.last_input env.time_uptime) ∧
      ((g.power_config.deref p).timeout_secs
          ≤ framework_callout_elapsed g.framework_evdev.last_input env.time_uptime →
        next_seconds = (g.power_config.deref p).timeout_secs) := by
  obtain ⟨r, hr, -, hs⟩ := callout_thread_body_sleep K env co g m fp1 p hmode hp hpos
  refine ⟨r, _, hr, hs, ?_, ?_⟩
  · intro h; rw [if_pos h]
  · intro h; rw [if_neg (by omega)]

/-- Scenario: on battery with timeout 10, 5 s after the last input the loop
sleeps 5 s (5000 ticks). -/
theorem callout_next_wait_witness :
    framework_pwr_getpowermode acpiio (sample_query 1) 105 sample_globals.framework_power
      = some (.BAT, ⟨.BAT, ⟨80, 90, 1, 5⟩, false, 105⟩) ∧
    framework_callout_screen_config .BAT = some .battery ∧
    0 < (sample_globals.power_config.deref .battery).timeout_secs ∧
    ∃ r next_seconds,
      framework_callout_thread_body acpiio { sample_env with time_uptime := 105 } sample_callout
        sample_globals = some r ∧
      r.sleep = some (next_seconds, framework_callout_sec2tick (fun s => 1000 * s) next_seconds) ∧
      (framework_callout_elapsed sample_globals.framework_evdev.last_input 105
          < (sample_globals.power_config.deref .battery).timeout_secs →
        next_seconds = (sample_globals.power_config.deref .battery).timeout_secs
          - framework_callout_elapsed sample_globals.framework_evdev.last_input 105) ∧
      ((sample_globals.power_config.deref .battery).timeout_secs
          ≤ framework_callout_elapsed sample_globals.framework_evdev.last_input 105 →
        next_seconds = (sample_globals.power_config.deref .battery).timeout_secs) :=
  ⟨by decide, rfl, by decide,
    callout_next_wait acpiio { sample_env with time_uptime := 105 } sample_callout
      sample_globals .BAT ⟨.BAT, ⟨80, 90, 1, 5⟩, false, 105⟩ .battery (by decide) rfl
      (by decide)⟩

/-! ## Elapsed time -/

/-- C13: for every pair of timestamps the elapsed time the loop of
`framework_callout_thread` uses is `now - min(last_input, now)` converted to
`uint32_t`; the difference converted is never negative; the elapsed time is 0
whenever `last_input >= now`, and it is the exact difference `now - last_input`
whenever that lies in `[0, 2^32)`. -/
theorem callout_elapsed_clamped (last_input now : Int) :
    framework_callout_elapsed last_input now = u32 (now - min last_input now) ∧
    0 ≤ now - min last_input now ∧
    (last_input ≥ now → framework_callout_elapsed last_input now = 0) ∧
    (last_input ≤ now → now - last_input < 4294967296 →
      (framework_callout_elapsed last_input now : Int) = now - last_input) ∧
    framework_callout_elapsed last_input now < 4294967296 := by
  unfold framework_callout_elapsed u32
  simp only
  refine ⟨?_, ?_, ?_, ?_, ?_⟩
  · split_ifs with h
    · rw [min_eq_right (le_of_lt h)]
    · rw [min_eq_left (not_lt.mp h)]
  · omega
  · intro h
    split_ifs <;> omega
  · intro h1 h2
    split_ifs <;> omega
  · split_ifs <;> omega

/-! ## The backlight wrapper -/

/-- The read-back `framework_bl_getbrightness` never calls
`BACKLIGHT_UPDATE_STATUS` and leaves `sc` alone; it refreshes `props` when
`BACKLIGHT_GET_STATUS` succeeds. -/
theorem bl_getbrightness_frame (bl : framework_backlight_t) :
    (framework_bl_getbrightness bl).2.dev = bl.dev ∧
    (framework_bl_getbrightness bl).2.sc = bl.sc ∧
    (framework_bl_getbrightness bl).2.requested = bl.requested ∧
    (framework_bl_getbrightness bl).2.props_brightness
      = (if bl.sc.isSome ∧ bl.dev.get_error = 0 then bl.dev.level else bl.props_brightness) := by
  obtain ⟨sc0, props, dev, req⟩ := bl
  cases sc0 with
  | none => simp [framework_bl_getbrightness]
  | some sc =>
    by_cases hg : dev.get_error = 0
    · simp [framework_bl_getbrightness, framework_bl_loadprops, hg]
    · have hg1 : ¬ (0 = dev.get_error) := fun h => hg h.symm
      simp [framework_bl_getbrightness, framework_bl_loadprops, hg, hg1]

/-- Counterexample to `props` staying as it was when the level read back equals
the request, and to the result 0 for every such request: with the device at
40 and `props` holding 7, `framework_bl_setbrightness(40)` returns 0 and
writes nothing to the device, yet `props` becomes 40; and with `sc` `NULL` the
read-back gives 0 but `framework_bl_setbrightness(0)` returns `ENXIO`, and
`framework_bl_setbrightness(5)` writes nothing. -/
theorem bl_setbrightness_refreshes_props :
    (framework_bl_getbrightness sample_backlight_stale).1 = 40 ∧
    sample_backlight_stale.props_brightness = 7 ∧
    (framework_bl_setbrightness 40 sample_backlight_stale).1 = 0 ∧
    (framework_bl_setbrightness 40 sample_backlight_stale).2.dev.updates = [] ∧
    (framework_bl_setbrightness 40 sample_backlight_stale).2.props_brightness = 40 ∧
    (framework_bl_setbrightness 40 sample_backlight_stale).2.props_brightness
      ≠ sample_backlight_stale.props_brightness ∧
    (framework_bl_getbrightness sample_backlight_null).1 = 0 ∧
    (framework_bl_setbrightness 0 sample_backlight_null).1 = ENXIO ∧
    (framework_bl_setbrightness 0 sample_backlight_null).1 ≠ 0 ∧
    (framework_bl_getbrightness sample_backlight_null).1 ≠ 5 ∧
    (framework_bl_setbrightness 5 sample_backlight_null).2.dev.updates = [] := by
  decide

/-- C14, amended: for every brightness value `b`. The brightness read back by
`framework_bl_getbrightness` is the device's level when the backlight is
initialised (`sc` not `NULL`) and `BACKLIGHT_GET_STATUS` succeeds, and 0
otherwise; the read-back writes nothing to the device. With `sc` `NULL`,
`framework_bl_setbrightness(b)` returns `ENXIO` and changes nothing. With the
backlight initialised: when the brightness read back equals `b`, the call
returns 0 and performs no actuator write (no `BACKLIGHT_UPDATE_STATUS` call,
the device and `cached_brightness` as before), and `props` is as the read-back
left it: `b`, the device's level, when `BACKLIGHT_GET_STATUS` succeeded,
whatever it held before, and unchanged when it failed; when the brightness
read back differs from `b`, exactly one `BACKLIGHT_UPDATE_STATUS` call is
made, with `props.brightness == b`, and its return code is returned. -/
theorem bl_setbrightness_writes_only_on_change (b : Nat) (bl : framework_backlight_t) :
    (framework_bl_getbrightness bl).1
      = (if bl.sc ≠ none ∧ bl.dev.get_error = 0 then bl.dev.level else 0) ∧
    (framework_bl_getbrightness bl).2.dev = bl.dev ∧
    (bl.sc = none →
      (framework_bl_setbrightness b bl).1 = ENXIO ∧
      (framework_bl_setbrightness b bl).2.dev = bl.dev ∧
      (framework_bl_setbrightness b bl).2.sc = bl.sc ∧
      (framework_bl_setbrightness b bl).2.props_brightness = bl.props_brightness) ∧
    (bl.sc ≠ none → (framework_bl_getbrightness bl).1 = b →
      (framework_bl_setbrightness b bl).1 = 0 ∧
      (framework_bl_setbrightness b bl).2.dev = bl.dev ∧
      (framework_bl_setbrightness b bl).2.sc = bl.sc ∧
      (framework_bl_setbrightness b bl).2.props_brightness
        = (if bl.dev.get_error = 0 then b else bl.props_brightness)) ∧
    (bl.sc ≠ none → (framework_bl_getbrightness bl).1 ≠ b →
      (framework_bl_setbrightness b bl).1 = bl.dev.update_error ∧
      (framework_bl_setbrightness b bl).2.dev.updates = bl.dev.updates ++ [b] ∧
      (framework_bl_setbrightness b bl).2.props_brightness = b ∧
      (bl.dev.update_error = 0 →
        (framework_bl_setbrightness b bl).2.sc = some { cached_brightness := b } ∧
        (framework_bl_setbrightness b bl).2.dev.level = b) ∧
      (bl.dev.update_error ≠ 0 →
        (framework_bl_setbrightness b bl).2.sc = bl.sc ∧
        (framework_bl_setbrightness b bl).2.dev.level = bl.dev.level)) := by
  obtain ⟨sc0, props, dev, req⟩ := bl
  cases sc0 with
  | none =>
    refine ⟨by simp [framework_bl_getbrightness], by simp [framework_bl_getbrightness],
      fun _ => ⟨rfl, rfl, rfl, rfl⟩, fun h => absurd rfl h, fun h => absurd rfl h⟩
  | some sc =>
    by_cases hg : dev.get_error = 0
    · refine ⟨by simp [framework_bl_getbrightness, framework_bl_loadprops, hg],
        by simp [framework_bl_getbrightness, framework_bl_loadprops, hg],
        fun h => absurd h (by simp), ?_, ?_⟩
      · intro _ heq
        simp only [framework_bl_getbrightness, framework_bl_loadprops, hg, if_true] at heq
        subst heq
        simp [framework_bl_setbrightness, framework_bl_getbrightness, framework_bl_loadprops,
          hg]
      · intro _ hne
        simp only [framework_bl_getbrightness, framework_bl_loadprops, hg, if_true] at hne
        by_cases hu : dev.update_error = 0
        · simp [framework_bl_setbrightness, framework_bl_getbrightness,
            framework_bl_loadprops, hg, hu, Ne.symm hne]
        · have hu1 : ¬ (0 = dev.update_error) := fun h => hu h.symm
          simp [framework_bl_setbrightness, framework_bl_getbrightness,
            framework_bl_loadprops, hg, hu, hu1, Ne.symm hne]
    · have hg1 : ¬ (0 = dev.get_error) := fun h => hg h.symm
      refine ⟨by simp [framework_bl_getbrightness, framework_bl_loadprops, hg, hg1],
        by simp [framework_bl_getbrightness, framework_bl_loadprops, hg, hg1],
        fun h => absurd h (by simp), ?_, ?_⟩
      · intro _ heq
        simp only [framework_bl_getbrightness, framework_bl_loadprops, hg, hg1,
          if_false] at heq
        subst heq
        simp [framework_bl_setbrightness, framework_bl_getbrightness, framework_bl_loadprops,
          hg, hg1]
      · intro _ hne
        simp only [framework_bl_getbrightness, framework_bl_loadprops, hg, hg1,
          if_false] at hne
        by_cases hu : dev.update_error = 0
        · simp [framework_bl_setbrightness, framework_bl_getbrightness,
            framework_bl_loadprops, hg, hg1, hu, Ne.symm hne]
        · have hu1 : ¬ (0 = dev.update_error) := fun h => hu h.symm
          simp [framework_bl_setbrightness, framework_bl_getbrightness,
            framework_bl_loadprops, hg, hg1, hu, hu1, Ne.symm hne]

/-- Scenario: the backlight is at 40; the read-back gives 40, a request for 40
writes nothing and leaves `props` at 40, a request for 3 writes 3 once. -/
theorem bl_setbrightness_writes_only_on_change_witness :
    sample_globals.framework_backlight.sc ≠ none ∧
    (framework_bl_getbrightness sample_globals.framework_backlight).1 = 40 ∧
    (framework_bl_setbrightness 40 sample_globals.framework_backlight).1 = 0 ∧
    (framework_bl_setbrightness 40 sample_globals.framework_backlight).2.dev
      = sample_globals.framework_backlight.dev ∧
    (framework_bl_setbrightness 40 sample_globals.framework_backlight).2.props_brightness
      = (if sample_globals.framework_backlight.dev.get_error = 0 then 40
          else sample_globals.framework_backlight.props_brightness) ∧
    (framework_bl_setbrightness 3 sample_globals.framework_backlight).2.dev.updates
      = sample_globals.framework_backlight.dev.updates ++ [3] :=
  ⟨by decide, by decide,
    ((bl_setbrightness_writes_only_on_change 40 sample_globals.framework_backlight).2.2.2.1
      (by decide) (by decide)).1,
    ((bl_setbrightness_writes_only_on_change 40 sample_globals.framework_backlight).2.2.2.1
      (by decide) (by decide)).2.1,
    ((bl_setbrightness_writes_only_on_change 40 sample_globals.framework_backlight).2.2.2.1
      (by decide) (by decide)).2.2.2,
    ((bl_setbrightness_writes_only_on_change 3 sample_globals.framework_backlight).2.2.2.2
      (by decide) (by decide)).2.1⟩

/-! ## The configuration surface -/

/-- The store after a successful write of `v` through a handler generated by
`FRAMEWORK_SYSCTL_SCREENCONF_HANDLER`. -/
theorem sysctl_screenconf_handler_write
    (get : framework_screen_power_config_t → screen_config_ptr → Nat)
    (set : framework_screen_power_config_t → screen_config_ptr → Nat →
      framework_screen_power_config_t)
    (max_value : Nat) (arg1 : screen_config_ptr) (v : Nat)
    (config : framework_screen_power_config_t) :
    FRAMEWORK_SYSCTL_SCREENCONF_HANDLER get set max_value arg1 ⟨some v, 0⟩ config
      = (0, if v = get config arg1 ∨ (0 ≠ max_value ∧ v > max_value) then config
            else set config arg1 v) := by
  unfold FRAMEWORK_SYSCTL_SCREENCONF_HANDLER sysctl_handle_32
  simp only [if_true]
  by_cases h1 : v = get config arg1
  · simp [h1]
  · by_cases h2 : 0 ≠ max_value
    · by_cases h3 : v > max_value
      · simp [h1, h2, h3]
      · simp [h1, h2, h3]
    · simp [h1, h2]

/-- A request that is a read, or whose transfer fails, changes nothing. -/
theorem sysctl_screenconf_handler_no_write
    (get : framework_screen_power_config_t → screen_config_ptr → Nat)
    (set : framework_screen_power_config_t → screen_config_ptr → Nat →
      framework_screen_power_config_t)
    (max_value : Nat) (arg1 : screen_config_ptr) (req : sysctl_req)
    (config : framework_screen_power_config_t)
    (h : req.newptr = none ∨ req.error ≠ 0) :
    (FRAMEWORK_SYSCTL_SCREENCONF_HANDLER get set max_value arg1 req config).2 = config := by
  unfold FRAMEWORK_SYSCTL_SCREENCONF_HANDLER sysctl_handle_32
  rcases h with h | h
  · simp [h]
  · cases hn : req.newptr <;> simp [h]

/-- C15: a value `v` written through the sysctl handler of `brightness_low` or
of `brightness_high` of either profile is rejected when `v > 100`, the store
staying as it was; when `v <= 100` the field written becomes `v`, and the other
fields of that profile and the other profile stay as they were. -/
theorem sysctl_brightness_write_bounded (arg1 : screen_config_ptr) (v : Nat)
    (config : framework_screen_power_config_t) :
    (v > 100 →
      framework_sysctl_screen_config_brightness_low arg1 ⟨some v, 0⟩ config = (0, config) ∧
      framework_sysctl_screen_config_brightness_high arg1 ⟨some v, 0⟩ config = (0, config)) ∧
    (v ≤ 100 →
      (framework_sysctl_screen_config_brightness_low arg1 ⟨some v, 0⟩ config).1 = 0 ∧
      ((framework_sysctl_screen_config_brightness_low arg1 ⟨some v, 0⟩ config).2.deref arg1)
        = { config.deref arg1 with brightness_low := v } ∧
      (∀ p1, p1 ≠ arg1 →
        (framework_sysctl_screen_config_brightness_low arg1 ⟨some v, 0⟩ config).2.deref p1
          = config.deref p1) ∧
      (framework_sysctl_screen_config_brightness_high arg1 ⟨some v, 0⟩ config).1 = 0 ∧
      ((framework_sysctl_screen_config_brightness_high arg1 ⟨some v, 0⟩ config).2.deref arg1)
        = { config.deref arg1 with brightness_high := v } ∧
      (∀ p1, p1 ≠ arg1 →
        (framework_sysctl_screen_config_brightness_high arg1 ⟨some v, 0⟩ config).2.deref p1
          = config.deref p1)) := by
  unfold framework_sysctl_screen_config_brightness_low
    framework_sysctl_screen_config_brightness_high
  simp only [sysctl_screenconf_handler_write]
  constructor
  · intro hv
    have h : (0 : Nat) ≠ 100 ∧ v > 100 := ⟨by decide, hv⟩
    simp [h]
  · intro hv
    have h : ¬ ((0 : Nat) ≠ 100 ∧ v > 100) := fun h => absurd h.2 (by omega)
    simp only [h, or_false]
    refine ⟨trivial, ?_, ?_, trivial, ?_, ?_⟩
    · split_ifs with he
      · cases arg1 <;>
          simp_all [framework_screen_getbrightness_low, framework_screen_power_config_t.deref]
      · cases arg1 <;> rfl
    · intro p1 hne
      split_ifs
      · rfl
      · cases arg1 <;> cases p1 <;> first | rfl | exact absurd rfl hne
    · split_ifs with he
      · cases arg1 <;>
          simp_all [framework_screen_getbrightness_high, framework_screen_power_config_t.deref]
      · cases arg1 <;> rfl
    · intro p1 hne
      split_ifs
      · rfl
      · cases arg1 <;> cases p1 <;> first | rfl | exact absurd rfl hne

/-- Scenario: writing 101 to the battery profile's `brightness_low` after
`framework_screen_init` keeps 3; writing 100 stores 100. -/
theorem sysctl_brightness_write_bounded_witness :
    framework_sysctl_screen_config_brightness_low .battery ⟨some 101, 0⟩ framework_screen_init
      = (0, framework_screen_init) ∧
    ((framework_sysctl_screen_config_brightness_low .battery ⟨some 100, 0⟩
      framework_screen_init).2.deref .battery)
      = { framework_screen_init.deref .battery with brightness_low := 100 } :=
  ⟨((sysctl_brightness_write_bounded .battery 101 framework_screen_init).1 (by decide)).1,
   ((sysctl_brightness_write_bounded .battery 100 framework_screen_init).2 (by decide)).2.1⟩

/-- Only `brightness_high` may differ after
`framework_screen_config_changebrightness`. -/
theorem screen_config_changebrightness_frame (config : framework_screen_power_config_t)
    (p p1 : screen_config_ptr) (relative : Int) :
    ((framework_screen_config_changebrightness config p relative).2.deref p1).brightness_low
      = (config.deref p1).brightness_low ∧
    ((framework_screen_config_changebrightness config p relative).2.deref p1).timeout_secs
      = (config.deref p1).timeout_secs ∧
    ((framework_screen_config_changebrightness config p relative).2.deref p1).increment_level
      = (config.deref p1).increment_level := by
  unfold framework_screen_config_changebrightness
  simp only
  split_ifs <;> cases p <;> cases p1 <;> exact ⟨rfl, rfl, rfl⟩

/-- The store after any request to a handler generated by
`FRAMEWORK_SYSCTL_SCREENCONF_HANDLER`: unchanged, or the value of a successful
write stored. -/
theorem sysctl_screenconf_handler_cases
    (get : framework_screen_power_config_t → screen_config_ptr → Nat)
    (set : framework_screen_power_config_t → screen_config_ptr → Nat →
      framework_screen_power_config_t)
    (max_value : Nat) (arg1 : screen_config_ptr) (req : sysctl_req)
    (config : framework_screen_power_config_t) :
    (FRAMEWORK_SYSCTL_SCREENCONF_HANDLER get set max_value arg1 req config).2 = config ∨
    ∃ v, req.newptr = some v ∧ ¬ (0 ≠ max_value ∧ v > max_value) ∧
      (FRAMEWORK_SYSCTL_SCREENCONF_HANDLER get set max_value arg1 req config).2
        = set config arg1 v := by
  obtain ⟨newptr, error⟩ := req
  cases newptr with
  | none => exact Or.inl (sysctl_screenconf_handler_no_write _ _ _ _ _ _ (Or.inl rfl))
  | some v =>
    by_cases he : error = 0
    · subst he
      rw [sysctl_screenconf_handler_write]
      by_cases hc : v = get config arg1 ∨ (0 ≠ max_value ∧ v > max_value)
      · left; simp [hc]
      · right
        exact ⟨v, rfl, fun h => hc (Or.inr h), by simp [hc]⟩
    · exact Or.inl (sysctl_screenconf_handler_no_write _ _ _ _ _ _ (Or.inr he))

/-- One configuration change that is not a write of 0 to `timeout_secs` keeps
both timeouts greater than zero. -/
theorem config_step_timeout_pos (config : framework_screen_power_config_t) (op : config_op)
    (hop : ∀ arg1 req, op = .sysctl_timeout_secs arg1 req → req.newptr ≠ some 0)
    (hpos : 0 < config.power.timeout_secs ∧ 0 < config.battery.timeout_secs) :
    0 < (config_step config op).power.timeout_secs ∧
    0 < (config_step config op).battery.timeout_secs := by
  cases op with
  | sysctl_brightness_low arg1 req =>
    simp only [config_step, framework_sysctl_screen_config_brightness_low]
    rcases sysctl_screenconf_handler_cases framework_screen_getbrightness_low
      framework_screen_setbrightness_low 100 arg1 req config with h | ⟨v, -, -, h⟩
    · rw [h]; exact hpos
    · rw [h]; cases arg1 <;> exact hpos
  | sysctl_brightness_high arg1 req =>
    simp only [config_step, framework_sysctl_screen_config_brightness_high]
    rcases sysctl_screenconf_handler_cases framework_screen_getbrightness_high
      framework_screen_setbrightness_high 100 arg1 req config with h | ⟨v, -, -, h⟩
    · rw [h]; exact hpos
    · rw [h]; cases arg1 <;> exact hpos
  | sysctl_timeout_secs arg1 req =>
    simp only [config_step, framework_sysctl_screen_config_timeout_secs]
    rcases sysctl_screenconf_handler_cases framework_screen_gettimeout_secs
      framework_screen_settimeout_secs 0 arg1 req config with h | ⟨v, hv, -, h⟩
    · rw [h]; exact hpos
    · have hv0 : v ≠ 0 := fun h0 => hop arg1 req rfl (by rw [hv, h0])
      rw [h]
      cases arg1
      · exact ⟨Nat.pos_of_ne_zero hv0, hpos.2⟩
      · exact ⟨hpos.1, Nat.pos_of_ne_zero hv0⟩
  | brightness_up sc =>
    simp only [config_step]
    have h1 := (screen_config_changebrightness_frame config sc .power
      (framework_screen_getincrement_level config sc : Int)).2.1
    have h2 := (screen_config_changebrightness_frame config sc .battery
      (framework_screen_getincrement_level config sc : Int)).2.1
    simp only [framework_screen_power_config_t.deref] at h1 h2
    rw [h1, h2]; exact hpos
  | brightness_down sc =>
    simp only [config_step]
    have h1 := (screen_config_changebrightness_frame config sc .power
      (-(framework_screen_getincrement_level config sc : Int))).2.1
    have h2 := (screen_config_changebrightness_frame config sc .battery
      (-(framework_screen_getincrement_level config sc : Int))).2.1
    simp only [framework_screen_power_config_t.deref] at h1 h2
    rw [h1, h2]; exact hpos

/-- A sequence of configuration changes none of which writes 0 to
`timeout_secs` keeps both timeouts greater than zero. -/
theorem config_run_timeout_pos (ops : List config_op)
    (config : framework_screen_power_config_t)
    (hops : ∀ arg1 req, config_op.sysctl_timeout_secs arg1 req ∈ ops → req.newptr ≠ some 0)
    (hpos : 0 < config.power.timeout_secs ∧ 0 < config.battery.timeout_secs) :
    0 < (config_run ops config).power.timeout_secs ∧
    0 < (config_run ops config).battery.timeout_secs := by
  induction ops generalizing config with
  | nil => exact hpos
  | cons op rest ih =>
    simp only [config_run, List.foldl_cons]
    apply ih
    · intro arg1 req hmem
      exact hops arg1 req (List.mem_cons_of_mem _ hmem)
    · apply config_step_timeout_pos config op _ hpos
      intro arg1 req heq
      exact hops arg1 req (by rw [heq]; exact List.mem_cons_self _ _)

/-- Counterexample to a zero timeout being rejected: after
`framework_screen_init`, a write of 0 to the battery profile's `timeout_secs`
through the sysctl handler returns 0 and `timeout_secs` is 0 afterwards. -/
theorem sysctl_timeout_zero_is_stored :
    framework_sysctl_screen_config_timeout_secs .battery ⟨some 0, 0⟩ framework_screen_init
      = (0, { framework_screen_init with
                battery := { framework_screen_init.battery with timeout_secs := 0 } }) ∧
    (config_run [.sysctl_timeout_secs .battery ⟨some 0, 0⟩]
      framework_screen_init).battery.timeout_secs = 0 ∧
    ¬ (0 < (config_run [.sysctl_timeout_secs .battery ⟨some 0, 0⟩]
      framework_screen_init).battery.timeout_secs) := by
  decide

/-- C16, amended: every value written to `timeout_secs` of a profile through
the sysctl handler is stored, 0 included (the handler applies no bound to
`timeout_secs`); and `timeout_secs` of both profiles is greater than zero in
every state reached from `framework_screen_init` by configuration changes
none of which writes 0 to `timeout_secs`. -/
theorem sysctl_timeout_write_unbounded (arg1 : screen_config_ptr) (v : Nat)
    (config : framework_screen_power_config_t) (ops : List config_op)
    (hops : ∀ p req, config_op.sysctl_timeout_secs p req ∈ ops → req.newptr ≠ some 0) :
    (framework_sysctl_screen_config_timeout_secs arg1 ⟨some v, 0⟩ config).1 = 0 ∧
    ((framework_sysctl_screen_config_timeout_secs arg1 ⟨some v, 0⟩ config).2.deref arg1)
      = { config.deref arg1 with timeout_secs := v } ∧
    0 < (config_run ops framework_screen_init).power.timeout_secs ∧
    0 < (config_run ops framework_screen_init).battery.timeout_secs := by
  refine ⟨?_, ?_, config_run_timeout_pos ops framework_screen_init hops
    ⟨by decide, by decide⟩⟩
  · unfold framework_sysctl_screen_config_timeout_secs
    rw [sysctl_screenconf_handler_write]
  · unfold framework_sysctl_screen_config_timeout_secs
    rw [sysctl_screenconf_handler_write]
    simp only [ne_eq, not_true_eq_false, false_and, or_false]
    split_ifs with he
    · cases arg1 <;>
        simp_all [framework_screen_gettimeout_secs, framework_screen_power_config_t.deref]
    · cases arg1 <;> rfl

/-- Scenario: writes of 100 and 1 to the timeouts and of 7 to a brightness
leave both timeouts greater than zero. -/
theorem sysctl_timeout_write_unbounded_witness :
    (∀ p req, config_op.sysctl_timeout_secs p req ∈
        [config_op.sysctl_timeout_secs .power ⟨some 100, 0⟩,
         config_op.sysctl_brightness_low .power ⟨some 7, 0⟩,
         config_op.sysctl_timeout_secs .battery ⟨some 1, 0⟩] → req.newptr ≠ some 0) ∧
    config_run [config_op.sysctl_timeout_secs .power ⟨some 100, 0⟩,
         config_op.sysctl_brightness_low .power ⟨some 7, 0⟩,
         config_op.sysctl_timeout_secs .battery ⟨some 1, 0⟩] framework_screen_init
      = { power := ⟨7, 100, 100, 10⟩, battery := ⟨3, 40, 1, 10⟩ } ∧
    0 < (config_run [config_op.sysctl_timeout_secs .power ⟨some 100, 0⟩,
         config_op.sysctl_brightness_low .power ⟨some 7, 0⟩,
         config_op.sysctl_timeout_secs .battery ⟨some 1, 0⟩]
         framework_screen_init).power.timeout_secs := by
  have hops : ∀ p req, config_op.sysctl_timeout_secs p req ∈
        [config_op.sysctl_timeout_secs .power ⟨some 100, 0⟩,
         config_op.sysctl_brightness_low .power ⟨some 7, 0⟩,
         config_op.sysctl_timeout_secs .battery ⟨some 1, 0⟩] → req.newptr ≠ some 0 := by
    intro p req hmem
    simp only [List.mem_cons, List.mem_singleton, config_op.sysctl_timeout_secs.injEq,
      List.not_mem_nil, or_false] at hmem
    rcases hmem with ⟨-, rfl⟩ | h | ⟨-, rfl⟩
    · decide
    · exact absurd h (by simp)
    · decide
  exact ⟨hops, by decide,
    (sysctl_timeout_write_unbounded .battery 0 framework_screen_init _ hops).2.2.1⟩

/-- Reading a profile back after `framework_screen_setbrightness_low`. -/
theorem screen_setbrightness_low_deref (config : framework_screen_power_config_t)
    (p p1 : screen_config_ptr) (v : Nat) :
    (framework_screen_setbrightness_low config p v).deref p1
      = if p1 = p then { config.deref p with brightness_low := v } else config.deref p1 := by
  cases p <;> cases p1 <;> simp [framework_screen_setbrightness_low,
    framework_screen_power_config_t.store, framework_screen_power_config_t.deref]

/-- Reading a profile back after `framework_screen_setbrightness_high`. -/
theorem screen_setbrightness_high_deref (config : framework_screen_power_config_t)
    (p p1 : screen_config_ptr) (v : Nat) :
    (framework_screen_setbrightness_high config p v).deref p1
      = if p1 = p then { config.deref p with brightness_high := v } else config.deref p1 := by
  cases p <;> cases p1 <;> simp [framework_screen_setbrightness_high,
    framework_screen_power_config_t.store, framework_screen_power_config_t.deref]

/-- Reading a profile back after `framework_screen_settimeout_secs`. -/
theorem screen_settimeout_secs_deref (config : framework_screen_power_config_t)
    (p p1 : screen_config_ptr) (v : Nat) :
    (framework_screen_settimeout_secs config p v).deref p1
      = if p1 = p then { config.deref p with timeout_secs := v } else config.deref p1 := by
  cases p <;> cases p1 <;> simp [framework_screen_settimeout_secs,
    framework_screen_power_config_t.store, framework_screen_power_config_t.deref]

/-- One configuration change keeps both brightness values of every profile at
most 100 and the step as it was. -/
theorem config_step_brightness_range (config : framework_screen_power_config_t)
    (op : config_op)
    (hinv : ∀ p1, (config.deref p1).brightness_low ≤ 100 ∧
      (config.deref p1).brightness_high ≤ 100 ∧
      (config.deref p1).increment_level < 2147483648) :
    ∀ p1, ((config_step config op).deref p1).brightness_low ≤ 100 ∧
      ((config_step config op).deref p1).brightness_high ≤ 100 ∧
      ((config_step config op).deref p1).increment_level < 2147483648 := by
  intro p1
  cases op with
  | sysctl_brightness_low arg1 req =>
    simp only [config_step, framework_sysctl_screen_config_brightness_low]
    rcases sysctl_screenconf_handler_cases framework_screen_getbrightness_low
      framework_screen_setbrightness_low 100 arg1 req config with h | ⟨v, -, hv, h⟩
    · rw [h]; exact hinv p1
    · have hv100 : v ≤ 100 := by
        by_contra hc
        exact hv ⟨by decide, by omega⟩
      rw [h, screen_setbrightness_low_deref]
      split_ifs with hp
      · exact ⟨hv100, (hinv arg1).2.1, (hinv arg1).2.2⟩
      · exact hinv p1
  | sysctl_brightness_high arg1 req =>
    simp only [config_step, framework_sysctl_screen_config_brightness_high]
    rcases sysctl_screenconf_handler_cases framework_screen_getbrightness_high
      framework_screen_setbrightness_high 100 arg1 req config with h | ⟨v, -, hv, h⟩
    · rw [h]; exact hinv p1
    · have hv100 : v ≤ 100 := by
        by_contra hc
        exact hv ⟨by decide, by omega⟩
      rw [h, screen_setbrightness_high_deref]
      split_ifs with hp
      · exact ⟨(hinv arg1).1, hv100, (hinv arg1).2.2⟩
      · exact hinv p1
  | sysctl_timeout_secs arg1 req =>
    simp only [config_step, framework_sysctl_screen_config_timeout_secs]
    rcases sysctl_screenconf_handler_cases framework_screen_gettimeout_secs
      framework_screen_settimeout_secs 0 arg1 req config with h | ⟨v, -, -, h⟩
    · rw [h]; exact hinv p1
    · rw [h, screen_settimeout_secs_deref]
      split_ifs with hp
      · exact hinv arg1
      · exact hinv p1
  | brightness_up sc =>
    simp only [config_step, framework_screen_getincrement_level]
    obtain ⟨hlow, -, hinc⟩ := screen_config_changebrightness_frame config sc p1
      ((config.deref sc).increment_level : Int)
    obtain ⟨hhigh, hother⟩ := screen_config_changebrightness_up config sc
      (config.deref sc).increment_level (hinv sc).2.1 (hinv sc).2.2
    rw [hlow, hinc]
    refine ⟨(hinv p1).1, ?_, (hinv p1).2.2⟩
    by_cases hp : p1 = sc
    · subst hp; rw [hhigh]; omega
    · rw [hother p1 hp]; exact (hinv p1).2.1
  | brightness_down sc =>
    simp only [config_step, framework_screen_getincrement_level]
    obtain ⟨hlow, -, hinc⟩ := screen_config_changebrightness_frame config sc p1
      (-((config.deref sc).increment_level : Int))
    obtain ⟨hhigh, hother⟩ := screen_config_changebrightness_down config sc
      (config.deref sc).increment_level (hinv sc).2.1 (hinv sc).2.2
    rw [hlow, hinc]
    refine ⟨(hinv p1).1, ?_, (hinv p1).2.2⟩
    by_cases hp : p1 = sc
    · subst hp; rw [hhigh]; have := (hinv p1).2.1; omega
    · rw [hother p1 hp]; exact (hinv p1).2.1

/-- A sequence of configuration changes keeps both brightness values of every
profile at most 100. -/
theorem config_run_brightness_range (ops : List config_op)
    (config : framework_screen_power_config_t)
    (hinv : ∀ p1, (config.deref p1).brightness_low ≤ 100 ∧
      (config.deref p1).brightness_high ≤ 100 ∧
      (config.deref p1).increment_level < 2147483648) :
    ∀ p1, ((config_run ops config).deref p1).brightness_low ≤ 100 ∧
      ((config_run ops config).deref p1).brightness_high ≤ 100 ∧
      ((config_run ops config).deref p1).increment_level < 2147483648 := by
  induction ops generalizing config with
  | nil => exact hinv
  | cons op rest ih =>
    simp only [config_run, List.foldl_cons]
    exact ih _ (config_step_brightness_range config op hinv)

/-- C17: in every state reached from `framework_screen_init` by a sequence of
sysctl handler requests and manual steps up or down
(`framework_screen_config_changebrightness` with plus or minus the profile's
`increment_level`), `brightness_low` and `brightness_high` of both profiles
are at most 100 (they are unsigned, so never below 0; a decrease that went
below 0 would show as a value near `2^32`). -/
theorem config_run_brightness_in_range (ops : List config_op) :
    (config_run ops framework_screen_init).power.brightness_low ≤ 100 ∧
    (config_run ops framework_screen_init).power.brightness_high ≤ 100 ∧
    (config_run ops framework_screen_init).battery.brightness_low ≤ 100 ∧
    (config_run ops framework_screen_init).battery.brightness_high ≤ 100 := by
  have hinit : ∀ p1, (framework_screen_init.deref p1).brightness_low ≤ 100 ∧
      (framework_screen_init.deref p1).brightness_high ≤ 100 ∧
      (framework_screen_init.deref p1).increment_level < 2147483648 := by
    intro p1; cases p1 <;> decide
  have h := config_run_brightness_range ops framework_screen_init hinit
  exact ⟨(h .power).1, (h .power).2.1, (h .battery).1, (h .battery).2.1⟩

/-! ## The block-dim counter -/

/-- C18: for every counter value `c` (a `uint32_t`),
`framework_state_decdimcount` leaves the counter at 0 when `c == 0` and at
`c - 1` when `c > 0`; `framework_state_incdimcount` yields `c + 1` in
`uint32_t` arithmetic, which is `c + 1` for every `c < 2^32 - 1`; and for
those `c` a decrement after an increment restores the structure. -/
theorem state_dimcount_steps (st : framework_state_t)
    (hc : st.block_dim_count < 4294967296) :
    (st.block_dim_count = 0 →
      framework_state_getdimcount (framework_state_decdimcount (some st)) = 0) ∧
    (st.block_dim_count > 0 →
      framework_state_getdimcount (framework_state_decdimcount (some st))
        = st.block_dim_count - 1) ∧
    framework_state_getdimcount (framework_state_decdimcount (some st)) ≤ st.block_dim_count ∧
    framework_state_getdimcount (framework_state_incdimcount (some st))
      = (st.block_dim_count + 1) % 4294967296 ∧
    (st.block_dim_count < 4294967295 →
      framework_state_getdimcount (framework_state_incdimcount (some st))
        = st.block_dim_count + 1 ∧
      framework_state_decdimcount (framework_state_incdimcount (some st)) = some st) := by
  obtain ⟨flags, c⟩ := st
  simp only at hc
  simp only [framework_state_decdimcount, framework_state_incdimcount,
    framework_state_getdimcount]
  refine ⟨?_, ?_, ?_, trivial, ?_⟩
  · intro h0; subst h0; rfl
  · intro hpos
    rw [if_neg (by omega)]
  · split_ifs <;> simp only <;> omega
  · intro hlt
    have hmod : (c + 1) % 4294967296 = c + 1 := Nat.mod_eq_of_lt (by omega)
    rw [hmod]
    refine ⟨rfl, ?_⟩
    rw [if_neg (by omega)]
    simp

/-- Scenario: a decrement of the fresh counter leaves 0; an increment gives 1
and the decrement after it 0 again. -/
theorem state_dimcount_steps_witness :
    framework_state_init.block_dim_count < 4294967296 ∧
    framework_state_getdimcount (framework_state_decdimcount (some framework_state_init)) = 0 ∧
    framework_state_getdimcount (framework_state_incdimcount (some framework_state_init))
      = framework_state_init.block_dim_count + 1 ∧
    framework_state_decdimcount (framework_state_incdimcount (some framework_state_init))
      = some framework_state_init :=
  ⟨by decide,
    (state_dimcount_steps framework_state_init (by decide)).1 rfl,
    ((state_dimcount_steps framework_state_init (by decide)).2.2.2.2 (by decide)).1,
    ((state_dimcount_steps framework_state_init (by decide)).2.2.2.2 (by decide)).2⟩

/-- C19: with the block-dim counter at 1, an iteration of the loop body with
an elapsed time of 11 s and a timeout of 10 s still sets `current_level` to
`DIM` and requests the dim brightness 3: the supervisor has no access to the
counter. -/
theorem callout_thread_body_ignores_dimcount :
    framework_state_getdimcount (framework_state_incdimcount (some framework_state_init)) = 1 ∧
    framework_callout_elapsed sample_globals.framework_evdev.last_input sample_env.time_uptime
      = 11 ∧
    (framework_callout_getcurrenttimeout acpiio sample_env.q_timeout sample_env.time_uptime
      sample_globals).map Prod.fst = some 10 ∧
    sample_callout.current_level = .HIGH ∧
    (framework_callout_thread_body acpiio sample_env sample_callout sample_globals).map
      (fun r => (r.co.current_level, r.g.framework_backlight.requested))
      = some (.DIM, [3]) := by
  decide

/-! ## The drop flag -/

/-- Neither `framework_callout_getcurrenttimeout` nor
`framework_callout_getbrightnessfor` touches the drop flag. -/
theorem callout_getters_drop (K : acpi_batt_stat) (q : battquery) (t : Int)
    (co : framework_callout_t) (g g1 : framework_globals) (v : Nat) :
    (framework_callout_getcurrenttimeout K q t g = some (v, g1) →
      g1.framework_callout_drop = g.framework_callout_drop) ∧
    (framework_callout_getbrightnessfor K q t co g = some (v, g1) →
      g1.framework_callout_drop = g.framework_callout_drop) := by
  cases hpm : framework_pwr_getpowermode K q t g.framework_power with
  | none =>
    constructor
    · intro h; simp [framework_callout_getcurrenttimeout, hpm] at h
    · intro h; simp [framework_callout_getbrightnessfor, hpm] at h
  | some mf =>
    obtain ⟨m, fp1⟩ := mf
    constructor
    · intro h
      rw [callout_getcurrenttimeout_of_mode K q t g m fp1 hpm] at h
      simp only [Option.some.injEq, Prod.mk.injEq] at h
      rw [← h.2]
    · intro h
      rw [callout_getbrightnessfor_of_mode K q t co g m fp1 hpm] at h
      simp only [Option.some.injEq, Prod.mk.injEq] at h
      rw [← h.2]

/-- An iteration of the loop body leaves the drop flag as it was. -/
theorem callout_thread_body_drop (K : acpi_batt_stat) (env : cycle_env)
    (co : framework_callout_t) (g : framework_globals) (r : cycle_result)
    (h : framework_callout_thread_body K env co g = some r) :
    r.g.framework_callout_drop = g.framework_callout_drop := by
  unfold framework_callout_thread_body at h
  cases hT : framework_callout_getcurrenttimeout K env.q_timeout env.time_uptime g with
  | none => simp [hT] at h
  | some Tg =>
    obtain ⟨T, g1⟩ := Tg
    have hd1 := (callout_getters_drop K _ _ co g g1 T).1 hT
    rw [hT] at h
    simp only [framework_evdev_getlastinput] at h
    by_cases hz : 0 = T
    · rw [if_pos hz] at h
      simp only [Option.some.injEq] at h
      subst h
      exact hd1
    · rw [if_neg hz] at h
      generalize hco1 : (if framework_callout_elapsed g1.framework_evdev.last_input
        env.time_uptime ≥ T
        then ({ co with current_level := .DIM } : framework_callout_t) else co) = co1 at h
      cases hbr : framework_callout_getbrightnessfor K env.q_brightness env.time_uptime co1 g1 with
      | none => simp [hbr] at h
      | some bg =>
        obtain ⟨b, g2⟩ := bg
        have hd2 := (callout_getters_drop K _ _ co1 g1 g2 b).2 hbr
        simp only [hbr, Option.some.injEq] at h
        subst h
        simp only
        rw [hd2, hd1]

/-- The loop leaves the drop flag as it was. -/
theorem callout_loop_drop (K : acpi_batt_stat) (envs : List cycle_env)
    (co co1 : framework_callout_t) (g g1 : framework_globals)
    (h : framework_callout_loop K envs co g = some (co1, g1)) :
    g1.framework_callout_drop = g.framework_callout_drop := by
  induction envs generalizing co g with
  | nil =>
    simp only [framework_callout_loop, Option.some.injEq, Prod.mk.injEq] at h
    rw [← h.2]
  | cons env rest ih =>
    unfold framework_callout_loop at h
    split_ifs at h with hact
    · simp only [Option.some.injEq, Prod.mk.injEq] at h
      rw [← h.2]
    · cases hb : framework_callout_thread_body K env co g with
      | none => simp [hb] at h
      | some r =>
        simp only [hb] at h
        rw [ih r.co r.g h, callout_thread_body_drop K env co g r hb]

/-- C20: the drop flag starts at 1 and `framework_callout_init` does not touch
it; `framework_callout_thread` clears it when the loop thread starts and the
loop keeps it clear; `framework_callout_destroy` sets it to 1; and a call of
`framework_callout_inputintr` while the flag is set returns at once with the
supervisor and the module data, the request list included, unchanged. -/
theorem callout_drop_flag (K : acpi_batt_stat) (q : battquery) (t : Int)
    (co : framework_callout_t) (g : framework_globals) :
    framework_callout_drop_init = 1 ∧
    (∀ co1 g1, framework_callout_init K q t g = some (co1, g1) →
      g1.framework_callout_drop = g.framework_callout_drop) ∧
    (∀ envs co1 g1, framework_callout_thread K envs co g = some (co1, g1) →
      g1.framework_callout_drop = 0) ∧
    (∀ co0, (framework_callout_destroy co0 g).framework_callout_drop = 1) ∧
    (g.framework_callout_drop ≠ 0 → framework_callout_inputintr K q t co g = some (co, g)) ∧
    (∀ co0 co1, framework_callout_inputintr K q t co1 (framework_callout_destroy co0 g)
      = some (co1, framework_callout_destroy co0 g)) := by
  refine ⟨rfl, ?_, ?_, fun _ => rfl, ?_, ?_⟩
  · intro co1 g1 h
    unfold framework_callout_init at h
    simp only at h
    cases hbr : framework_callout_getbrightnessfor K q t
        { current_level := .HIGH, expect_next_callout := 0, active := 1 } g with
    | none => simp [hbr] at h
    | some bg =>
      obtain ⟨b, g2⟩ := bg
      have hd := (callout_getters_drop K q t _ g g2 b).2 hbr
      simp only [hbr, Option.some.injEq, Prod.mk.injEq] at h
      rw [← h.2]
      exact hd
  · intro envs co1 g1 h
    unfold framework_callout_thread at h
    rw [callout_loop_drop K envs co co1 _ g1 h]
  · intro hdrop
    unfold framework_callout_inputintr
    rw [if_pos hdrop]
  · intro co0 co1
    unfold framework_callout_inputintr
    rw [if_pos (by simp [framework_callout_destroy])]

/-- Scenario: before the loop thread has started an input event changes
nothing, though the supervisor is dimmed and the backlight is at 40. -/
theorem callout_drop_flag_witness :
    ({ sample_globals with framework_callout_drop := framework_callout_drop_init } :
      framework_globals).framework_callout_drop ≠ 0 ∧
    framework_callout_inputintr acpiio (sample_query 1) 120
      { sample_callout with current_level := .DIM }
      { sample_globals with framework_callout_drop := framework_callout_drop_init }
      = some ({ sample_callout with current_level := .DIM },
              { sample_globals with framework_callout_drop := framework_callout_drop_init }) :=
  ⟨by decide,
    (callout_drop_flag acpiio (sample_query 1) 120 { sample_callout with current_level := .DIM }
      { sample_globals with framework_callout_drop := framework_callout_drop_init }).2.2.2.2.1
      (by decide)⟩

/-! ## Module load -/

/-- Function `framework_pwr_init` returns, and when it returns 0 the power
mutex is free. -/
theorem pwr_init_returns (K : acpi_batt_stat) (kern : framework_kernel) :
    ∃ error fp, framework_pwr_init K kern = some (error, fp) ∧
      (error = 0 → fp.lock_held = false) := by
  unfold framework_pwr_init
  simp only
  cases framework_util_lookupcdev_drv1 kern.cdevp_list "acpi".toList with
  | none => exact ⟨_, _, rfl, fun h => absurd h (by decide)⟩
  | some d =>
    simp only
    split_ifs with h1 h2 h3
    · exact ⟨_, _, rfl, fun h => absurd h (by decide)⟩
    · exact ⟨_, _, rfl, fun h => absurd h (by decide)⟩
    · exact ⟨_, _, rfl, fun h => absurd h (by decide)⟩
    · unfold framework_pwr_loadbattinfo
      simp only [Bool.false_eq_true, if_false]
      split_ifs <;> first
        | exact ⟨_, _, rfl, fun _ => rfl⟩
        | exact ⟨_, _, rfl, fun h => absurd h (by decide)⟩

/-- With the power mutex free, `framework_callout_init` returns a supervisor. -/
theorem callout_init_returns (K : acpi_batt_stat) (q : battquery) (t : Int)
    (g : framework_globals) (hfree : g.framework_power.lock_held = false) :
    ∃ co g1, framework_callout_init K q t g = some (co, g1) := by
  obtain ⟨m, fp1, hm⟩ := pwr_getpowermode_returns K q t g.framework_power hfree
  unfold framework_callout_init
  simp only
  rw [callout_getbrightnessfor_of_mode K q t _ g m fp1 hm]
  exact ⟨_, _, rfl⟩

/-- Function `framework_evdev_matchdevs` returns 0 whenever it returns. -/
theorem evdev_matchdevs_zero (name : List Char) (drv_data : Option drv1_data)
    (bindings : List evdev_dev) (r : Int × List evdev_dev)
    (h : framework_evdev_matchdevs name drv_data bindings = some r) : r.1 = 0 := by
  unfold framework_evdev_matchdevs at h
  cases drv_data with
  | none => exact absurd h (by simp)
  | some d =>
    simp only at h
    split_ifs at h <;> (rw [← Option.some.inj h])

/-- The loop of `framework_util_matchcdev_drv1`, run with
`framework_evdev_matchdevs` from `result == 0`, ends with `result == 0`
whenever it ends. -/
theorem util_matchcdev_loop_matchdevs_zero (devname : List Char) (cdevp_list : List cdev_priv)
    (bindings : List evdev_dev) (r : Int × List evdev_dev)
    (h : framework_util_matchcdev_loop devname (some framework_evdev_matchdevs) cdevp_list
      bindings 0 = some r) : r.1 = 0 := by
  induction cdevp_list generalizing bindings with
  | nil =>
    simp only [framework_util_matchcdev_loop, Option.some.injEq] at h
    rw [← h]
  | cons cdp rest ih =>
    unfold framework_util_matchcdev_loop at h
    by_cases h1 : devname.head? ≠ cdp.si_name.head?
    · rw [if_pos h1] at h
      exact ih bindings h
    · rw [if_neg h1] at h
      by_cases h2 : strncmp_eq devname cdp.si_name devname.length = true
      · rw [if_pos h2] at h
        cases hcb : framework_evdev_matchdevs cdp.si_name cdp.si_drv1 bindings with
        | none => simp [hcb] at h
        | some rc =>
          obtain ⟨e, b1⟩ := rc
          have he : e = 0 := evdev_matchdevs_zero _ _ _ _ hcb
          subst he
          simp only [hcb, show Int.lor 0 0 = 0 from rfl, ne_eq, not_true_eq_false,
            if_false] at h
          exact ih b1 h
      · rw [if_neg h2] at h
        exact ih bindings h

/-- Function `framework_evdev_init` returns 0 whenever it returns: no set of
character devices makes it report an error. -/
theorem evdev_init_zero (cdevp_list : List cdev_priv)
    (r : Int × List evdev_dev × framework_evdev_t)
    (h : framework_evdev_init cdevp_list = some r) : r.1 = 0 := by
  unfold framework_evdev_init framework_util_matchcdev_drv1 at h
  cases hl : framework_util_matchcdev_loop "input/event".toList (some framework_evdev_matchdevs)
      cdevp_list [] 0 with
  | none =>
    rw [hl] at h
    exact absurd h (by simp)
  | some r1 =>
    rw [hl] at h
    simp only [Option.some.injEq] at h
    rw [← h]
    exact util_matchcdev_loop_matchdevs_zero _ _ _ _ hl

/-- C21: when the lookup of `backlight/backlight0` yields no device,
`framework_bl_init` returns `ENXIO`, and `framework_init` returns a non-zero
error with no supervisor created and the status at 2; when the power component
had initialised, the error is `ENXIO` and the error exit calls
`framework_pwr_destroy`, `framework_screen_destroy` and
`framework_state_destroy`, in that order. -/
theorem framework_init_without_backlight (K : acpi_batt_stat) (kern : framework_kernel)
    (hbl : framework_util_lookupcdev_drv1 kern.cdevp_list "backlight/backlight0".toList
      = none) :
    (framework_bl_init kern.cdevp_list).1 = ENXIO ∧
    ∃ r, framework_init K kern = some r ∧
      r.error ≠ 0 ∧ r.framework_data.callout = none ∧ r.framework_data.status = 2 ∧
      (∀ fp, framework_pwr_init K kern = some (0, fp) →
        r.error = ENXIO ∧ r.undone = [.pwr, .screen, .state]) := by
  have hblinit : (framework_bl_init kern.cdevp_list).1 = ENXIO := by
    unfold framework_bl_init
    rw [hbl]
  refine ⟨hblinit, ?_⟩
  obtain ⟨error, fp, hpwr, -⟩ := pwr_init_returns K kern
  unfold framework_init
  simp only [hpwr]
  by_cases he : 0 = error
  · subst he
    rw [if_neg (by decide)]
    rw [if_pos (by rw [hblinit]; decide)]
    refine ⟨_, rfl, ?_, rfl, rfl, ?_⟩
    · simp only [framework_errorexit]
      rw [hblinit]; decide
    · intro fp1 _
      simp only [framework_errorexit]
      exact ⟨hblinit, by decide⟩
  · rw [if_pos he]
    refine ⟨_, rfl, ?_, rfl, rfl, ?_⟩
    · simp only [framework_errorexit]
      exact fun h => he h.symm
    · intro fp1 h
      simp only [Option.some.injEq, Prod.mk.injEq] at h
      exact absurd h.1.symm he

/-- Scenario: the sample laptop without its backlight node. -/
theorem framework_init_without_backlight_witness :
    framework_util_lookupcdev_drv1 (sample_kernel_without "backlight".toList).cdevp_list
      "backlight/backlight0".toList = none ∧
    (framework_bl_init (sample_kernel_without "backlight".toList).cdevp_list).1 = ENXIO ∧
    ∃ r, framework_init acpiio (sample_kernel_without "backlight".toList) = some r ∧
      r.error ≠ 0 ∧ r.framework_data.callout = none ∧ r.framework_data.status = 2 ∧
      (∀ fp, framework_pwr_init acpiio (sample_kernel_without "backlight".toList)
          = some (0, fp) →
        r.error = ENXIO ∧ r.undone = [.pwr, .screen, .state]) :=
  ⟨by decide, framework_init_without_backlight acpiio
    (sample_kernel_without "backlight".toList) (by decide)⟩

/-- C22: on the sample laptop without its `input/event` nodes, where no
binding is created, `framework_evdev_init` returns 0, not an error, and
`framework_init` returns 0 with the supervisor created and the status at 1;
with the backlight node missing instead, `framework_init` on the same laptop
returns `ENXIO` and creates no supervisor. -/
theorem framework_init_starts_without_input :
    (sample_kernel_without "input".toList).cdevp_list.all
      (fun cdp => !strncmp_eq "input/event".toList cdp.si_name 11) = true ∧
    (framework_evdev_init (sample_kernel_without "input".toList).cdevp_list).map
      (fun r => (r.1, r.2.1)) = some (0, []) ∧
    (framework_init acpiio (sample_kernel_without "input".toList)).map
      (fun r => (r.error, r.framework_data.callout, r.framework_data.status, r.bindings))
      = some (0, some sample_callout, 1, []) ∧
    (framework_init acpiio (sample_kernel_without "backlight".toList)).map
      (fun r => (r.error, r.framework_data.callout, r.framework_data.status))
      = some ( ENXIO, none, 2) := by
  decide

/-! ## A zero timeout -/

/-- Counterexample to a zero timeout skipping one cycle only: on battery with
the battery profile's `timeout_secs` at 0, the iteration ends with
`active == 0`, not 1, and the loop runs no further iteration. -/
theorem callout_zero_timeout_not_skipped :
    (framework_callout_getcurrenttimeout acpiio sample_env.q_timeout sample_env.time_uptime
      { sample_globals with power_config :=
        (framework_sysctl_screen_config_timeout_secs .battery ⟨some 0, 0⟩
          sample_globals.power_config).2 }).map Prod.fst = some 0 ∧
    sample_callout.active = 1 ∧
    (framework_callout_thread_body acpiio sample_env sample_callout
      { sample_globals with power_config :=
        (framework_sysctl_screen_config_timeout_secs .battery ⟨some 0, 0⟩
          sample_globals.power_config).2 }).map (fun r => r.co.active) = some 0 ∧
    (framework_callout_thread_body acpiio sample_env sample_callout
      { sample_globals with power_config :=
        (framework_sysctl_screen_config_timeout_secs .battery ⟨some 0, 0⟩
          sample_globals.power_config).2 }).map (fun r => r.co.active) ≠ some 1 ∧
    (framework_callout_loop acpiio [sample_env, sample_env] sample_callout
      { sample_globals with power_config :=
        (framework_sysctl_screen_config_timeout_secs .battery ⟨some 0, 0⟩
          sample_globals.power_config).2 }).map
        (fun r => (r.1.active, r.2.framework_backlight.requested)) = some (0, []) := by
  decide

/-- C23, amended: when the classified power mode is `BAT` or `PWR` and the
selected profile's `timeout_secs` is 0, the iteration treats the value as
invalid and leaves the loop: the level is kept, the backlight is untouched
(no request, no write), there is no `msleep`, `co->active` becomes 0, and the
loop runs no further iteration. -/
theorem callout_zero_timeout_stops (K : acpi_batt_stat) (env : cycle_env)
    (co : framework_callout_t) (g : framework_globals)
    (m : framework_power_type_t) (fp1 : framework_power_t) (p : screen_config_ptr)
    (hmode : framework_pwr_getpowermode K env.q_timeout env.time_uptime g.framework_power
      = some (m, fp1))
    (hp : framework_callout_screen_config m = some p)
    (hzero : (g.power_config.deref p).timeout_secs = 0) :
    ∃ r, framework_callout_thread_body K env co g = some r ∧
      r.co.current_level = co.current_level ∧
      r.g.framework_backlight = g.framework_backlight ∧
      r.sleep = none ∧ r.co.active = 0 ∧
      (∀ envs, framework_callout_loop K envs r.co r.g = some (r.co, r.g)) := by
  refine ⟨{ co := { co with active := 0 }, g := { g with framework_power := fp1 },
            sleep := none }, ?_, rfl, rfl, rfl, rfl, ?_⟩
  · unfold framework_callout_thread_body
    rw [callout_getcurrenttimeout_of_mode K _ _ g m fp1 hmode]
    simp [hp, hzero]
  · intro envs
    exact callout_loop_of_inactive K envs _ _ rfl

/-- Scenario: on battery with the battery profile's timeout at 0 the loop
stops. -/
theorem callout_zero_timeout_stops_witness :
    framework_pwr_getpowermode acpiio sample_env.q_timeout sample_env.time_uptime
      sample_globals.framework_power = some (.BAT, ⟨.BAT, ⟨80, 90, 1, 5⟩, false, 111⟩) ∧
    framework_callout_screen_config .BAT = some .battery ∧
    (({ sample_globals with power_config :=
        (framework_sysctl_screen_config_timeout_secs .battery ⟨some 0, 0⟩
          sample_globals.power_config).2 } : framework_globals).power_config.deref
            .battery).timeout_secs = 0 ∧
    ∃ r, framework_callout_thread_body acpiio sample_env sample_callout
        { sample_globals with power_config :=
          (framework_sysctl_screen_config_timeout_secs .battery ⟨some 0, 0⟩
            sample_globals.power_config).2 } = some r ∧
      r.co.current_level = sample_callout.current_level ∧
      r.g.framework_backlight = sample_globals.framework_backlight ∧
      r.sleep = none ∧ r.co.active = 0 ∧
      (∀ envs, framework_callout_loop acpiio envs r.co r.g = some (r.co, r.g)) :=
  ⟨by decide, rfl, by decide,
    callout_zero_timeout_stops acpiio sample_env sample_callout
      { sample_globals with power_config :=
        (framework_sysctl_screen_config_timeout_secs .battery ⟨some 0, 0⟩
          sample_globals.power_config).2 }
      .BAT ⟨.BAT, ⟨80, 90, 1, 5⟩, false, 111⟩ .battery (by decide) rfl (by decide)⟩

/-! ## An unclassifiable power mode while the brightness is computed -/

/-- C24: when the second classification of an iteration, the one made inside
`framework_callout_getbrightnessfor`, reports the state code 3, the iteration
passes 4294967295 (the `-1` the function returns, as `uint32_t`) to
`framework_bl_setbrightness`, which writes it to the device; the same happens
in `framework_callout_init` and in `framework_callout_inputintr`. The value is
none of the four brightness values of the profiles. -/
theorem callout_pushes_error_value :
    (framework_callout_getcurrenttimeout acpiio sample_env.q_timeout sample_env.time_uptime
      sample_globals).map Prod.fst = some 10 ∧
    (framework_callout_thread_body acpiio { sample_env with q_brightness := sample_query 3 }
      sample_callout sample_globals).map
        (fun r => (r.g.framework_backlight.requested, r.g.framework_backlight.dev.updates,
          r.g.framework_backlight.dev.level))
      = some ([4294967295], [4294967295], 4294967295) ∧
    (framework_callout_init acpiio (sample_query 3) 111 sample_globals).map
        (fun r => (r.2.framework_backlight.requested, r.2.framework_backlight.dev.updates))
      = some ([4294967295], [4294967295]) ∧
    (framework_callout_inputintr acpiio (sample_query 3) 111 sample_callout sample_globals).map
        (fun r => (r.2.framework_backlight.requested, r.2.framework_backlight.dev.updates))
      = some ([4294967295], [4294967295]) ∧
    (4294967295 : Nat) ∉ [sample_globals.power_config.power.brightness_low,
      sample_globals.power_config.power.brightness_high,
      sample_globals.power_config.battery.brightness_low,
      sample_globals.power_config.battery.brightness_high] := by
  decide

/-! ## Lock order -/

/-- Counterexample to the profile store mutex never being taken under the
`current_level` lock: in a run of `framework_callout_getbrightnessfor` on
battery, the getter takes the profile store mutex while the read/write lock is
read-held; so do the input callback and the loop body, which call it. -/
theorem callout_getbrightnessfor_nests_locks :
    framework_callout_getbrightnessfor_locks .BAT
      = [.acquire .power_lock false, .release .power_lock,
         .acquire .power_lock false, .release .power_lock,
         .acquire .callout_rwlock true,
         .acquire .screen_lock false, .release .screen_lock,
         .release .callout_rwlock] ∧
    lock_trace_any screen_under_rwlock [] (framework_callout_getbrightnessfor_locks .BAT)
      = true ∧
    lock_trace_any screen_under_rwlock [] (framework_callout_inputintr_locks 0 .BAT) = true ∧
    lock_trace_any screen_under_rwlock [(.callout_lock, false)]
      (framework_callout_thread_body_locks .BAT 10 11 .BAT) = true := by
  decide

/-- C25, amended: in every run of `framework_callout_getbrightnessfor`,
`framework_callout_getcurrenttimeout`, `framework_callout_inputintr` and the
loop body, the profile store mutex is never acquired while the `current_level`
read/write lock is held for writing, and the read/write lock is never acquired
while the profile store mutex is held; the profile store mutex is acquired
under the read-held read/write lock in `framework_callout_getbrightnessfor`
exactly when the classification is `BAT` or `PWR`, and never in
`framework_callout_getcurrenttimeout`. -/
theorem callout_lock_order (state mode : framework_power_type_t)
    (drop current_timeout elapsed_time : Nat) :
    (lock_trace_any screen_under_wlock [] (framework_callout_getbrightnessfor_locks mode)
        = false ∧
      lock_trace_any screen_under_wlock [] (framework_callout_getcurrenttimeout_locks state)
        = false ∧
      lock_trace_any screen_under_wlock [] (framework_callout_inputintr_locks drop mode)
        = false ∧
      lock_trace_any screen_under_wlock [(.callout_lock, false)]
        (framework_callout_thread_body_locks state current_timeout elapsed_time mode)
        = false) ∧
    (lock_trace_any rwlock_under_screen [] (framework_callout_getbrightnessfor_locks mode)
        = false ∧
      lock_trace_any rwlock_under_screen [] (framework_callout_getcurrenttimeout_locks state)
        = false ∧
      lock_trace_any rwlock_under_screen [] (framework_callout_inputintr_locks drop mode)
        = false ∧
      lock_trace_any rwlock_under_screen [(.callout_lock, false)]
        (framework_callout_thread_body_locks state current_timeout elapsed_time mode)
        = false) ∧
    (lock_trace_any screen_under_rwlock [] (framework_callout_getbrightnessfor_locks mode)
        = true ↔ mode ≠ .IVL) ∧
    lock_trace_any screen_under_rwlock [] (framework_callout_getcurrenttimeout_locks state)
      = false := by
  have hdrop : ∀ bad : lock_id → Bool → List (lock_id × Bool) → Bool,
      lock_trace_any bad [] (framework_callout_inputintr_locks drop mode)
        = if drop ≠ 0 then false
          else lock_trace_any bad [] (framework_callout_inputintr_locks 0 mode) := by
    intro bad
    by_cases hd : drop = 0
    · subst hd; simp
    · simp [framework_callout_inputintr_locks, hd, lock_trace_any]
  have hbody : framework_callout_thread_body_locks state current_timeout elapsed_time mode
      = framework_callout_thread_body_locks state 0 0 mode ∨
      framework_callout_thread_body_locks state current_timeout elapsed_time mode
      = framework_callout_thread_body_locks state 1 1 mode ∨
      framework_callout_thread_body_locks state current_timeout elapsed_time mode
      = framework_callout_thread_body_locks state 1 0 mode := by
    by_cases hz : 0 = current_timeout
    · left
      subst hz
      simp [framework_callout_thread_body_locks]
    · by_cases he : elapsed_time ≥ current_timeout
      · right; left
        simp [framework_callout_thread_body_locks, hz, he]
      · right; right
        simp [framework_callout_thread_body_locks, hz, he]
  refine ⟨⟨?_, ?_, ?_, ?_⟩, ⟨?_, ?_, ?_, ?_⟩, ?_, ?_⟩
  · cases mode <;> decide
  · cases state <;> decide
  · rw [hdrop]; split_ifs
    · rfl
    · cases mode <;> decide
  · rcases hbody with h | h | h <;> rw [h] <;> cases state <;> cases mode <;> decide
  · cases mode <;> decide
  · cases state <;> decide
  · rw [hdrop]; split_ifs
    · rfl
    · cases mode <;> decide
  · rcases hbody with h | h | h <;> rw [h] <;> cases state <;> cases mode <;> decide
  · cases mode <;> decide
  · cases state <;> decide

/-! ## Re-arming the wait -/

/-- C27: when the iteration's classification selects a profile with
`timeout_secs = t > 0`, then for every elapsed time `e` the iteration reaches
its `msleep` and the seconds `n` it sleeps satisfy `1 <= n <= t`; and whenever
`e < t`, `e + n == t`. -/
theorem callout_rearm_bounds (K : acpi_batt_stat) (env : cycle_env)
    (co : framework_callout_t) (g : framework_globals)
    (m : framework_power_type_t) (fp1 : framework_power_t) (p : screen_config_ptr)
    (hmode : framework_pwr_getpowermode K env.q_timeout env.time_uptime g.framework_power
      = some (m, fp1))
    (hp : framework_callout_screen_config m = some p)
    (hpos : 0 < (g.power_config.deref p).timeout_secs) :
    ∃ r n, framework_callout_thread_body K env co g = some r ∧
      r.sleep = some (n, framework_callout_sec2tick env.tvtohz n) ∧
      1 ≤ n ∧ n ≤ (g.power_config.deref p).timeout_secs ∧
      (framework_callout_elapsed g.framework_evdev.last_input env.time_uptime
          < (g.power_config.deref p).timeout_secs →
        framework_callout_elapsed g.framework_evdev.last_input env.time_uptime + n
          = (g.power_config.deref p).timeout_secs) := by
  obtain ⟨r, hr, -, hs⟩ := callout_thread_body_sleep K env co g m fp1 p hmode hp hpos
  refine ⟨r, _, hr, hs, ?_, ?_, ?_⟩
  · split_ifs <;> omega
  · split_ifs <;> omega
  · intro h
    rw [if_pos h]
    omega

/-- Scenario: on battery with timeout 10, 5 s after the last input the loop
sleeps 5 s; 11 s after it, 10 s. -/
theorem callout_rearm_bounds_witness :
    framework_pwr_getpowermode acpiio (sample_query 1) 105 sample_globals.framework_power
      = some (.BAT, ⟨.BAT, ⟨80, 90, 1, 5⟩, false, 105⟩) ∧
    framework_callout_screen_config .BAT = some .battery ∧
    0 < (sample_globals.power_config.deref .battery).timeout_secs ∧
    (∃ r n, framework_callout_thread_body acpiio { sample_env with time_uptime := 105 }
        sample_callout sample_globals = some r ∧
      r.sleep = some (n, framework_callout_sec2tick (fun s => 1000 * s) n) ∧
      1 ≤ n ∧ n ≤ (sample_globals.power_config.deref .battery).timeout_secs ∧
      (framework_callout_elapsed sample_globals.framework_evdev.last_input 105
          < (sample_globals.power_config.deref .battery).timeout_secs →
        framework_callout_elapsed sample_globals.framework_evdev.last_input 105 + n
          = (sample_globals.power_config.deref .battery).timeout_secs)) ∧
    (framework_callout_thread_body acpiio sample_env sample_callout sample_globals).map
      (fun r => r.sleep) = some (some (10, 10000)) :=
  ⟨by decide, rfl, by decide,
    callout_rearm_bounds acpiio { sample_env with time_uptime := 105 } sample_callout
      sample_globals .BAT ⟨.BAT, ⟨80, 90, 1, 5⟩, false, 105⟩ .battery (by decide) rfl
      (by decide),
    by decide⟩

/-! ## The power mutex -/

/-- C28: for the state code 3, which is none of the labels of the `switch`,
`framework_pwr_loadbattinfo` returns `EDOM` with the power mutex still held;
`framework_pwr_getpowermode` answers `IVL`, and the next call of
`framework_pwr_getpowermode`, whatever it is asked, does not return. -/
theorem pwr_loadbattinfo_leaves_mutex_held :
    sample_power.lock_held = false ∧
    framework_pwr_loadbattinfo acpiio (sample_query 3) 7 sample_power
      = some (EDOM, { sample_power with battinfo := ⟨80, 90, 3, 5⟩, lock_held := true }) ∧
    framework_pwr_getpowermode acpiio (sample_query 3) 7 sample_power
      = some (.IVL, { sample_power with battinfo := ⟨80, 90, 3, 5⟩, lock_held := true }) ∧
    framework_pwr_getpowermode acpiio (sample_query 1) 8
      { sample_power with battinfo := ⟨80, 90, 3, 5⟩, lock_held := true } = none ∧
    (framework_pwr_loadbattinfo acpiio (sample_query 1) 7 sample_power).map
      (fun r => r.2.lock_held) = some false := by
  decide

/-! ## The dimblock setting -/

/-- C29: for every counter value `c` (a `uint32_t`) and every value `v`
written to the dimblock node: if `v == c` the counter is unchanged; if
`v != c` and `v > 0` the counter becomes `c + 1` in `uint32_t` arithmetic
(`c + 1` for `c < 2^32 - 1`), not `v`; if `v != c` and `v == 0` then `c > 0`
and the counter becomes `c - 1`. -/
theorem sysctl_dimblock_steps (st : framework_state_t) (v : Nat)
    (hc : st.block_dim_count < 4294967296) :
    (v = st.block_dim_count →
      framework_sysctl_dimblock (some st) ⟨some v, 0⟩ = (0, some st)) ∧
    (v ≠ st.block_dim_count → v > 0 →
      framework_sysctl_dimblock (some st) ⟨some v, 0⟩
        = (0, some { st with block_dim_count := (st.block_dim_count + 1) % 4294967296 }) ∧
      (st.block_dim_count < 4294967295 →
        framework_state_getdimcount (framework_sysctl_dimblock (some st) ⟨some v, 0⟩).2
          = st.block_dim_count + 1)) ∧
    (v ≠ st.block_dim_count → v = 0 →
      st.block_dim_count > 0 ∧
      framework_sysctl_dimblock (some st) ⟨some v, 0⟩
        = (0, some { st with block_dim_count := st.block_dim_count - 1 })) := by
  obtain ⟨flags, c⟩ := st
  simp only at hc
  refine ⟨?_, ?_, ?_⟩
  · intro hv
    simp only at hv
    subst hv
    simp [framework_sysctl_dimblock, sysctl_handle_32, framework_state_getdimcount]
  · intro hne hpos
    simp only at hne
    have h1 : framework_sysctl_dimblock (some ⟨flags, c⟩) ⟨some v, 0⟩
        = (0, some { flags := flags, block_dim_count := (c + 1) % 4294967296 }) := by
      simp [framework_sysctl_dimblock, sysctl_handle_32, framework_state_getdimcount, hne,
        hpos, framework_state_incdimcount]
    refine ⟨h1, ?_⟩
    intro hlt
    simp only at hlt
    rw [h1]
    simp only [framework_state_getdimcount]
    exact Nat.mod_eq_of_lt (by omega)
  · intro hne h0
    simp only at hne
    subst h0
    have hcpos : c > 0 := by omega
    refine ⟨hcpos, ?_⟩
    have hc0 : ¬ (0 = c) := by omega
    simp [framework_sysctl_dimblock, sysctl_handle_32, framework_state_getdimcount, hc0,
      framework_state_decdimcount]

/-- Scenario: with the counter at 3, writing 7 gives 4 and writing 0 gives 2;
writing 3 changes nothing. -/
theorem sysctl_dimblock_steps_witness :
    ({ framework_state_init with block_dim_count := 3 } : framework_state_t).block_dim_count
      < 4294967296 ∧
    framework_sysctl_dimblock (some { framework_state_init with block_dim_count := 3 })
      ⟨some 7, 0⟩ = (0, some { framework_state_init with block_dim_count := 4 }) ∧
    framework_sysctl_dimblock (some { framework_state_init with block_dim_count := 3 })
      ⟨some 0, 0⟩ = (0, some { framework_state_init with block_dim_count := 2 }) ∧
    framework_sysctl_dimblock (some { framework_state_init with block_dim_count := 3 })
      ⟨some 3, 0⟩ = (0, some { framework_state_init with block_dim_count := 3 }) :=
  ⟨by decide,
    ((sysctl_dimblock_steps { framework_state_init with block_dim_count := 3 } 7
      (by decide)).2.1 (by decide) (by decide)).1,
    ((sysctl_dimblock_steps { framework_state_init with block_dim_count := 3 } 0
      (by decide)).2.2 (by decide) rfl).2,
    (sysctl_dimblock_steps { framework_state_init with block_dim_count := 3 } 3
      (by decide)).1 rfl⟩

/-! ## Round trip and frame of the profile store -/

/-- A call through `config->funcs` leaves `increment_level` of every profile as
it was. -/
theorem funcs_step_increment_level (config : framework_screen_power_config_t)
    (op : funcs_op) (p1 : screen_config_ptr) :
    ((funcs_step config op).deref p1).increment_level = (config.deref p1).increment_level := by
  cases op with
  | set_brightness_low sc v =>
    simp only [funcs_step, screen_setbrightness_low_deref]
    split_ifs with h
    · subst h; rfl
    · rfl
  | set_brightness_high sc v =>
    simp only [funcs_step, screen_setbrightness_high_deref]
    split_ifs with h
    · subst h; rfl
    · rfl
  | set_timeout_secs sc v =>
    simp only [funcs_step, screen_settimeout_secs_deref]
    split_ifs with h
    · subst h; rfl
    · rfl
  | change_rel_brightness sc relative =>
    exact (screen_config_changebrightness_frame config sc p1 relative).2.2

/-- A sequence of calls through `config->funcs` leaves `increment_level` of
every profile as it was. -/
theorem funcs_run_increment_level (ops : List funcs_op)
    (config : framework_screen_power_config_t) (p1 : screen_config_ptr) :
    ((funcs_run ops config).deref p1).increment_level = (config.deref p1).increment_level := by
  induction ops generalizing config with
  | nil => rfl
  | cons op rest ih =>
    simp only [funcs_run, List.foldl_cons]
    exact (ih (funcs_step config op)).trans (funcs_step_increment_level config op p1)

/-- C30: for each profile `p`, each of the fields `brightness_low`,
`brightness_high` and `timeout_secs`, and every value `v`: the getter after the
setter returns `v`, the setter leaves the other fields of `p` and the whole
other profile unchanged; and `increment_level` is 10 in both profiles after
`framework_screen_init` and after every sequence of setter and
`change_rel_brightness` calls that follows it. -/
theorem screen_store_roundtrip (config : framework_screen_power_config_t)
    (p : screen_config_ptr) (v : Nat) (ops : List funcs_op) :
    (framework_screen_getbrightness_low (framework_screen_setbrightness_low config p v) p = v ∧
      (framework_screen_setbrightness_low config p v).deref p
        = { config.deref p with brightness_low := v } ∧
      ∀ p1, p1 ≠ p → (framework_screen_setbrightness_low config p v).deref p1
        = config.deref p1) ∧
    (framework_screen_getbrightness_high (framework_screen_setbrightness_high config p v) p = v ∧
      (framework_screen_setbrightness_high config p v).deref p
        = { config.deref p with brightness_high := v } ∧
      ∀ p1, p1 ≠ p → (framework_screen_setbrightness_high config p v).deref p1
        = config.deref p1) ∧
    (framework_screen_gettimeout_secs (framework_screen_settimeout_secs config p v) p = v ∧
      (framework_screen_settimeout_secs config p v).deref p
        = { config.deref p with timeout_secs := v } ∧
      ∀ p1, p1 ≠ p → (framework_screen_settimeout_secs config p v).deref p1
        = config.deref p1) ∧
    (∀ p1, framework_screen_getincrement_level (funcs_run ops framework_screen_init) p1 = 10) := by
  refine ⟨⟨?_, ?_, ?_⟩, ⟨?_, ?_, ?_⟩, ⟨?_, ?_, ?_⟩, ?_⟩
  · simp [framework_screen_getbrightness_low, screen_setbrightness_low_deref]
  · simp [screen_setbrightness_low_deref]
  · intro p1 hne; simp [screen_setbrightness_low_deref, hne]
  · simp [framework_screen_getbrightness_high, screen_setbrightness_high_deref]
  · simp [screen_setbrightness_high_deref]
  · intro p1 hne; simp [screen_setbrightness_high_deref, hne]
  · simp [framework_screen_gettimeout_secs, screen_settimeout_secs_deref]
  · simp [screen_settimeout_secs_deref]
  · intro p1 hne; simp [screen_settimeout_secs_deref, hne]
  · intro p1
    unfold framework_screen_getincrement_level
    rw [funcs_run_increment_level]
    cases p1 <;> rfl

end Framework
